import Mathlib

/-!
# The Dawn wrapper of skia_dart (`src/wrapper/sk_dawn.cpp`)

A shallow embedding of the C entry points of `sk_dawn.cpp`, followed by the
entry points of `sk_graphite.cpp`, `sk_paint.cpp`, `sk_path_builder.cpp`,
`sk_path.cpp`, `sk_matrix.cpp` and `sk_runtimeeffect.cpp` that the properties
below are about.

* Pointers are natural numbers, `0` is `nullptr`.
* The two preprocessor switches that select the bodies (`SK_DAWN`, `_WIN32`)
  are the fields of `BuildConfig`.
* The Dawn library itself is not part of the repository.  What the wrapper
  asks of it is recorded in a trace of `Event`s (one entry per native call,
  with the value the native side answered), and the answers of the driver are
  the fields of `Driver`.
* Blocking loops carry a fuel argument; a result `none` means that the loop is
  still waiting when the fuel is used up.
-/

namespace SkDawn

/-! ## Data model -/

/-- An opaque native pointer; `0` is the null pointer. -/
abbrev Handle := Nat

/-- The preprocessor configuration the file is compiled with. -/
structure BuildConfig where
  /-- Whether `SK_DAWN` is defined. -/
  SK_DAWN : Bool
  /-- Whether `_WIN32` is defined. -/
  WIN32 : Bool
  /-- Whether `SK_DAWN_` (with the trailing underscore) is defined, the macro
  that guards the three D3D12 accessors.  Nothing in the sources defines it. -/
  SK_DAWN_ : Bool := false
  /-- Whether `SK_GRAPHITE` is defined. -/
  SK_GRAPHITE : Bool := false
  /-- Whether `SK_METAL` is defined. -/
  SK_METAL : Bool := false
  deriving DecidableEq, Repr

/-- What the native side hands to a completion callback. -/
structure Completion where
  status : Nat
  handle : Handle
  message : String
  deriving DecidableEq, Repr

/-- Value of `WGPURequestAdapterStatus_Success` in `webgpu.h`. -/
def WGPURequestAdapterStatus_Success : Nat := 1

/-- Value of `WGPURequestDeviceStatus_Success` in `webgpu.h`. -/
def WGPURequestDeviceStatus_Success : Nat := 1

/-- Value of `WGPUCallbackMode_AllowProcessEvents` in `webgpu.h`. -/
def WGPUCallbackMode_AllowProcessEvents : Nat := 2

/-- The constant `UINT64_MAX`. -/
def UINT64_MAX : Nat := 2 ^ 64 - 1

/-- The functions of `sk_dawn.cpp` that are handed to Dawn as callbacks. -/
inductive CallbackRef where
  | null
  | adapter_request_callback
  | device_request_callback
  | device_lost_callback
  | uncaptured_error_lambda
  deriving DecidableEq, Repr

/-- The fields of `WGPUDeviceDescriptor` that `sk_wgpu_adapter_request_device`
sets; every other field keeps the value of `WGPU_DEVICE_DESCRIPTOR_INIT`. -/
structure DeviceDescriptor where
  requiredFeatures : List Nat
  requiredFeatureCount : Nat
  deviceLostCallbackMode : Nat
  deviceLostCallback : CallbackRef
  uncapturedErrorCallback : CallbackRef
  deriving DecidableEq, Repr

/-- Value of `WGPUInstanceFeatureName_TimedWaitAny` in `webgpu.h`. -/
def WGPUInstanceFeatureName_TimedWaitAny : Nat := 1

/-- The fields of `wgpu::InstanceDescriptor` and of the chained
`wgpu::DawnTogglesDescriptor` that `sk_wgpu_create_instance` sets. -/
structure InstanceDescriptor where
  requiredFeatureCount : Nat
  requiredFeatures : List Nat
  enabledToggleCount : Nat
  enabledToggles : List String
  deriving DecidableEq, Repr

/-- One observable step at the boundary between the wrapper and Dawn: a native
call issued by the wrapper (with the answer of the native side where there is
one), or a completion callback delivered by the native side. -/
inductive Event where
  | wgpuInstanceRelease (inst : Handle)
  | wgpuInstanceProcessEvents (inst : Handle)
  | wgpuInstanceRequestAdapter (inst : Handle) (backendType : Nat) (callbackMode : Nat)
      (future : Nat)
  | wgpuInstanceWaitAny (inst : Handle) (futureCount : Nat) (future : Nat)
      (timeoutNS : Nat)
  | wgpuAdapterRelease (adapter : Handle)
  | wgpuAdapterRequestDevice (adapter : Handle) (desc : DeviceDescriptor)
      (callbackMode : Nat) (future : Nat)
  | wgpuDeviceAddRef (device : Handle)
  | wgpuDeviceRelease (device : Handle)
  | wgpuDeviceGetQueue (device : Handle) (queue : Handle)
  | wgpuQueueRelease (queue : Handle)
  | wgpuTextureAddRef (texture : Handle)
  | wgpuTextureRelease (texture : Handle)
  | wgpuSharedTextureMemoryAddRef (memory : Handle)
  | wgpuSharedTextureMemoryRelease (memory : Handle)
  | wgpuSharedTextureMemoryCreateTexture (memory : Handle) (texture : Handle)
  | wgpuSharedTextureMemoryBeginAccess (memory : Handle) (texture : Handle) (success : Bool)
  | wgpuSharedTextureMemoryEndAccess (memory : Handle) (texture : Handle) (success : Bool)
      (fences : List (Handle × Nat))
  | wgpuDeviceImportSharedTextureMemory (device : Handle) (resource : Handle)
      (label : String) (memory : Handle)
  | adapterCallback (c : Completion)
  | deviceCallback (c : Completion)
  | dawnProcSetProcs
  | wgpuCreateInstance (desc : InstanceDescriptor) (inst : Handle)
  | wgpuDeviceImportSharedTextureMemoryD3D11 (device : Handle) (texture : Handle)
      (label : String) (memory : Handle)
  | getD3D11Device (device : Handle) (object : Handle)
  | getD3D12Device (device : Handle) (object : Handle)
  | getOrCreateD3D11On12Device (device : Handle) (object : Handle)
  | getD3D12CommandQueue (device : Handle) (object : Handle)
  | comAddRef (object : Handle)
  | comRelease (object : Handle)
  | deviceLostCallback (device : Handle) (reason : Nat) (message : String)
  | uncapturedErrorCallback (device : Handle) (type : Nat) (message : String)
  deriving DecidableEq, Repr

/-- The state of the native side as far as the wrapper can influence it. -/
structure World where
  /-- Native reference count of the object behind each handle. -/
  refs : Handle → Nat
  /-- Native calls and callback deliveries so far, oldest first. -/
  trace : List Event
  /-- Objects whose destruction path has run, oldest first. -/
  destroyed : List Handle
  /-- Lines written to the error stream, oldest first. -/
  stderr : List String
  /-- COM reference count of the platform object behind each pointer, as the
  `IUnknown` contract describes it: `AddRef` adds one, `Release` takes one
  away.  What an object does when its count reaches zero is its own affair. -/
  comRefs : Handle → Int := fun _ => 0
  /-- The file-level `___device`.  Its declaration is not in the sources at
  hand; it is used as a `ComPtr<ID3D11Device>` (`___device.As(...)`, assignment
  from the `ComPtr` that `GetD3D11Device` returns). -/
  ___device : Handle := 0
  /-- The function-local `static std::once_flag initFlag` of `sk_wgpu_init`:
  whether the `call_once` has run. -/
  initFlag : Bool := false

/-- A world in which nothing has happened yet. -/
def World.empty : World :=
  { refs := fun _ => 0, trace := [], destroyed := [], stderr := [] }

/-- Record one event at the end of the trace. -/
def World.log (w : World) (e : Event) : World :=
  { w with trace := w.trace ++ [e] }

/-- Overwrite the count of one handle. -/
def setRef (refs : Handle → Nat) (h : Handle) (n : Nat) : Handle → Nat :=
  fun k => if k = h then n else refs k

/-! ## The native reference counting contract

`wgpuXAddRef` and `wgpuXRelease` of the Dawn C API: every object carries one
count, `AddRef` adds one, `Release` takes one away and runs the destruction
path when it takes the last one.  A null handle names no object: the call is
recorded, no count moves. -/

/-- Native `wgpuXAddRef(h)`; `e` is the trace entry of the call. -/
def nativeAddRef (e : Event) (h : Handle) (w : World) : World :=
  let w1 := w.log e
  if h = 0 then w1 else { w1 with refs := setRef w1.refs h (w1.refs h + 1) }

/-- Native `wgpuXRelease(h)`; `e` is the trace entry of the call. -/
def nativeRelease (e : Event) (h : Handle) (w : World) : World :=
  let w1 := w.log e
  if h = 0 then w1 else
    { w1 with
      refs := setRef w1.refs h (w1.refs h - 1)
      destroyed := if w1.refs h = 1 then w1.destroyed ++ [h] else w1.destroyed }

/-- Constructor `wgpu::ObjectBase(CType handle)` of `webgpu_cpp.h`: the C++
handle takes a reference of its own unless the pointer is null. -/
def cppAcquire (e : Event) (h : Handle) (w : World) : World :=
  if h = 0 then w else nativeAddRef e h w

/-- Destructor of `wgpu::ObjectBase`: gives the reference back unless the
pointer is null. -/
def cppDestroy (e : Event) (h : Handle) (w : World) : World :=
  if h = 0 then w else nativeRelease e h w

/-! ## Reference counting entry points (`sk_dawn.cpp` lines 53-57, 112-116, 189-228, 297-307) -/

def sk_wgpu_instance_release (cfg : BuildConfig) (inst : Handle) (w : World) : World :=
  if cfg.SK_DAWN then nativeRelease (.wgpuInstanceRelease inst) inst w else w

def sk_wgpu_adapter_release (cfg : BuildConfig) (adapter : Handle) (w : World) : World :=
  if cfg.SK_DAWN then nativeRelease (.wgpuAdapterRelease adapter) adapter w else w

def sk_wgpu_device_add_ref (cfg : BuildConfig) (device : Handle) (w : World) : World :=
  if cfg.SK_DAWN then nativeAddRef (.wgpuDeviceAddRef device) device w else w

def sk_wgpu_device_release (cfg : BuildConfig) (device : Handle) (w : World) : World :=
  if cfg.SK_DAWN then nativeRelease (.wgpuDeviceRelease device) device w else w

def sk_wgpu_queue_release (cfg : BuildConfig) (queue : Handle) (w : World) : World :=
  if cfg.SK_DAWN then nativeRelease (.wgpuQueueRelease queue) queue w else w

def sk_wgpu_texture_add_ref (cfg : BuildConfig) (texture : Handle) (w : World) : World :=
  if cfg.SK_DAWN then nativeAddRef (.wgpuTextureAddRef texture) texture w else w

def sk_wgpu_texture_release (cfg : BuildConfig) (texture : Handle) (w : World) : World :=
  if cfg.SK_DAWN then nativeRelease (.wgpuTextureRelease texture) texture w else w

def sk_wgpu_shared_texture_memory_add_ref (cfg : BuildConfig) (texture_memory : Handle)
    (w : World) : World :=
  if cfg.SK_DAWN then
    nativeAddRef (.wgpuSharedTextureMemoryAddRef texture_memory) texture_memory w
  else w

def sk_wgpu_shared_texture_memory_release (cfg : BuildConfig) (texture_memory : Handle)
    (w : World) : World :=
  if cfg.SK_DAWN then
    nativeRelease (.wgpuSharedTextureMemoryRelease texture_memory) texture_memory w
  else w

/-! ## The driver

Everything the wrapper cannot decide itself: which handles the native side
creates, whether it grants access, and when and with what it completes a
request.  Each answer may depend on all that happened before (the trace). -/

/-- How the native side completes one asynchronous request.  `fires 0` is what
is delivered while the request call itself runs, `fires k` for `k ≥ 1` what is
delivered during the `k`-th `wgpuInstanceWaitAny` after it. -/
structure RequestScript where
  future : Nat
  fires : Nat → Option Completion

structure Driver where
  requestAdapter : List Event → Handle → Nat → RequestScript
  requestDevice : List Event → Handle → DeviceDescriptor → RequestScript
  getQueue : List Event → Handle → Handle
  createTexture : List Event → Handle → Handle
  beginAccess : List Event → Handle → Handle → Bool
  endAccess : List Event → Handle → Handle → Bool × List (Handle × Nat)
  importSharedTextureMemory : List Event → Handle → Handle → String → Handle
  /-- Answer of the import with a D3D11 texture descriptor chained. -/
  importSharedTextureMemoryD3D11 : List Event → Handle → Handle → String → Handle
  createInstance : List Event → InstanceDescriptor → Handle
  getD3D11Device : List Event → Handle → Handle
  getD3D12Device : List Event → Handle → Handle
  getOrCreateD3D11On12Device : List Event → Handle → Handle
  getD3D12CommandQueue : List Event → Handle → Handle

/-- A native call that creates an object and returns it with one reference for
the caller (no object, no count, when it returns null). -/
def nativeCreate (e : Event) (h : Handle) (w : World) : World :=
  let w1 := w.log e
  if h = 0 then w1 else { w1 with refs := setRef w1.refs h (w1.refs h + 1) }

/-! ## Adapter and device requests (`sk_dawn.cpp` lines 67-187) -/

structure AdapterRequestContext where
  adapter : Handle := 0
  done : Bool := false
  deriving DecidableEq, Repr

def adapter_request_callback (status : Nat) (adapter : Handle) (_message : String)
    (ctx : AdapterRequestContext) : AdapterRequestContext :=
  let ctx1 := if status = WGPURequestAdapterStatus_Success then { ctx with adapter := adapter }
    else ctx
  { ctx1 with done := true }

structure DeviceRequestContext where
  device : Handle := 0
  done : Bool := false
  deriving DecidableEq, Repr

def device_request_callback (status : Nat) (device : Handle) (message : String)
    (ctx : DeviceRequestContext) (w : World) : DeviceRequestContext × World :=
  let r : DeviceRequestContext × World :=
    if status = WGPURequestDeviceStatus_Success then ({ ctx with device := device }, w)
    else (ctx, { w with
      stderr := w.stderr ++ ["Failed to request WGPU device: " ++ message ++ "\n"] })
  ({ r.1 with done := true }, r.2)

/-- The native side invokes the adapter callback with `userdata1 = &ctx`. -/
def runAdapterCallback (c : Completion) (ctx : AdapterRequestContext) (w : World) :
    AdapterRequestContext × World :=
  (adapter_request_callback c.status c.handle c.message ctx, w.log (.adapterCallback c))

/-- The native side invokes the device callback with `userdata1 = &ctx`. -/
def runDeviceCallback (c : Completion) (ctx : DeviceRequestContext) (w : World) :
    DeviceRequestContext × World :=
  device_request_callback c.status c.handle c.message ctx (w.log (.deviceCallback c))

/-- Step `k` of a request on the native side: the registered callback runs when
the script says so, otherwise nothing happens to the context. -/
def deliver {α : Type} (run : Completion → α → World → α × World) (script : RequestScript)
    (k : Nat) (ctx : α) (w : World) : α × World :=
  match script.fires k with
  | none => (ctx, w)
  | some c => run c ctx w

/-- The loop `while (!ctx.done) { wgpuInstanceWaitAny(wgpuInstance, 1, &waitInfo, UINT64_MAX); }`
of both request functions.  `k` numbers the next `WaitAny`; the first component
of the result is `none` when the loop is still waiting after `fuel` rounds. -/
def waitLoop {α : Type} (done : α → Bool) (deliver : Nat → α → World → α × World)
    (waitAny : Event) : Nat → Nat → α → World → Option α × World
  | 0, _, ctx, w => if done ctx then (some ctx, w) else (none, w)
  | fuel + 1, k, ctx, w =>
    if done ctx then (some ctx, w)
    else
      let r := deliver k ctx (w.log waitAny)
      waitLoop done deliver waitAny fuel (k + 1) r.1 r.2

def sk_wgpu_instance_request_adapter (cfg : BuildConfig) (drv : Driver) (fuel : Nat)
    (inst : Handle) (backend_type : Nat) (w : World) : Option Handle × World :=
  if cfg.SK_DAWN then
    let script := drv.requestAdapter w.trace inst backend_type
    let ctx : AdapterRequestContext := {}
    let w1 := w.log (.wgpuInstanceRequestAdapter inst backend_type
      WGPUCallbackMode_AllowProcessEvents script.future)
    let r0 := deliver runAdapterCallback script 0 ctx w1
    let r := waitLoop AdapterRequestContext.done (deliver runAdapterCallback script)
      (.wgpuInstanceWaitAny inst 1 script.future UINT64_MAX) fuel 1 r0.1 r0.2
    (r.1.map AdapterRequestContext.adapter, r.2)
  else (some 0, w)

/-- The descriptor built in lines 154-173. -/
def deviceDesc : DeviceDescriptor :=
  let features : List Nat := []
  { requiredFeatures := features
    requiredFeatureCount := features.length
    deviceLostCallbackMode := WGPUCallbackMode_AllowProcessEvents
    deviceLostCallback := .device_lost_callback
    uncapturedErrorCallback := .uncaptured_error_lambda }

def sk_wgpu_adapter_request_device (cfg : BuildConfig) (drv : Driver) (fuel : Nat)
    (inst : Handle) (adapter : Handle) (w : World) : Option Handle × World :=
  if cfg.SK_DAWN then
    let script := drv.requestDevice w.trace adapter deviceDesc
    let ctx : DeviceRequestContext := {}
    let w1 := w.log (.wgpuAdapterRequestDevice adapter deviceDesc
      WGPUCallbackMode_AllowProcessEvents script.future)
    let r0 := deliver runDeviceCallback script 0 ctx w1
    let r := waitLoop DeviceRequestContext.done (deliver runDeviceCallback script)
      (.wgpuInstanceWaitAny inst 1 script.future UINT64_MAX) fuel 1 r0.1 r0.2
    (r.1.map DeviceRequestContext.device, r.2)
  else (some 0, w)

/-! ## Shared texture memory (`sk_dawn.cpp` lines 230-328) -/

def sk_wgpu_shared_texture_memory_create_texture (cfg : BuildConfig) (drv : Driver)
    (texture_memory : Handle) (w : World) : Handle × World :=
  if cfg.SK_DAWN then
    let w1 := cppAcquire (.wgpuSharedTextureMemoryAddRef texture_memory) texture_memory w
    let texture := drv.createTexture w1.trace texture_memory
    let w2 := nativeCreate (.wgpuSharedTextureMemoryCreateTexture texture_memory texture)
      texture w1
    -- `texture.MoveToCHandle()`: the reference leaves with the returned pointer
    let w3 := cppDestroy (.wgpuSharedTextureMemoryRelease texture_memory) texture_memory w2
    (texture, w3)
  else (0, w)

def sk_wgpu_shared_texture_memory_begin_access (cfg : BuildConfig) (drv : Driver)
    (texture_memory : Handle) (texture : Handle) (w : World) : Bool × World :=
  if cfg.SK_DAWN then
    let w1 := cppAcquire (.wgpuSharedTextureMemoryAddRef texture_memory) texture_memory w
    let w2 := cppAcquire (.wgpuTextureAddRef texture) texture w1
    let res := drv.beginAccess w2.trace texture_memory texture
    let w3 := w2.log (.wgpuSharedTextureMemoryBeginAccess texture_memory texture res)
    let w4 := cppDestroy (.wgpuTextureRelease texture) texture w3
    let w5 := cppDestroy (.wgpuSharedTextureMemoryRelease texture_memory) texture_memory w4
    (res, w5)
  else (false, w)

/-- The block between `#if 0` and `#endif` is not compiled; `desc`, which the
native call fills with the fences and their signaled values, is a local that
goes out of scope at the return. -/
def sk_wgpu_shared_texture_memory_end_access (cfg : BuildConfig) (drv : Driver)
    (texture_memory : Handle) (texture : Handle) (w : World) : Bool × World :=
  if cfg.SK_DAWN then
    let w1 := cppAcquire (.wgpuSharedTextureMemoryAddRef texture_memory) texture_memory w
    let w2 := cppAcquire (.wgpuTextureAddRef texture) texture w1
    let out := drv.endAccess w2.trace texture_memory texture
    let res := out.1
    let desc := out.2
    let w3 := w2.log (.wgpuSharedTextureMemoryEndAccess texture_memory texture res desc)
    let w4 := cppDestroy (.wgpuTextureRelease texture) texture w3
    let w5 := cppDestroy (.wgpuSharedTextureMemoryRelease texture_memory) texture_memory w4
    (res, w5)
  else (false, w)

/-- The reference the `ComPtr` temporary holds on the foreign resource during
the call is taken and given back inside the body and is not tracked here. -/
def sk_wgpu_import_shared_texture_memory_from_d3d12_resource (cfg : BuildConfig)
    (drv : Driver) (device : Handle) (dx12_resource : Handle) (label : String)
    (w : World) : Handle × World :=
  if cfg.SK_DAWN && cfg.WIN32 then
    let w1 := cppAcquire (.wgpuDeviceAddRef device) device w
    let textureMemory := drv.importSharedTextureMemory w1.trace device dx12_resource label
    let w2 := nativeCreate
      (.wgpuDeviceImportSharedTextureMemory device dx12_resource label textureMemory)
      textureMemory w1
    -- `textureMemory.MoveToCHandle()`: the reference leaves with the returned pointer
    let w3 := cppDestroy (.wgpuDeviceRelease device) device w2
    (textureMemory, w3)
  else (0, w)

/-! ## Sequences of reference counting calls on one handle -/

/-- The handle kinds that have both an add-ref and a release entry point. -/
inductive RefKind where
  | device
  | texture
  | shared_texture_memory
  deriving DecidableEq, Repr

inductive RefOp where
  | add_ref
  | release
  deriving DecidableEq, Repr

/-- The wrapper entry point for a kind and an operation. -/
def refCall (cfg : BuildConfig) : RefKind → RefOp → Handle → World → World
  | .device, .add_ref => sk_wgpu_device_add_ref cfg
  | .device, .release => sk_wgpu_device_release cfg
  | .texture, .add_ref => sk_wgpu_texture_add_ref cfg
  | .texture, .release => sk_wgpu_texture_release cfg
  | .shared_texture_memory, .add_ref => sk_wgpu_shared_texture_memory_add_ref cfg
  | .shared_texture_memory, .release => sk_wgpu_shared_texture_memory_release cfg

/-- The native call that corresponds to a kind and an operation. -/
def nativeEvent : RefKind → RefOp → Handle → Event
  | .device, .add_ref => .wgpuDeviceAddRef
  | .device, .release => .wgpuDeviceRelease
  | .texture, .add_ref => .wgpuTextureAddRef
  | .texture, .release => .wgpuTextureRelease
  | .shared_texture_memory, .add_ref => .wgpuSharedTextureMemoryAddRef
  | .shared_texture_memory, .release => .wgpuSharedTextureMemoryRelease

/-- The wrapper calls of `ops` on the handle `h`, one after the other. -/
def runRefOps (cfg : BuildConfig) (kind : RefKind) (h : Handle) : List RefOp → World → World
  | [], w => w
  | op :: ops, w => runRefOps cfg kind h ops (refCall cfg kind op h w)

/-- The count of `h` is positive before each release of the sequence. -/
def positiveBeforeRelease (cfg : BuildConfig) (kind : RefKind) (h : Handle) :
    List RefOp → World → Bool
  | [], _ => true
  | op :: ops, w =>
    (op != .release || decide (0 < w.refs h)) &&
      positiveBeforeRelease cfg kind h ops (refCall cfg kind op h w)

/-- The count of `h` is positive before each call of the sequence. -/
def positiveBeforeEach (cfg : BuildConfig) (kind : RefKind) (h : Handle) :
    List RefOp → World → Bool
  | [], _ => true
  | op :: ops, w =>
    decide (0 < w.refs h) && positiveBeforeEach cfg kind h ops (refCall cfg kind op h w)

/-- A world in which the object behind `h` has just been created. -/
def World.fresh (h : Handle) : World :=
  { World.empty with refs := setRef World.empty.refs h 1 }

/-- A build with Dawn, not on Windows. -/
def dawnBuild : BuildConfig := { SK_DAWN := true, WIN32 := false }

/-- A build with Dawn on Windows. -/
def dawnWindowsBuild : BuildConfig := { SK_DAWN := true, WIN32 := true }

/-- A build without Dawn. -/
def plainBuild : BuildConfig := { SK_DAWN := false, WIN32 := false }

/-- The world after `n` more occurrences of the event `e`. -/
def logN (w : World) (e : Event) (n : Nat) : World :=
  { w with trace := w.trace ++ List.replicate n e }

/-- The completion `c` is the first one the script delivers, at step `n`. -/
def FirstFires (script : RequestScript) (n : Nat) (c : Completion) : Prop :=
  script.fires n = some c ∧ ∀ k, k < n → script.fires k = none

def Event.isWaitAny : Event → Bool
  | .wgpuInstanceWaitAny _ _ _ _ => true
  | _ => false

def Event.isRequestAdapter : Event → Bool
  | .wgpuInstanceRequestAdapter _ _ _ _ => true
  | _ => false

def Event.isRequestDevice : Event → Bool
  | .wgpuAdapterRequestDevice _ _ _ _ => true
  | _ => false

/-- A script that delivers `c` at step `n` and nothing before or after. -/
def scriptAt (future : Nat) (n : Nat) (c : Completion) : RequestScript :=
  { future := future, fires := fun k => if k = n then some c else none }

/-- A driver for examples: requests complete at step `n` with the given
completions, every texture minted gets a new address, access is granted, the
end of an access signals fence 900 at value 5. -/
def sampleDriver (n : Nat) (adapterC deviceC : Completion) : Driver :=
  { requestAdapter := fun _ _ _ => scriptAt 1 n adapterC
    requestDevice := fun _ _ _ => scriptAt 2 n deviceC
    getQueue := fun _ device => device + 1
    createTexture := fun t memory => memory + 100 + t.length
    beginAccess := fun _ _ _ => true
    endAccess := fun _ _ _ => (true, [(900, 5)])
    importSharedTextureMemory := fun _ _ _ _ => 77
    importSharedTextureMemoryD3D11 := fun _ _ _ _ => 78
    createInstance := fun _ _ => 10
    getD3D11Device := fun _ device => device + 300
    getD3D12Device := fun _ device => device + 400
    getOrCreateD3D11On12Device := fun _ device => device + 500
    getD3D12CommandQueue := fun _ device => device + 600 }

/-- The trace the native side has seen when a begin or end of access on the
pair reaches it: the two C++ handles of the wrapper hold their references. -/
def atNativeCall (texture_memory texture : Handle) (w : World) : List Event :=
  (cppAcquire (.wgpuTextureAddRef texture) texture
    (cppAcquire (.wgpuSharedTextureMemoryAddRef texture_memory) texture_memory w)).trace

/-- The native `BeginAccess` calls of a trace with what they reported. -/
def Event.beginAccessOf : Event → Option (Handle × Handle × Bool)
  | .wgpuSharedTextureMemoryBeginAccess m t r => some (m, t, r)
  | _ => none

/-- The native `EndAccess` calls of a trace with what they reported. -/
def Event.endAccessOf : Event → Option (Handle × Handle × Bool × List (Handle × Nat))
  | .wgpuSharedTextureMemoryEndAccess m t r fences => some (m, t, r, fences)
  | _ => none

/-- Whether the pair is inside an access according to the trace: the latest
successful native begin or end on it is a begin. -/
def accessOpen (texture_memory texture : Handle) (tr : List Event) : Bool :=
  tr.foldl (fun inside e =>
    match e with
    | .wgpuSharedTextureMemoryBeginAccess m t r =>
      if m = texture_memory ∧ t = texture ∧ r = true then true else inside
    | .wgpuSharedTextureMemoryEndAccess m t r _ =>
      if m = texture_memory ∧ t = texture ∧ r = true then false else inside
    | _ => inside) false

/-- A driver that follows the access protocol: a begin succeeds when the pair
is not inside an access, an end succeeds (and signals the given fences) when it
is. -/
def strictDriver (fences : List (Handle × Nat)) : Driver :=
  { sampleDriver 0 ⟨1, 55, ""⟩ ⟨1, 66, ""⟩ with
    beginAccess := fun tr m t => !accessOpen m t tr
    endAccess := fun tr m t => if accessOpen m t tr then (true, fences) else (false, []) }

/-- What a caller can observe of a call that returns a boolean: the value
returned, the reference counts, the destruction log and the error stream.  The
trace is the record of the boundary kept for the proofs, not something the
call hands out. -/
def callerView (r : Bool × World) : Bool × (Handle → Nat) × List Handle × List String :=
  (r.1, r.2.refs, r.2.destroyed, r.2.stderr)

/-! ## Initialisation, instance and queue (`sk_dawn.cpp` lines 19-51, 203-210) -/

def sk_wgpu_init (cfg : BuildConfig) (w : World) : Bool × World :=
  if cfg.SK_DAWN then
    -- `std::call_once(initFlag, ...)`: the body runs if the flag is not yet set
    (true, if w.initFlag then w else { w.log .dawnProcSetProcs with initFlag := true })
  else (false, w)

/-- The descriptor built in lines 33-44. -/
def instanceDesc : InstanceDescriptor :=
  let features : List Nat := [WGPUInstanceFeatureName_TimedWaitAny]
  let allowUnsafeApisToggle : String := "allow_unsafe_apis"
  { requiredFeatureCount := 1
    requiredFeatures := features
    enabledToggleCount := 1
    enabledToggles := [allowUnsafeApisToggle] }

def sk_wgpu_create_instance (cfg : BuildConfig) (drv : Driver) (w : World) : Handle × World :=
  if cfg.SK_DAWN then
    let inst := drv.createInstance w.trace instanceDesc
    -- `instance.MoveToCHandle()`: the reference leaves with the returned pointer
    (inst, nativeCreate (.wgpuCreateInstance instanceDesc inst) inst w)
  else (0, w)

def sk_wgpu_device_get_queue (cfg : BuildConfig) (drv : Driver) (device : Handle)
    (w : World) : Handle × World :=
  if cfg.SK_DAWN then
    let queue := drv.getQueue w.trace device
    (queue, nativeCreate (.wgpuDeviceGetQueue device queue) queue w)
  else (0, w)

/-! ## Device callbacks (`sk_dawn.cpp` lines 137-139, 161-165) -/

/-- The body is the comment `TODO(knopp): Handle this on dart side.` -/
def device_lost_callback (_device : Handle) (_reason : Nat) (_message : String)
    (w : World) : World :=
  w

/-- The lambda installed as `errorInfo.callback`. -/
def uncaptured_error_lambda (_device : Handle) (_type : Nat) (message : String)
    (w : World) : World :=
  { w with stderr := w.stderr ++ ["WGPU Uncaptured error: " ++ message ++ "\n"] }

/-- The native side reports the loss of `device`: it invokes the callback
installed in the device descriptor. -/
def deliverDeviceLost (device : Handle) (reason : Nat) (message : String) (w : World) : World :=
  device_lost_callback device reason message (w.log (.deviceLostCallback device reason message))

/-- Whether the trace holds a report of a device loss. -/
def deviceLossReported (tr : List Event) : Bool :=
  tr.any (fun e =>
    match e with
    | .deviceLostCallback _ _ _ => true
    | _ => false)

/-- A driver for examples whose native side refuses every begin and end of
access once it has reported a device lost, and answers as `sampleDriver` does
otherwise. -/
def lossAwareDriver : Driver :=
  { sampleDriver 0 ⟨1, 55, ""⟩ ⟨1, 20, ""⟩ with
    beginAccess := fun tr _ _ => !deviceLossReported tr
    endAccess := fun tr _ _ =>
      if deviceLossReported tr then (false, []) else (true, [(900, 5)]) }

/-- The world of the examples after `sk_wgpu_adapter_request_device` on adapter
55 has returned device 20 (the native side completes the request while the
request call runs). -/
def worldWithDevice : World :=
  (sk_wgpu_adapter_request_device dawnBuild (sampleDriver 0 ⟨1, 55, ""⟩ ⟨1, 20, ""⟩) 3 10 55
    World.empty).2

/-! ## Direct3D interop (`sk_dawn.cpp` lines 330-434) -/

/-- Overwrite the COM count of one object. -/
def setCom (refs : Handle → Int) (p : Handle) (n : Int) : Handle → Int :=
  fun k => if k = p then n else refs k

/-- The call `p->AddRef()` of `IUnknown`. -/
def comAddRef (p : Handle) (w : World) : World :=
  { w.log (.comAddRef p) with comRefs := setCom w.comRefs p (w.comRefs p + 1) }

/-- The call `p->Release()` of `IUnknown`. -/
def comRelease (p : Handle) (w : World) : World :=
  { w.log (.comRelease p) with comRefs := setCom w.comRefs p (w.comRefs p - 1) }

/-- A backend getter that returns a `ComPtr`: the object comes with one
reference held by that `ComPtr` (nothing is held when it is null). -/
def comObtain (e : Event) (p : Handle) (w : World) : World :=
  let w1 := w.log e
  if p = 0 then w1 else { w1 with comRefs := setCom w1.comRefs p (w1.comRefs p + 1) }

/-- The copy assignment `___device = d3d11Device` of `ComPtr`: nothing when both
hold the same pointer, otherwise the new pointer gains a reference, the old one
loses one (each unless null). -/
def assignDevice (p : Handle) (w : World) : World :=
  if w.___device = p then w
  else
    let w1 := if p = 0 then w else comAddRef p w
    let w2 := if w.___device = 0 then w1 else comRelease w.___device w1
    { w2 with ___device := p }

/-- The reference the `ComPtr` temporary holds on the foreign texture during the
call is taken and given back inside the body and is not tracked here. -/
def sk_wgpu_import_shared_texture_memory_from_d3d11_texture (cfg : BuildConfig)
    (drv : Driver) (device : Handle) (dx11_texture : Handle) (label : String)
    (w : World) : Handle × World :=
  if cfg.SK_DAWN && cfg.WIN32 then
    let w1 := cppAcquire (.wgpuDeviceAddRef device) device w
    let textureMemory := drv.importSharedTextureMemoryD3D11 w1.trace device dx11_texture label
    let w2 := nativeCreate
      (.wgpuDeviceImportSharedTextureMemoryD3D11 device dx11_texture label textureMemory)
      textureMemory w1
    let w3 := cppDestroy (.wgpuDeviceRelease device) device w2
    (textureMemory, w3)
  else (0, w)

def sk_wgpu_device_copy_d3d12_device (cfg : BuildConfig) (drv : Driver) (device : Handle)
    (w : World) : Handle × World :=
  if cfg.SK_DAWN_ && cfg.WIN32 then
    if device = 0 then (0, w)
    else
      let d3d12Device := drv.getD3D12Device w.trace device
      -- `d3d12Device.Detach()`: the pointer leaves without a `Release`
      (d3d12Device, comObtain (.getD3D12Device device d3d12Device) d3d12Device w)
  else (0, w)

def sk_wgpu_device_copy_d3d11_device (cfg : BuildConfig) (drv : Driver) (device : Handle)
    (w : World) : Handle × World :=
  if cfg.SK_DAWN && cfg.WIN32 then
    if device = 0 then (0, w)
    else
      let d3d11Device := drv.getD3D11Device w.trace device
      let w1 := comObtain (.getD3D11Device device d3d11Device) d3d11Device w
      let w2 := assignDevice d3d11Device w1
      -- `d3d11Device.Detach()`: the pointer leaves without a `Release`
      (d3d11Device, w2)
  else (0, w)

def sk_wgpu_device_copy_d3d11on12_device (cfg : BuildConfig) (drv : Driver) (device : Handle)
    (w : World) : Handle × World :=
  if cfg.SK_DAWN_ && cfg.WIN32 then
    if device = 0 then (0, w)
    else
      let d3d12Device := drv.getOrCreateD3D11On12Device w.trace device
      (d3d12Device, comObtain (.getOrCreateD3D11On12Device device d3d12Device) d3d12Device w)
  else (0, w)

def sk_wgpu_device_copy_d3d12_command_queue (cfg : BuildConfig) (drv : Driver)
    (device : Handle) (w : World) : Handle × World :=
  if cfg.SK_DAWN_ && cfg.WIN32 then
    if device = 0 then (0, w)
    else
      let d3d12CommandQueue := drv.getD3D12CommandQueue w.trace device
      (d3d12CommandQueue,
        comObtain (.getD3D12CommandQueue device d3d12CommandQueue) d3d12CommandQueue w)
  else (0, w)

def sk_wgpu_com_add_ref (cfg : BuildConfig) (com_object : Handle) (w : World) : World :=
  if cfg.SK_DAWN && cfg.WIN32 then
    if com_object = 0 then w else comAddRef com_object w
  else w

def sk_wgpu_com_release (cfg : BuildConfig) (com_object : Handle) (w : World) : World :=
  if cfg.SK_DAWN && cfg.WIN32 then
    if com_object = 0 then w else comRelease com_object w
  else w

/-- The wrapper call for one operation on a COM object. -/
def comCall (cfg : BuildConfig) : RefOp → Handle → World → World
  | .add_ref => sk_wgpu_com_add_ref cfg
  | .release => sk_wgpu_com_release cfg

/-- The `IUnknown` call that corresponds to an operation. -/
def comEvent : RefOp → Handle → Event
  | .add_ref => .comAddRef
  | .release => .comRelease

/-- The wrapper calls of `ops` on the COM object `p`, one after the other. -/
def runComOps (cfg : BuildConfig) (p : Handle) : List RefOp → World → World
  | [], w => w
  | op :: ops, w => runComOps cfg p ops (comCall cfg op p w)

/-! ## The backend type enumeration (`dawn.h` lines 16-26) -/

inductive sk_wgpu_backend_type_t where
  | SK_WGPU_BACKEND_TYPE_UNDEFINED
  | SK_WGPU_BACKEND_TYPE_NULL
  | SK_WGPU_BACKEND_TYPE_WEBGPU
  | SK_WGPU_BACKEND_TYPE_D3D11
  | SK_WGPU_BACKEND_TYPE_D3D12
  | SK_WGPU_BACKEND_TYPE_METAL
  | SK_WGPU_BACKEND_TYPE_VULKAN
  | SK_WGPU_BACKEND_TYPE_OPENGL
  | SK_WGPU_BACKEND_TYPE_OPENGLES
  deriving DecidableEq, Repr

/-- The numeric value the header gives each enumerator. -/
def sk_wgpu_backend_type_t.value : sk_wgpu_backend_type_t → Nat
  | .SK_WGPU_BACKEND_TYPE_UNDEFINED => 0
  | .SK_WGPU_BACKEND_TYPE_NULL => 1
  | .SK_WGPU_BACKEND_TYPE_WEBGPU => 2
  | .SK_WGPU_BACKEND_TYPE_D3D11 => 3
  | .SK_WGPU_BACKEND_TYPE_D3D12 => 4
  | .SK_WGPU_BACKEND_TYPE_METAL => 5
  | .SK_WGPU_BACKEND_TYPE_VULKAN => 6
  | .SK_WGPU_BACKEND_TYPE_OPENGL => 7
  | .SK_WGPU_BACKEND_TYPE_OPENGLES => 8

/-- The enumerators in the order of the header. -/
def sk_wgpu_backend_type_t.all : List sk_wgpu_backend_type_t :=
  [.SK_WGPU_BACKEND_TYPE_UNDEFINED, .SK_WGPU_BACKEND_TYPE_NULL, .SK_WGPU_BACKEND_TYPE_WEBGPU,
   .SK_WGPU_BACKEND_TYPE_D3D11, .SK_WGPU_BACKEND_TYPE_D3D12, .SK_WGPU_BACKEND_TYPE_METAL,
   .SK_WGPU_BACKEND_TYPE_VULKAN, .SK_WGPU_BACKEND_TYPE_OPENGL, .SK_WGPU_BACKEND_TYPE_OPENGLES]

/-- A Windows build with Dawn in which `SK_DAWN_` is defined as well. -/
def dawnWindowsUnderscoreBuild : BuildConfig :=
  { SK_DAWN := true, WIN32 := true, SK_DAWN_ := true }

/-- The backend type a native request was issued with. -/
def Event.requestedBackendType : Event → Option Nat
  | .wgpuInstanceRequestAdapter _ backendType _ _ => some backendType
  | _ => none

/-- The descriptor a native device request was issued with. -/
def Event.requestedDeviceDesc : Event → Option DeviceDescriptor
  | .wgpuAdapterRequestDevice _ desc _ _ => some desc
  | _ => none

/-- A script that never delivers anything. -/
def silentScript (future : Nat) : RequestScript :=
  { future := future, fires := fun _ => none }

/-- A driver for examples whose requests are never completed. -/
def hungDriver : Driver :=
  { sampleDriver 0 ⟨1, 55, ""⟩ ⟨1, 66, ""⟩ with
    requestAdapter := fun _ _ _ => silentScript 1
    requestDevice := fun _ _ _ => silentScript 2 }

/-! ## Repeated initialisation -/

/-- The results and the final state of `n` calls of `sk_wgpu_init`, one after
the other. -/
def runInit (cfg : BuildConfig) : Nat → World → List Bool × World
  | 0, w => ([], w)
  | n + 1, w =>
    let r := sk_wgpu_init cfg w
    let rest := runInit cfg n r.2
    (r.1 :: rest.1, rest.2)

def Event.isSetProcs : Event → Bool
  | .dawnProcSetProcs => true
  | _ => false

/-- The descriptor a native instance creation was issued with. -/
def Event.createdInstanceDesc : Event → Option InstanceDescriptor
  | .wgpuCreateInstance desc _ => some desc
  | _ => none

/-! ## Graphite (`sk_graphite.cpp`) -/

/-- Modelled from the spec: the macro `SK_ONLY_GRAPHITE` of `sk_types_priv.h`,
a header that is not among the sources.  It stands for its first argument when
Graphite is compiled in and for the remaining argument otherwise (section 9:
preprocessor-guarded bodies that collapse to a stub when a backend is
absent). -/
def SK_ONLY_GRAPHITE {α : Type} (cfg : BuildConfig) (expr : α) (fallback : α) : α :=
  if cfg.SK_GRAPHITE then expr else fallback

/-- The methods of `skgpu::graphite::Context` and of `ContextFactory` that the
stubs of the context section forward to. -/
structure GraphiteNative where
  isDeviceLost : Handle → Bool
  maxTextureSize : Handle → Int
  currentBudgetedBytes : Handle → Nat
  maxBudgetedBytes : Handle → Nat
  insertRecording : Handle → Handle → Bool
  submit : Handle → Handle → Bool
  hasUnfinishedGpuWork : Handle → Bool
  makeRecorder : Handle → Handle
  MakeMetal : Handle → Handle → Handle
  MakeDawn : Handle → Handle → Handle → Handle

/-- The value a stub returns together with the pointers it dereferences. -/
abbrev Stub (α : Type) := α × List Handle

def skgpu_graphite_is_supported (cfg : BuildConfig) : Bool :=
  SK_ONLY_GRAPHITE cfg true false

def skgpu_graphite_context_make_metal (cfg : BuildConfig) (native : GraphiteNative)
    (device queue : Handle) : Stub Handle :=
  if cfg.SK_GRAPHITE && cfg.SK_METAL then (native.MakeMetal device queue, [])
  else (0, [])

def skgpu_graphite_context_make_dawn (cfg : BuildConfig) (native : GraphiteNative)
    (inst device queue : Handle) : Stub Handle :=
  if cfg.SK_GRAPHITE && cfg.SK_DAWN then (native.MakeDawn inst device queue, [])
  else (0, [])

def skgpu_graphite_context_is_device_lost (cfg : BuildConfig) (native : GraphiteNative)
    (context : Handle) : Stub Bool :=
  SK_ONLY_GRAPHITE cfg (native.isDeviceLost context, [context]) (true, [])

def skgpu_graphite_context_max_texture_size (cfg : BuildConfig) (native : GraphiteNative)
    (context : Handle) : Stub Int :=
  SK_ONLY_GRAPHITE cfg (native.maxTextureSize context, [context]) (0, [])

def skgpu_graphite_context_current_budgeted_bytes (cfg : BuildConfig)
    (native : GraphiteNative) (context : Handle) : Stub Nat :=
  SK_ONLY_GRAPHITE cfg (native.currentBudgetedBytes context, [context]) (0, [])

def skgpu_graphite_context_max_budgeted_bytes (cfg : BuildConfig) (native : GraphiteNative)
    (context : Handle) : Stub Nat :=
  SK_ONLY_GRAPHITE cfg (native.maxBudgetedBytes context, [context]) (0, [])

def skgpu_graphite_context_insert_recording (cfg : BuildConfig) (native : GraphiteNative)
    (context info : Handle) : Stub Bool :=
  SK_ONLY_GRAPHITE cfg (native.insertRecording context info, [context]) (false, [])

def skgpu_graphite_context_submit (cfg : BuildConfig) (native : GraphiteNative)
    (context info : Handle) : Stub Bool :=
  let res := SK_ONLY_GRAPHITE cfg (native.submit context info, [context, info]) (false, [])
  res

def skgpu_graphite_context_has_unfinished_gpu_work (cfg : BuildConfig)
    (native : GraphiteNative) (context : Handle) : Stub Bool :=
  SK_ONLY_GRAPHITE cfg (native.hasUnfinishedGpuWork context, [context]) (false, [])

def skgpu_graphite_context_make_recorder (cfg : BuildConfig) (native : GraphiteNative)
    (context : Handle) : Stub Handle :=
  SK_ONLY_GRAPHITE cfg (native.makeRecorder context, [context]) (0, [])

/-- A build with Dawn and Metal but without Graphite. -/
def noGraphiteBuild : BuildConfig := { SK_DAWN := true, WIN32 := false, SK_METAL := true }

/-- A native side for examples: the device is not lost, work is pending. -/
def sampleGraphite : GraphiteNative :=
  { isDeviceLost := fun _ => false
    maxTextureSize := fun _ => 16384
    currentBudgetedBytes := fun _ => 1024
    maxBudgetedBytes := fun _ => 4096
    insertRecording := fun _ _ => true
    submit := fun _ _ => true
    hasUnfinishedGpuWork := fun _ => true
    makeRecorder := fun context => context + 1
    MakeMetal := fun device _ => device + 2
    MakeDawn := fun _ device _ => device + 3 }

/-! ## Asynchronous pixel reads (`sk_graphite.cpp` lines 178-230) -/

/-- What `read_pixels_callback` uses of an `SkImageInfo`. -/
structure SkImageInfo where
  width : Nat
  height : Nat
  bytesPerPixel : Nat
  deriving DecidableEq, Repr

/-- Plane 0 of an `SkImage::AsyncReadResult`: the number of planes, the pointer
`data(0)` (null when 0), the bytes behind it by offset, and `rowBytes(0)`. -/
structure AsyncReadResult where
  count : Nat
  data0 : Handle
  bytes0 : Nat → Nat
  rowBytes0 : Nat

/-- An `SkBitmap` with pixel memory: its info, its row stride and its bytes by
offset from the first pixel. -/
structure SkBitmap where
  info : SkImageInfo
  rowBytes : Nat
  pixels : Nat → Nat

structure RescaleContext where
  callback : Handle
  callback_context : Handle
  dstInfo : SkImageInfo

/-- One invocation of a user callback of type
`skgpu_graphite_async_rescale_and_read_pixels_callback`. -/
structure CallbackCall where
  callback : Handle
  context : Handle
  success : Bool
  result : Option SkBitmap

/-- The call `memcpy(dst + dstOff, src + srcOff, n)` on byte memories. -/
def memcpy (dst : Nat → Nat) (dstOff : Nat) (src : Nat → Nat) (srcOff n : Nat) : Nat → Nat :=
  fun k => if dstOff ≤ k ∧ k < dstOff + n then src (srcOff + (k - dstOff)) else dst k

/-- The loop `for (int y = 0; y < height; ++y) memcpy(getAddr(0, y), src + y * srcRowBytes,
rowSize)`; the first argument counts the rows still to do. -/
def copyRows (src : Nat → Nat) (srcRowBytes rowBytes rowSize : Nat) :
    Nat → Nat → (Nat → Nat) → (Nat → Nat)
  | 0, _, pixels => pixels
  | n + 1, y, pixels =>
    copyRows src srcRowBytes rowBytes rowSize n (y + 1)
      (memcpy pixels (y * rowBytes) src (y * srcRowBytes) rowSize)

/-- `new SkBitmap(); setInfo(info); allocPixels()`: a bitmap of the given info
with the minimal row stride `width * bytesPerPixel`; `fresh` is what the
allocated memory holds. -/
def allocBitmap (info : SkImageInfo) (fresh : Nat → Nat) : SkBitmap :=
  { info := info, rowBytes := info.width * info.bytesPerPixel, pixels := fresh }

/-- The result is the user callback invocations made; `result = none` is the
null `unique_ptr`. -/
def read_pixels_callback (rescale_context : RescaleContext) (result : Option AsyncReadResult)
    (fresh : Nat → Nat) : List CallbackCall :=
  match result with
  | none => [⟨rescale_context.callback, rescale_context.callback_context, false, none⟩]
  | some res =>
    if res.count = 0 ∨ res.data0 = 0 then
      [⟨rescale_context.callback, rescale_context.callback_context, false, none⟩]
    else
      let bitmap := allocBitmap rescale_context.dstInfo fresh
      let rowBytes := bitmap.rowBytes
      let srcPixels := res.bytes0
      let srcRowBytes := res.rowBytes0
      let rowSize := rescale_context.dstInfo.width * rescale_context.dstInfo.bytesPerPixel
      let pixels := copyRows srcPixels srcRowBytes rowBytes rowSize
        rescale_context.dstInfo.height 0 bitmap.pixels
      [⟨rescale_context.callback, rescale_context.callback_context, true,
        some { bitmap with pixels := pixels }⟩]

/-! ## Paint equality and hash (`sk_paint.cpp` lines 46-85) -/

/-- The fields of an `SkPaint`: six effect pointers, the colour and the two
stroke floats by their 32-bit patterns, and the bit fields. -/
structure SkPaint where
  fPathEffect : Nat
  fShader : Nat
  fMaskFilter : Nat
  fColorFilter : Nat
  fBlender : Nat
  fImageFilter : Nat
  fR : Nat
  fG : Nat
  fB : Nat
  fA : Nat
  fWidth : Nat
  fMiterLimit : Nat
  fAntiAlias : Bool
  fDither : Bool
  fCapType : Nat
  fJoinType : Nat
  fStyle : Nat
  deriving DecidableEq, Repr

/-- A pointer as `uintptr_t` on a 64-bit target. -/
def uintptr (p : Nat) : Nat := p % 2 ^ 64

/-- The 32-bit pattern `memcpy` reads out of a `float`. -/
def f32bits (f : Nat) : Nat := f % 2 ^ 32

/-- The cast `static_cast<uint8_t>`. -/
def u8 (v : Nat) : Nat := v % 2 ^ 8

/-- The lambda `mix`: `h ^= v; h *= 1099511628211ull;` on `uint64_t`. -/
def mix (h v : Nat) : Nat := ((h ^^^ v) * 1099511628211) % 2 ^ 64

/-- The lambda `mix_f32`. -/
def mix_f32 (h f : Nat) : Nat :=
  let bits := f32bits f
  mix h bits

def sk_paint_get_hash (p : SkPaint) : Nat :=
  let h := 1469598103934665603
  let h := mix h (uintptr p.fPathEffect)
  let h := mix h (uintptr p.fShader)
  let h := mix h (uintptr p.fMaskFilter)
  let h := mix h (uintptr p.fColorFilter)
  let h := mix h (uintptr p.fBlender)
  let h := mix h (uintptr p.fImageFilter)
  let h := mix_f32 h p.fR
  let h := mix_f32 h p.fG
  let h := mix_f32 h p.fB
  let h := mix_f32 h p.fA
  let h := mix_f32 h p.fWidth
  let h := mix_f32 h p.fMiterLimit
  let h := mix h (u8 p.fAntiAlias.toNat)
  let h := mix h (u8 p.fDither.toNat)
  let h := mix h (u8 p.fCapType)
  let h := mix h (u8 p.fJoinType)
  let h := mix h (u8 p.fStyle)
  (h ^^^ (h >>> 32)) % 2 ^ 32

/-- The 17 values of the claim, in its order. -/
def hashedValues (p : SkPaint) : List Nat :=
  [uintptr p.fPathEffect, uintptr p.fShader, uintptr p.fMaskFilter, uintptr p.fColorFilter,
   uintptr p.fBlender, uintptr p.fImageFilter,
   f32bits p.fR, f32bits p.fG, f32bits p.fB, f32bits p.fA,
   f32bits p.fWidth, f32bits p.fMiterLimit,
   u8 p.fAntiAlias.toNat, u8 p.fDither.toNat, u8 p.fCapType, u8 p.fJoinType, u8 p.fStyle]

/-- The reference of the claim, following its words: start at
1469598103934665603, for each value `v` set `h = ((h xor v) * 1099511628211) mod 2^64`,
then take the low 32 bits of `h xor (h >> 32)`. -/
def referenceHash (values : List Nat) : Nat :=
  let h := values.foldl (fun h v => ((h ^^^ v) * 1099511628211) % 2 ^ 64) 1469598103934665603
  (h ^^^ (h / 2 ^ 32)) % 2 ^ 32

/-- Whether a 32-bit pattern is a NaN of `float`. -/
def f32IsNaN (b : Nat) : Bool :=
  (f32bits b / 2 ^ 23) % 2 ^ 8 == 255 && f32bits b % 2 ^ 23 != 0

/-- The comparison `a == b` of two `float`s given by their patterns: false when
either is a NaN, true for equal patterns and for two zeros of either sign. -/
def f32Eq (a b : Nat) : Bool :=
  !f32IsNaN a && !f32IsNaN b &&
    (f32bits a == f32bits b || (f32bits a % 2 ^ 31 == 0 && f32bits b % 2 ^ 31 == 0))

/-- `operator==` of `SkPaint` (Skia, `SkPaint.cpp`; not part of the repository):
the effect pointers by address, the colour, the stroke width and the miter
limit as `float`s, the bit fields by value. -/
def SkPaint.eq (a b : SkPaint) : Bool :=
  uintptr a.fPathEffect == uintptr b.fPathEffect && uintptr a.fShader == uintptr b.fShader &&
    uintptr a.fMaskFilter == uintptr b.fMaskFilter &&
    uintptr a.fColorFilter == uintptr b.fColorFilter &&
    uintptr a.fBlender == uintptr b.fBlender &&
    uintptr a.fImageFilter == uintptr b.fImageFilter &&
    (f32Eq a.fA b.fA && f32Eq a.fR b.fR && f32Eq a.fG b.fG && f32Eq a.fB b.fB) &&
    f32Eq a.fWidth b.fWidth && f32Eq a.fMiterLimit b.fMiterLimit &&
    (a.fAntiAlias == b.fAntiAlias && a.fDither == b.fDither &&
      u8 a.fCapType == u8 b.fCapType && u8 a.fJoinType == u8 b.fJoinType &&
      u8 a.fStyle == u8 b.fStyle)

def sk_paint_equals (a b : SkPaint) : Bool :=
  a.eq b

/-- The paint `sk_paint_new` returns: no effects, opaque black (alpha 1.0f),
stroke width 0, miter limit 4.0f, butt cap, miter join, fill style. -/
def sk_paint_new : SkPaint :=
  { fPathEffect := 0, fShader := 0, fMaskFilter := 0, fColorFilter := 0, fBlender := 0,
    fImageFilter := 0, fR := 0, fG := 0, fB := 0, fA := 0x3F800000, fWidth := 0,
    fMiterLimit := 0x40800000, fAntiAlias := false, fDither := false, fCapType := 0,
    fJoinType := 0, fStyle := 0 }

/-- `SkPaint::setStrokeWidth` under `sk_paint_set_stroke_width`: the width is
stored when `width >= 0`, which holds for both zeros and for no NaN and no
negative number. -/
def sk_paint_set_stroke_width (p : SkPaint) (width : Nat) : SkPaint :=
  if !f32IsNaN width && (f32bits width < 2 ^ 31 || f32bits width == 2 ^ 31) then
    { p with fWidth := f32bits width }
  else p

/-- The pattern of `-0.0f`. -/
def negativeZero : Nat := 0x80000000

/-! ## Points of a path builder (`sk_path_builder.cpp` lines 182-190) -/

/-- A point by the 32-bit patterns of its two coordinates. -/
structure sk_point_t where
  x : Nat
  y : Nat
  deriving DecidableEq, Repr

/-- What a call of `sk_path_builder_get_point` leaves: the value returned, the
contents of `*point`, and the indices of the points of the builder it read. -/
structure GetPointResult where
  ret : Bool
  point : sk_point_t
  reads : List Nat
  deriving DecidableEq, Repr

/-- The builder is given by its points; `point` is what `*point` holds before
the call. -/
def sk_path_builder_get_point (builder : List sk_point_t) (index : Int) (point : sk_point_t) :
    GetPointResult :=
  let count : Int := builder.length
  if index < 0 ∨ index ≥ count then
    { ret := false, point := point, reads := [] }
  else
    let skPoint := builder.getD index.toNat point
    { ret := true, point := skPoint, reads := [index.toNat] }

/-! ## Serialising a path (`sk_path.cpp` lines 410-416) -/

/-- What a call of `sk_path_write_to_memory` leaves: the value returned, the
contents of `*size` (`none` for a null `size`), and the buffers the native
`writeToMemory` was called with. -/
structure WriteToMemoryResult where
  ret : Bool
  size : Option Nat
  nativeCalls : List Handle
  deriving DecidableEq, Repr

/-- The parameter `writeToMemory` is `SkPath::writeToMemory` of the path: the
byte count it reports for a buffer (null included). -/
def sk_path_write_to_memory (writeToMemory : Handle → Nat) (buffer : Handle)
    (size : Option Nat) : WriteToMemoryResult :=
  let required := writeToMemory buffer
  let size1 := match size with
    | some _ => some required
    | none => none
  { ret := buffer != 0, size := size1, nativeCalls := [buffer] }

/-! ## Inverting a matrix (`sk_matrix.cpp` lines 15-23) -/

/-- Overwrite the matrix at one address. -/
def storeMatrix {M : Type} (heap : Handle → M) (p : Handle) (m : M) : Handle → M :=
  fun k => if k = p then m else heap k

/-- The matrices live in `heap`, `matrix` and `result` are addresses.  The
parameter `invert` is `SkMatrix::invert`: the inverse when there is one; the
call with a null argument reports only whether there is one, the call with
`&inverse` stores it when there is one.  `identity` is what the default
constructor of `SkMatrix` builds. -/
def sk_matrix_try_invert {M : Type} (invert : M → Option M) (identity : M)
    (heap : Handle → M) (matrix result : Handle) : Bool × (Handle → M) :=
  let m := heap matrix
  if result = 0 then ((invert m).isSome, heap)
  else
    let inverse := identity
    let invertible := (invert m).isSome
    let inverse := (invert m).getD inverse
    (invertible, storeMatrix heap result inverse)

/-- A stand-in for the native inversion in examples: matrices are numbers, 0
has no inverse, the inverse of `m` is `m + 100`. -/
def sampleInvert (m : Nat) : Option Nat :=
  if m = 0 then none else some (m + 100)

/-! ## Compiling runtime effects (`sk_runtimeeffect.cpp` lines 40-56) -/

/-- What a call of one of the three `make_for` functions leaves: the effect
returned, the contents of `*error` (`none` for a null `error`), and whether the
string behind `error` was written. -/
structure MakeEffectResult where
  effect : Handle
  error : Option String
  written : Bool
  deriving DecidableEq, Repr

/-- The common body of the three functions; `compile` is the native
`SkRuntimeEffect::MakeFor...`, which returns the effect and the error text. -/
def makeEffect (compile : String → Handle × String) (sksl : String) (error : Option String) :
    MakeEffectResult :=
  let r := compile sksl
  let effect := r.1
  let errorMessage := r.2
  match error with
  | some previous =>
    if errorMessage.length > 0 then
      -- `AsString(error)->swap(errorMessage)`
      { effect := effect, error := some errorMessage, written := true }
    else { effect := effect, error := some previous, written := false }
  | none => { effect := effect, error := none, written := false }

/-- The three native compilers of `SkRuntimeEffect`. -/
structure RuntimeEffectNative where
  MakeForColorFilter : String → Handle × String
  MakeForShader : String → Handle × String
  MakeForBlender : String → Handle × String

def sk_runtimeeffect_make_for_color_filter (native : RuntimeEffectNative) (sksl : String)
    (error : Option String) : MakeEffectResult :=
  makeEffect native.MakeForColorFilter sksl error

def sk_runtimeeffect_make_for_shader (native : RuntimeEffectNative) (sksl : String)
    (error : Option String) : MakeEffectResult :=
  makeEffect native.MakeForShader sksl error

def sk_runtimeeffect_make_for_blender (native : RuntimeEffectNative) (sksl : String)
    (error : Option String) : MakeEffectResult :=
  makeEffect native.MakeForBlender sksl error

/-- A native side for examples: the empty program fails with a message, every
other program compiles to the effect 9. -/
def sampleCompiler : RuntimeEffectNative :=
  { MakeForColorFilter := fun sksl => if sksl = "" then (0, "error: empty") else (9, "")
    MakeForShader := fun sksl => if sksl = "" then (0, "error: empty") else (9, "")
    MakeForBlender := fun sksl => if sksl = "" then (0, "error: empty") else (9, "") }

/-! ## Basic facts -/

@[simp] theorem log_trace (w : World) (e : Event) : (w.log e).trace = w.trace ++ [e] := rfl

@[simp] theorem log_refs (w : World) (e : Event) : (w.log e).refs = w.refs := rfl

@[simp] theorem log_destroyed (w : World) (e : Event) : (w.log e).destroyed = w.destroyed := rfl

@[simp] theorem log_stderr (w : World) (e : Event) : (w.log e).stderr = w.stderr := rfl

@[simp] theorem setRef_same (refs : Handle → Nat) (h : Handle) (n : Nat) :
    setRef refs h n h = n := by
  simp [setRef]

theorem setRef_other (refs : Handle → Nat) (h k : Handle) (n : Nat) (hk : k ≠ h) :
    setRef refs h n k = refs k := by
  simp [setRef, hk]

theorem nativeAddRef_trace (e : Event) (h : Handle) (w : World) :
    (nativeAddRef e h w).trace = w.trace ++ [e] := by
  unfold nativeAddRef
  by_cases hh : h = 0 <;> simp [hh]

theorem nativeRelease_trace (e : Event) (h : Handle) (w : World) :
    (nativeRelease e h w).trace = w.trace ++ [e] := by
  unfold nativeRelease
  by_cases hh : h = 0 <;> simp [hh]

theorem nativeAddRef_refs (e : Event) (h : Handle) (w : World) (hh : h ≠ 0) :
    (nativeAddRef e h w).refs h = w.refs h + 1 := by
  simp [nativeAddRef, hh]

theorem nativeRelease_refs (e : Event) (h : Handle) (w : World) (hh : h ≠ 0) :
    (nativeRelease e h w).refs h = w.refs h - 1 := by
  simp [nativeRelease, hh]

theorem nativeAddRef_refs_other (e : Event) (h k : Handle) (w : World) (hk : k ≠ h) :
    (nativeAddRef e h w).refs k = w.refs k := by
  unfold nativeAddRef
  by_cases hh : h = 0 <;> simp [hh, setRef_other, hk]

theorem nativeRelease_refs_other (e : Event) (h k : Handle) (w : World) (hk : k ≠ h) :
    (nativeRelease e h w).refs k = w.refs k := by
  unfold nativeRelease
  by_cases hh : h = 0 <;> simp [hh, setRef_other, hk]

theorem nativeAddRef_destroyed (e : Event) (h : Handle) (w : World) :
    (nativeAddRef e h w).destroyed = w.destroyed := by
  unfold nativeAddRef
  by_cases hh : h = 0 <;> simp [hh]

theorem nativeRelease_destroyed (e : Event) (h : Handle) (w : World) (hh : h ≠ 0) :
    (nativeRelease e h w).destroyed =
      w.destroyed ++ (if w.refs h = 1 then [h] else []) := by
  unfold nativeRelease
  by_cases h1 : w.refs h = 1 <;> simp [hh, h1]

/-- In a Dawn build one wrapper call is one native call of the same kind. -/
theorem refCall_trace (cfg : BuildConfig) (hDawn : cfg.SK_DAWN = true) (kind : RefKind)
    (op : RefOp) (h : Handle) (w : World) :
    (refCall cfg kind op h w).trace = w.trace ++ [nativeEvent kind op h] := by
  cases kind <;> cases op <;>
    simp [refCall, nativeEvent, sk_wgpu_device_add_ref, sk_wgpu_device_release,
      sk_wgpu_texture_add_ref, sk_wgpu_texture_release, sk_wgpu_shared_texture_memory_add_ref,
      sk_wgpu_shared_texture_memory_release, hDawn, nativeAddRef_trace, nativeRelease_trace]

theorem refCall_refs (cfg : BuildConfig) (hDawn : cfg.SK_DAWN = true) (kind : RefKind)
    (op : RefOp) (h : Handle) (hh : h ≠ 0) (w : World) :
    (refCall cfg kind op h w).refs h =
      (match op with
        | .add_ref => w.refs h + 1
        | .release => w.refs h - 1) := by
  cases kind <;> cases op <;>
    simp [refCall, sk_wgpu_device_add_ref, sk_wgpu_device_release,
      sk_wgpu_texture_add_ref, sk_wgpu_texture_release, sk_wgpu_shared_texture_memory_add_ref,
      sk_wgpu_shared_texture_memory_release, hDawn, nativeAddRef_refs, nativeRelease_refs, hh]

theorem refCall_destroyed (cfg : BuildConfig) (hDawn : cfg.SK_DAWN = true) (kind : RefKind)
    (op : RefOp) (h : Handle) (hh : h ≠ 0) (w : World) :
    (refCall cfg kind op h w).destroyed =
      w.destroyed ++ (if op = .release ∧ w.refs h = 1 then [h] else []) := by
  cases kind <;> cases op <;>
    simp [refCall, sk_wgpu_device_add_ref, sk_wgpu_device_release,
      sk_wgpu_texture_add_ref, sk_wgpu_texture_release, sk_wgpu_shared_texture_memory_add_ref,
      sk_wgpu_shared_texture_memory_release, hDawn, nativeAddRef_destroyed,
      nativeRelease_destroyed, hh]

theorem runRefOps_append (cfg : BuildConfig) (kind : RefKind) (h : Handle)
    (xs ys : List RefOp) (w : World) :
    runRefOps cfg kind h (xs ++ ys) w = runRefOps cfg kind h ys (runRefOps cfg kind h xs w) := by
  induction xs generalizing w with
  | nil => rfl
  | cons x xs ih => simp [runRefOps, ih]

theorem runRefOps_trace (cfg : BuildConfig) (hDawn : cfg.SK_DAWN = true) (kind : RefKind)
    (h : Handle) (ops : List RefOp) (w : World) :
    (runRefOps cfg kind h ops w).trace = w.trace ++ ops.map (fun op => nativeEvent kind op h) := by
  induction ops generalizing w with
  | nil => simp [runRefOps]
  | cons op ops ih => simp [runRefOps, ih, refCall_trace cfg hDawn]

theorem runRefOps_refs (cfg : BuildConfig) (hDawn : cfg.SK_DAWN = true) (kind : RefKind)
    (h : Handle) (hh : h ≠ 0) (ops : List RefOp) (w : World)
    (hpos : positiveBeforeRelease cfg kind h ops w = true) :
    (runRefOps cfg kind h ops w).refs h + ops.count .release =
      w.refs h + ops.count .add_ref := by
  induction ops generalizing w with
  | nil => simp [runRefOps]
  | cons op ops ih =>
    simp only [positiveBeforeRelease, Bool.and_eq_true, Bool.or_eq_true, decide_eq_true_eq] at hpos
    have h2 := ih _ hpos.2
    rw [refCall_refs cfg hDawn kind op h hh] at h2
    cases op with
    | add_ref =>
      simp only [runRefOps, List.count_cons_self] at *
      simp at h2 ⊢
      omega
    | release =>
      have hp : 0 < w.refs h := by simpa using hpos.1
      simp only [runRefOps, List.count_cons_self] at *
      simp at h2 ⊢
      omega

theorem positiveBeforeEach_weaken (cfg : BuildConfig) (kind : RefKind) (h : Handle)
    (ops : List RefOp) (w : World) (hpos : positiveBeforeEach cfg kind h ops w = true) :
    positiveBeforeRelease cfg kind h ops w = true := by
  induction ops generalizing w with
  | nil => rfl
  | cons op ops ih =>
    simp only [positiveBeforeEach, Bool.and_eq_true, decide_eq_true_eq] at hpos
    simp only [positiveBeforeRelease, Bool.and_eq_true, Bool.or_eq_true, decide_eq_true_eq]
    exact ⟨Or.inr hpos.1, ih _ hpos.2⟩

theorem runRefOps_destroyed (cfg : BuildConfig) (hDawn : cfg.SK_DAWN = true) (kind : RefKind)
    (h : Handle) (hh : h ≠ 0) (ops : List RefOp) (w : World)
    (hpos : positiveBeforeEach cfg kind h ops w = true) :
    (runRefOps cfg kind h ops w).destroyed =
      w.destroyed ++
        (if (runRefOps cfg kind h ops w).refs h = 0 ∧ 0 < w.refs h then [h] else []) := by
  induction ops generalizing w with
  | nil => simp [runRefOps]
  | cons op ops ih =>
    simp only [positiveBeforeEach, Bool.and_eq_true, decide_eq_true_eq] at hpos
    obtain ⟨hp, hrest⟩ := hpos
    have h2 := ih _ hrest
    have hr := refCall_refs cfg hDawn kind op h hh w
    have hd := refCall_destroyed cfg hDawn kind op h hh w
    simp only [runRefOps]
    rw [h2, hd]
    cases op with
    | add_ref =>
      simp only at hr
      simp [hr, hp]
    | release =>
      simp only at hr
      by_cases h1 : w.refs h = 1
      · have h0 : (refCall cfg kind .release h w).refs h = 0 := by omega
        cases ops with
        | nil => simp [runRefOps, h0, h1]
        | cons o os =>
          simp [positiveBeforeEach, h0] at hrest
      · have hgt : 0 < (refCall cfg kind .release h w).refs h := by omega
        simp [h1, hgt, hp]

/-! ## The wait loop -/

theorem logN_one (w : World) (e : Event) : logN w e 1 = w.log e := rfl

theorem logN_log (w : World) (e : Event) (n : Nat) :
    logN (w.log e) e n = logN w e (n + 1) := by
  simp [logN, World.log, List.replicate_succ]

theorem waitLoop_done {α : Type} (done : α → Bool) (dl : Nat → α → World → α × World)
    (e : Event) (fuel k : Nat) (ctx : α) (w : World) (hd : done ctx = true) :
    waitLoop done dl e fuel k ctx w = (some ctx, w) := by
  cases fuel <;> simp [waitLoop, hd]

/-- When the first completion from step `k` on comes at step `k + d`, the loop
returns after `d + 1` waits with what the callback left. -/
theorem waitLoop_fires {α : Type} (done : α → Bool) (run : Completion → α → World → α × World)
    (script : RequestScript) (e : Event)
    (hrun : ∀ c ctx w, done (run c ctx w).1 = true) (c : Completion) (ctx : α)
    (hd : done ctx = false) :
    ∀ (d fuel k : Nat) (w : World),
      (∀ j, j < d → script.fires (k + j) = none) → script.fires (k + d) = some c →
      d + 1 ≤ fuel →
      waitLoop done (deliver run script) e fuel k ctx w =
        (some (run c ctx (logN w e (d + 1))).1, (run c ctx (logN w e (d + 1))).2) := by
  intro d
  induction d with
  | zero =>
    intro fuel k w _ hc hfuel
    obtain ⟨f, rfl⟩ : ∃ f, fuel = f + 1 := ⟨fuel - 1, by omega⟩
    have hc0 : script.fires k = some c := by simpa using hc
    simp only [waitLoop, hd, deliver, hc0]
    rw [waitLoop_done done _ e f (k + 1) _ _ (hrun c ctx _)]
    simp [logN_one]
  | succ d ih =>
    intro fuel k w hq hc hfuel
    obtain ⟨f, rfl⟩ : ∃ f, fuel = f + 1 := ⟨fuel - 1, by omega⟩
    have h0 : script.fires k = none := by simpa using hq 0 (by omega)
    simp only [waitLoop, hd, deliver, h0]
    have := ih f (k + 1) (w.log e)
      (fun j hj => by have := hq (j + 1) (by omega); rwa [show k + 1 + j = k + (j + 1) by omega])
      (by rwa [show k + 1 + d = k + (d + 1) by omega]) (by omega)
    simpa [deliver, logN_log] using this

/-- When nothing is delivered during the first `fuel` waits the loop is still
waiting, having issued `fuel` waits. -/
theorem waitLoop_quiet {α : Type} (done : α → Bool) (run : Completion → α → World → α × World)
    (script : RequestScript) (e : Event) (ctx : α) (hd : done ctx = false) :
    ∀ (fuel k : Nat) (w : World), (∀ j, j < fuel → script.fires (k + j) = none) →
      waitLoop done (deliver run script) e fuel k ctx w = (none, logN w e fuel) := by
  intro fuel
  induction fuel with
  | zero =>
    intro k w _
    simp [waitLoop, hd, logN]
  | succ f ih =>
    intro k w hq
    have h0 : script.fires k = none := by simpa using hq 0 (by omega)
    simp only [waitLoop, hd, deliver, h0]
    have := ih (k + 1) (w.log e)
      (fun j hj => by have := hq (j + 1) (by omega); rwa [show k + 1 + j = k + (j + 1) by omega])
    simpa [deliver, logN_log] using this

/-- Whatever the fuel, either a completion arrives within it or the loop is
still waiting: the script decides. -/
theorem fires_within_or_quiet (script : RequestScript) (k : Nat) :
    ∀ fuel : Nat, (∃ d c, d < fuel ∧ script.fires (k + d) = some c ∧
        ∀ j, j < d → script.fires (k + j) = none) ∨
      (∀ j, j < fuel → script.fires (k + j) = none) := by
  intro fuel
  induction fuel with
  | zero => exact Or.inr (fun j hj => absurd hj (Nat.not_lt_zero j))
  | succ f ih =>
    rcases ih with ⟨d, c, hd, hc, hq⟩ | hq
    · exact Or.inl ⟨d, c, by omega, hc, hq⟩
    · cases hc : script.fires (k + f) with
      | none =>
        refine Or.inr (fun j hj => ?_)
        rcases Nat.lt_succ_iff_lt_or_eq.mp hj with h | h
        · exact hq j h
        · rw [h]; exact hc
      | some c => exact Or.inl ⟨f, c, by omega, hc, hq⟩

theorem firstFires_or_quiet (script : RequestScript) (fuel : Nat) :
    (∃ n c, n ≤ fuel ∧ FirstFires script n c) ∨ (∀ k, k ≤ fuel → script.fires k = none) := by
  rcases fires_within_or_quiet script 0 (fuel + 1) with ⟨d, c, hd, hc, hq⟩ | hq
  · refine Or.inl ⟨d, c, by omega, ?_, ?_⟩
    · simpa using hc
    · intro k hk
      simpa using hq k hk
  · refine Or.inr (fun k hk => ?_)
    simpa using hq k (by omega)

/-! ## The two request functions -/

theorem adapter_callback_done (c : Completion) (ctx : AdapterRequestContext) (w : World) :
    (runAdapterCallback c ctx w).1.done = true := by
  simp [runAdapterCallback, adapter_request_callback]

theorem device_callback_done (c : Completion) (ctx : DeviceRequestContext) (w : World) :
    (runDeviceCallback c ctx w).1.done = true := by
  simp [runDeviceCallback, device_request_callback]

/-- The adapter request when the first completion comes at step `n`. -/
theorem request_adapter_fires (cfg : BuildConfig) (drv : Driver) (fuel : Nat) (inst : Handle)
    (backend_type : Nat) (w : World) (n : Nat) (c : Completion)
    (hDawn : cfg.SK_DAWN = true)
    (hf : FirstFires (drv.requestAdapter w.trace inst backend_type) n c) (hn : n ≤ fuel) :
    sk_wgpu_instance_request_adapter cfg drv fuel inst backend_type w =
      (some (if c.status = WGPURequestAdapterStatus_Success then c.handle else 0),
       { w with
         trace := w.trace ++
           [.wgpuInstanceRequestAdapter inst backend_type WGPUCallbackMode_AllowProcessEvents
              (drv.requestAdapter w.trace inst backend_type).future] ++
           List.replicate n (.wgpuInstanceWaitAny inst 1
              (drv.requestAdapter w.trace inst backend_type).future UINT64_MAX) ++
           [.adapterCallback c] }) := by
  obtain ⟨hc, hq⟩ := hf
  unfold sk_wgpu_instance_request_adapter
  simp only [hDawn, if_true]
  cases n with
  | zero =>
    simp only [deliver, hc]
    rw [waitLoop_done _ _ _ _ _ _ _ (adapter_callback_done c _ _)]
    by_cases hs : c.status = WGPURequestAdapterStatus_Success <;>
      simp [runAdapterCallback, adapter_request_callback, hs, World.log]
  | succ m =>
    have h0 : (drv.requestAdapter w.trace inst backend_type).fires 0 = none := hq 0 (by omega)
    simp only [deliver, h0]
    have := waitLoop_fires AdapterRequestContext.done runAdapterCallback
      (drv.requestAdapter w.trace inst backend_type)
      (.wgpuInstanceWaitAny inst 1 (drv.requestAdapter w.trace inst backend_type).future
        UINT64_MAX)
      adapter_callback_done c {} rfl m fuel 1
      (w.log (.wgpuInstanceRequestAdapter inst backend_type WGPUCallbackMode_AllowProcessEvents
        (drv.requestAdapter w.trace inst backend_type).future))
      (fun j hj => hq (1 + j) (by omega)) (by rw [Nat.add_comm]; exact hc) (by omega)
    simp only [deliver] at this
    rw [this]
    by_cases hs : c.status = WGPURequestAdapterStatus_Success <;>
      simp [runAdapterCallback, adapter_request_callback, hs, World.log, logN]

/-- The adapter request when nothing is delivered up to step `fuel`. -/
theorem request_adapter_quiet (cfg : BuildConfig) (drv : Driver) (fuel : Nat) (inst : Handle)
    (backend_type : Nat) (w : World) (hDawn : cfg.SK_DAWN = true)
    (hq : ∀ k, k ≤ fuel → (drv.requestAdapter w.trace inst backend_type).fires k = none) :
    sk_wgpu_instance_request_adapter cfg drv fuel inst backend_type w =
      (none,
       { w with
         trace := w.trace ++
           [.wgpuInstanceRequestAdapter inst backend_type WGPUCallbackMode_AllowProcessEvents
              (drv.requestAdapter w.trace inst backend_type).future] ++
           List.replicate fuel (.wgpuInstanceWaitAny inst 1
              (drv.requestAdapter w.trace inst backend_type).future UINT64_MAX) }) := by
  unfold sk_wgpu_instance_request_adapter
  simp only [hDawn, if_true]
  have h0 : (drv.requestAdapter w.trace inst backend_type).fires 0 = none := hq 0 (by omega)
  simp only [deliver, h0]
  have := waitLoop_quiet AdapterRequestContext.done runAdapterCallback
    (drv.requestAdapter w.trace inst backend_type)
    (.wgpuInstanceWaitAny inst 1 (drv.requestAdapter w.trace inst backend_type).future
      UINT64_MAX) {} rfl fuel 1
    (w.log (.wgpuInstanceRequestAdapter inst backend_type WGPUCallbackMode_AllowProcessEvents
      (drv.requestAdapter w.trace inst backend_type).future))
    (fun j hj => hq (1 + j) (by omega))
  simp only [deliver] at this
  rw [this]
  simp [World.log, logN]

/-- The device request when the first completion comes at step `n`. -/
theorem request_device_fires (cfg : BuildConfig) (drv : Driver) (fuel : Nat) (inst : Handle)
    (adapter : Handle) (w : World) (n : Nat) (c : Completion)
    (hDawn : cfg.SK_DAWN = true)
    (hf : FirstFires (drv.requestDevice w.trace adapter deviceDesc) n c) (hn : n ≤ fuel) :
    sk_wgpu_adapter_request_device cfg drv fuel inst adapter w =
      (some (if c.status = WGPURequestDeviceStatus_Success then c.handle else 0),
       { w with
         trace := w.trace ++
           [.wgpuAdapterRequestDevice adapter deviceDesc WGPUCallbackMode_AllowProcessEvents
              (drv.requestDevice w.trace adapter deviceDesc).future] ++
           List.replicate n (.wgpuInstanceWaitAny inst 1
              (drv.requestDevice w.trace adapter deviceDesc).future UINT64_MAX) ++
           [.deviceCallback c]
         stderr := if c.status = WGPURequestDeviceStatus_Success then w.stderr
           else w.stderr ++ ["Failed to request WGPU device: " ++ c.message ++ "\n"] }) := by
  obtain ⟨hc, hq⟩ := hf
  unfold sk_wgpu_adapter_request_device
  simp only [hDawn, if_true]
  cases n with
  | zero =>
    simp only [deliver, hc]
    rw [waitLoop_done _ _ _ _ _ _ _ (device_callback_done c _ _)]
    by_cases hs : c.status = WGPURequestDeviceStatus_Success <;>
      simp [runDeviceCallback, device_request_callback, hs, World.log]
  | succ m =>
    have h0 : (drv.requestDevice w.trace adapter deviceDesc).fires 0 = none := hq 0 (by omega)
    simp only [deliver, h0]
    have := waitLoop_fires DeviceRequestContext.done runDeviceCallback
      (drv.requestDevice w.trace adapter deviceDesc)
      (.wgpuInstanceWaitAny inst 1 (drv.requestDevice w.trace adapter deviceDesc).future
        UINT64_MAX)
      device_callback_done c {} rfl m fuel 1
      (w.log (.wgpuAdapterRequestDevice adapter deviceDesc WGPUCallbackMode_AllowProcessEvents
        (drv.requestDevice w.trace adapter deviceDesc).future))
      (fun j hj => hq (1 + j) (by omega)) (by rw [Nat.add_comm]; exact hc) (by omega)
    simp only [deliver] at this
    rw [this]
    by_cases hs : c.status = WGPURequestDeviceStatus_Success <;>
      simp [runDeviceCallback, device_request_callback, hs, World.log, logN]

/-- The device request when nothing is delivered up to step `fuel`. -/
theorem request_device_quiet (cfg : BuildConfig) (drv : Driver) (fuel : Nat) (inst : Handle)
    (adapter : Handle) (w : World) (hDawn : cfg.SK_DAWN = true)
    (hq : ∀ k, k ≤ fuel → (drv.requestDevice w.trace adapter deviceDesc).fires k = none) :
    sk_wgpu_adapter_request_device cfg drv fuel inst adapter w =
      (none,
       { w with
         trace := w.trace ++
           [.wgpuAdapterRequestDevice adapter deviceDesc WGPUCallbackMode_AllowProcessEvents
              (drv.requestDevice w.trace adapter deviceDesc).future] ++
           List.replicate fuel (.wgpuInstanceWaitAny inst 1
              (drv.requestDevice w.trace adapter deviceDesc).future UINT64_MAX) }) := by
  unfold sk_wgpu_adapter_request_device
  simp only [hDawn, if_true]
  have h0 : (drv.requestDevice w.trace adapter deviceDesc).fires 0 = none := hq 0 (by omega)
  simp only [deliver, h0]
  have := waitLoop_quiet DeviceRequestContext.done runDeviceCallback
    (drv.requestDevice w.trace adapter deviceDesc)
    (.wgpuInstanceWaitAny inst 1 (drv.requestDevice w.trace adapter deviceDesc).future
      UINT64_MAX) {} rfl fuel 1
    (w.log (.wgpuAdapterRequestDevice adapter deviceDesc WGPUCallbackMode_AllowProcessEvents
      (drv.requestDevice w.trace adapter deviceDesc).future))
    (fun j hj => hq (1 + j) (by omega))
  simp only [deliver] at this
  rw [this]
  simp [World.log, logN]

theorem countP_replicate_waitAny (p : Event → Bool) (n : Nat) (e : Event) :
    List.countP p (List.replicate n e) = if p e then n else 0 := by
  induction n with
  | zero => simp
  | succ n ih =>
    simp only [List.replicate_succ, List.countP_cons, ih]
    by_cases hp : p e = true <;> simp [hp]

/-! ## The asynchronous request broker -/

/-- C1.  In a Dawn build, when the first completion the native side delivers
to the callback (during the request call, step 0, or during the `n`-th wait)
carries status `s` and handle `h`, the adapter request (resp. the device
request) returns, for every fuel of at least `n` rounds, `h` when `s` is
Success and null for every other status, and it has waited exactly `n` times:
a rejected request returns null after finitely many waits. -/
theorem request_returns_delivered_handle (cfg : BuildConfig) (drv : Driver) (fuel : Nat)
    (inst : Handle) (backend_type : Nat) (adapter : Handle) (w : World) (n : Nat)
    (c : Completion) (hDawn : cfg.SK_DAWN = true) (hn : n ≤ fuel) :
    (FirstFires (drv.requestAdapter w.trace inst backend_type) n c →
      (sk_wgpu_instance_request_adapter cfg drv fuel inst backend_type w).1 =
        some (if c.status = WGPURequestAdapterStatus_Success then c.handle else 0) ∧
      List.countP Event.isWaitAny
          (sk_wgpu_instance_request_adapter cfg drv fuel inst backend_type w).2.trace =
        List.countP Event.isWaitAny w.trace + n) ∧
    (FirstFires (drv.requestDevice w.trace adapter deviceDesc) n c →
      (sk_wgpu_adapter_request_device cfg drv fuel inst adapter w).1 =
        some (if c.status = WGPURequestDeviceStatus_Success then c.handle else 0) ∧
      List.countP Event.isWaitAny
          (sk_wgpu_adapter_request_device cfg drv fuel inst adapter w).2.trace =
        List.countP Event.isWaitAny w.trace + n) := by
  constructor
  · intro hf
    rw [request_adapter_fires cfg drv fuel inst backend_type w n c hDawn hf hn]
    simp [List.countP_append, countP_replicate_waitAny, Event.isWaitAny]
  · intro hf
    rw [request_device_fires cfg drv fuel inst adapter w n c hDawn hf hn]
    simp [List.countP_append, countP_replicate_waitAny, Event.isWaitAny]

/-- Witness for `request_returns_delivered_handle`: the driver rejects both
requests during the second wait, with status 3 and a stray handle 55; both
calls return null after two waits. -/
theorem request_returns_delivered_handle_witness :
    (sk_wgpu_instance_request_adapter dawnBuild
        (sampleDriver 2 ⟨3, 55, "no adapter"⟩ ⟨3, 55, "no device"⟩) 5 10 4 World.empty).1
      = some 0 ∧
    (sk_wgpu_adapter_request_device dawnBuild
        (sampleDriver 2 ⟨3, 55, "no adapter"⟩ ⟨3, 55, "no device"⟩) 5 10 20 World.empty).1
      = some 0 := by
  have h := request_returns_delivered_handle dawnBuild
    (sampleDriver 2 ⟨3, 55, "no adapter"⟩ ⟨3, 55, "no device"⟩) 5 10 4 20 World.empty 2
    ⟨3, 55, "no adapter"⟩ rfl (by decide)
  have hd := request_returns_delivered_handle dawnBuild
    (sampleDriver 2 ⟨3, 55, "no adapter"⟩ ⟨3, 55, "no device"⟩) 5 10 4 20 World.empty 2
    ⟨3, 55, "no device"⟩ rfl (by decide)
  refine ⟨?_, ?_⟩
  · have h1 := (h.1 ⟨by simp [sampleDriver, scriptAt], fun k hk => by
      simp [sampleDriver, scriptAt]; omega⟩).1
    simpa [WGPURequestAdapterStatus_Success] using h1
  · have h2 := (hd.2 ⟨by simp [sampleDriver, scriptAt], fun k hk => by
      simp [sampleDriver, scriptAt]; omega⟩).1
    simpa [WGPURequestDeviceStatus_Success] using h2

/-- C5.  In a Dawn build, whenever the adapter request (resp. the device
request) returns a handle, the completion callback has been invoked before:
its delivery is the last entry of the trace of the call, after the request and
the waits, and the handle returned is the one the callback left in the context
that started as `{nullptr, false}`.  Without a delivery the flag stays clear and
the call does not return. -/
theorem request_return_follows_callback (cfg : BuildConfig) (drv : Driver) (fuel : Nat)
    (inst : Handle) (backend_type : Nat) (adapter : Handle) (w : World) (h : Handle)
    (hDawn : cfg.SK_DAWN = true) :
    ((sk_wgpu_instance_request_adapter cfg drv fuel inst backend_type w).1 = some h →
      ∃ n c, n ≤ fuel ∧ FirstFires (drv.requestAdapter w.trace inst backend_type) n c ∧
        (sk_wgpu_instance_request_adapter cfg drv fuel inst backend_type w).2.trace =
          w.trace ++
            [.wgpuInstanceRequestAdapter inst backend_type WGPUCallbackMode_AllowProcessEvents
              (drv.requestAdapter w.trace inst backend_type).future] ++
            List.replicate n (.wgpuInstanceWaitAny inst 1
              (drv.requestAdapter w.trace inst backend_type).future UINT64_MAX) ++
            [.adapterCallback c] ∧
        h = (adapter_request_callback c.status c.handle c.message {}).adapter) ∧
    ((sk_wgpu_adapter_request_device cfg drv fuel inst adapter w).1 = some h →
      ∃ n c, n ≤ fuel ∧ FirstFires (drv.requestDevice w.trace adapter deviceDesc) n c ∧
        (sk_wgpu_adapter_request_device cfg drv fuel inst adapter w).2.trace =
          w.trace ++
            [.wgpuAdapterRequestDevice adapter deviceDesc WGPUCallbackMode_AllowProcessEvents
              (drv.requestDevice w.trace adapter deviceDesc).future] ++
            List.replicate n (.wgpuInstanceWaitAny inst 1
              (drv.requestDevice w.trace adapter deviceDesc).future UINT64_MAX) ++
            [.deviceCallback c] ∧
        h = (device_request_callback c.status c.handle c.message {} w).1.device) ∧
    ((∀ k, k ≤ fuel → (drv.requestAdapter w.trace inst backend_type).fires k = none) →
      (sk_wgpu_instance_request_adapter cfg drv fuel inst backend_type w).1 = none) ∧
    ((∀ k, k ≤ fuel → (drv.requestDevice w.trace adapter deviceDesc).fires k = none) →
      (sk_wgpu_adapter_request_device cfg drv fuel inst adapter w).1 = none) := by
  refine ⟨?_, ?_, ?_, ?_⟩
  · intro hr
    rcases firstFires_or_quiet (drv.requestAdapter w.trace inst backend_type) fuel with
      ⟨n, c, hn, hf⟩ | hq
    · refine ⟨n, c, hn, hf, ?_, ?_⟩
      · rw [request_adapter_fires cfg drv fuel inst backend_type w n c hDawn hf hn]
      · rw [request_adapter_fires cfg drv fuel inst backend_type w n c hDawn hf hn] at hr
        by_cases hs : c.status = WGPURequestAdapterStatus_Success
        · simp only [hs, if_true, Option.some.injEq] at hr
          simp [adapter_request_callback, hs, hr]
        · simp only [hs, if_false, Option.some.injEq] at hr
          simp [adapter_request_callback, hs, hr]
    · rw [request_adapter_quiet cfg drv fuel inst backend_type w hDawn hq] at hr
      simp at hr
  · intro hr
    rcases firstFires_or_quiet (drv.requestDevice w.trace adapter deviceDesc) fuel with
      ⟨n, c, hn, hf⟩ | hq
    · refine ⟨n, c, hn, hf, ?_, ?_⟩
      · rw [request_device_fires cfg drv fuel inst adapter w n c hDawn hf hn]
      · rw [request_device_fires cfg drv fuel inst adapter w n c hDawn hf hn] at hr
        by_cases hs : c.status = WGPURequestDeviceStatus_Success
        · simp only [hs, if_true, Option.some.injEq] at hr
          simp [device_request_callback, hs, hr]
        · simp only [hs, if_false, Option.some.injEq] at hr
          simp [device_request_callback, hs, hr]
    · rw [request_device_quiet cfg drv fuel inst adapter w hDawn hq] at hr
      simp at hr
  · intro hq
    rw [request_adapter_quiet cfg drv fuel inst backend_type w hDawn hq]
  · intro hq
    rw [request_device_quiet cfg drv fuel inst adapter w hDawn hq]

/-- Witness for `request_return_follows_callback`: the adapter request
completes with success and handle 55 during the first wait; the call returns 55
and the trace ends with the delivery of that completion. -/
theorem request_return_follows_callback_witness :
    (sk_wgpu_instance_request_adapter dawnBuild
        (sampleDriver 1 ⟨1, 55, ""⟩ ⟨1, 66, ""⟩) 3 10 4 World.empty).1 = some 55 ∧
    ∃ n c, n ≤ 3 ∧
      (sk_wgpu_instance_request_adapter dawnBuild
        (sampleDriver 1 ⟨1, 55, ""⟩ ⟨1, 66, ""⟩) 3 10 4 World.empty).2.trace =
          [.wgpuInstanceRequestAdapter 10 4 WGPUCallbackMode_AllowProcessEvents 1] ++
            List.replicate n (.wgpuInstanceWaitAny 10 1 1 UINT64_MAX) ++
            [.adapterCallback c] ∧
      55 = (adapter_request_callback c.status c.handle c.message {}).adapter := by
  have hr : (sk_wgpu_instance_request_adapter dawnBuild
      (sampleDriver 1 ⟨1, 55, ""⟩ ⟨1, 66, ""⟩) 3 10 4 World.empty).1 = some 55 := by decide
  refine ⟨hr, ?_⟩
  obtain ⟨n, c, hn, _, ht, hc⟩ := (request_return_follows_callback dawnBuild
    (sampleDriver 1 ⟨1, 55, ""⟩ ⟨1, 66, ""⟩) 3 10 4 20 World.empty 55 rfl).1 hr
  exact ⟨n, c, hn, by simpa [World.empty, sampleDriver, scriptAt] using ht, hc⟩

/-- C6.  In a Dawn build every invocation of the adapter request adds exactly
one `wgpuInstanceRequestAdapter` to the trace and every invocation of the device
request exactly one `wgpuAdapterRequestDevice`, however long the call has run
and whatever is delivered; and when the completion delivered carries a status
other than Success the value returned is null, whatever the status and the
diagnostic message. -/
theorem request_issued_once (cfg : BuildConfig) (drv : Driver) (fuel : Nat)
    (inst : Handle) (backend_type : Nat) (adapter : Handle) (w : World)
    (hDawn : cfg.SK_DAWN = true) :
    List.countP Event.isRequestAdapter
        (sk_wgpu_instance_request_adapter cfg drv fuel inst backend_type w).2.trace =
      List.countP Event.isRequestAdapter w.trace + 1 ∧
    List.countP Event.isRequestDevice
        (sk_wgpu_adapter_request_device cfg drv fuel inst adapter w).2.trace =
      List.countP Event.isRequestDevice w.trace + 1 ∧
    (∀ n c, n ≤ fuel → FirstFires (drv.requestAdapter w.trace inst backend_type) n c →
      c.status ≠ WGPURequestAdapterStatus_Success →
      (sk_wgpu_instance_request_adapter cfg drv fuel inst backend_type w).1 = some 0) ∧
    (∀ n c, n ≤ fuel → FirstFires (drv.requestDevice w.trace adapter deviceDesc) n c →
      c.status ≠ WGPURequestDeviceStatus_Success →
      (sk_wgpu_adapter_request_device cfg drv fuel inst adapter w).1 = some 0) := by
  refine ⟨?_, ?_, ?_, ?_⟩
  · rcases firstFires_or_quiet (drv.requestAdapter w.trace inst backend_type) fuel with
      ⟨n, c, hn, hf⟩ | hq
    · rw [request_adapter_fires cfg drv fuel inst backend_type w n c hDawn hf hn]
      simp [List.countP_append, countP_replicate_waitAny, Event.isRequestAdapter]
    · rw [request_adapter_quiet cfg drv fuel inst backend_type w hDawn hq]
      simp [List.countP_append, countP_replicate_waitAny, Event.isRequestAdapter]
  · rcases firstFires_or_quiet (drv.requestDevice w.trace adapter deviceDesc) fuel with
      ⟨n, c, hn, hf⟩ | hq
    · rw [request_device_fires cfg drv fuel inst adapter w n c hDawn hf hn]
      simp [List.countP_append, countP_replicate_waitAny, Event.isRequestDevice]
    · rw [request_device_quiet cfg drv fuel inst adapter w hDawn hq]
      simp [List.countP_append, countP_replicate_waitAny, Event.isRequestDevice]
  · intro n c hn hf hs
    rw [request_adapter_fires cfg drv fuel inst backend_type w n c hDawn hf hn]
    simp [hs]
  · intro n c hn hf hs
    rw [request_device_fires cfg drv fuel inst adapter w n c hDawn hf hn]
    simp [hs]

/-- Witness for `request_issued_once`: a device request rejected with status 2
during the third wait issues one native request and returns null. -/
theorem request_issued_once_witness :
    List.countP Event.isRequestDevice
        (sk_wgpu_adapter_request_device dawnBuild
          (sampleDriver 3 ⟨2, 0, "a"⟩ ⟨2, 9, "lost"⟩) 8 10 20 World.empty).2.trace = 1 ∧
    (sk_wgpu_adapter_request_device dawnBuild
        (sampleDriver 3 ⟨2, 0, "a"⟩ ⟨2, 9, "lost"⟩) 8 10 20 World.empty).1 = some 0 := by
  have h := request_issued_once dawnBuild (sampleDriver 3 ⟨2, 0, "a"⟩ ⟨2, 9, "lost"⟩)
    8 10 4 20 World.empty rfl
  refine ⟨by simpa [World.empty] using h.2.1, ?_⟩
  exact h.2.2.2 3 ⟨2, 9, "lost"⟩ (by decide)
    ⟨by simp [sampleDriver, scriptAt], fun k hk => by simp [sampleDriver, scriptAt]; omega⟩
    (by decide)

/-! ## Access to shared texture memory -/

theorem cppAcquire_trace (e : Event) (h : Handle) (w : World) :
    (cppAcquire e h w).trace = w.trace ++ (if h = 0 then [] else [e]) := by
  unfold cppAcquire
  by_cases hh : h = 0 <;> simp [hh, nativeAddRef_trace]

theorem cppDestroy_trace (e : Event) (h : Handle) (w : World) :
    (cppDestroy e h w).trace = w.trace ++ (if h = 0 then [] else [e]) := by
  unfold cppDestroy
  by_cases hh : h = 0 <;> simp [hh, nativeRelease_trace]

theorem begin_access_result (cfg : BuildConfig) (drv : Driver) (m t : Handle) (w : World)
    (hDawn : cfg.SK_DAWN = true) :
    (sk_wgpu_shared_texture_memory_begin_access cfg drv m t w).1 =
      drv.beginAccess (atNativeCall m t w) m t := by
  simp [sk_wgpu_shared_texture_memory_begin_access, hDawn, atNativeCall]

theorem end_access_result (cfg : BuildConfig) (drv : Driver) (m t : Handle) (w : World)
    (hDawn : cfg.SK_DAWN = true) :
    (sk_wgpu_shared_texture_memory_end_access cfg drv m t w).1 =
      (drv.endAccess (atNativeCall m t w) m t).1 := by
  simp [sk_wgpu_shared_texture_memory_end_access, hDawn, atNativeCall]

theorem begin_access_calls (cfg : BuildConfig) (drv : Driver) (m t : Handle) (w : World)
    (hDawn : cfg.SK_DAWN = true) :
    (sk_wgpu_shared_texture_memory_begin_access cfg drv m t w).2.trace.filterMap
        Event.beginAccessOf =
      w.trace.filterMap Event.beginAccessOf ++
        [(m, t, (sk_wgpu_shared_texture_memory_begin_access cfg drv m t w).1)] := by
  simp only [sk_wgpu_shared_texture_memory_begin_access, hDawn, if_true, cppDestroy_trace,
    cppAcquire_trace, log_trace]
  by_cases hm : m = 0 <;> by_cases ht : t = 0 <;>
    simp [hm, ht, List.filterMap_append, Event.beginAccessOf]

theorem end_access_calls (cfg : BuildConfig) (drv : Driver) (m t : Handle) (w : World)
    (hDawn : cfg.SK_DAWN = true) :
    (sk_wgpu_shared_texture_memory_end_access cfg drv m t w).2.trace.filterMap
        Event.endAccessOf =
      w.trace.filterMap Event.endAccessOf ++
        [(m, t, (drv.endAccess (atNativeCall m t w) m t).1,
          (drv.endAccess (atNativeCall m t w) m t).2)] := by
  simp only [sk_wgpu_shared_texture_memory_end_access, hDawn, if_true, cppDestroy_trace,
    cppAcquire_trace, log_trace, atNativeCall]
  by_cases hm : m = 0 <;> by_cases ht : t = 0 <;>
    simp [hm, ht, List.filterMap_append, Event.endAccessOf]

/-- C7.  In a Dawn build `begin_access` issues one native `BeginAccess` on the
pair and returns what it reports, `end_access` issues one native `EndAccess` on
the pair and returns what it reports; so a begin followed by an end both return
true exactly when the native side grants both. -/
theorem access_returns_native_report (cfg : BuildConfig) (drv : Driver) (m t : Handle)
    (w : World) (hDawn : cfg.SK_DAWN = true) :
    ((sk_wgpu_shared_texture_memory_begin_access cfg drv m t w).1 = true ↔
      drv.beginAccess (atNativeCall m t w) m t = true) ∧
    ((sk_wgpu_shared_texture_memory_end_access cfg drv m t w).1 = true ↔
      (drv.endAccess (atNativeCall m t w) m t).1 = true) ∧
    (sk_wgpu_shared_texture_memory_begin_access cfg drv m t w).2.trace.filterMap
        Event.beginAccessOf =
      w.trace.filterMap Event.beginAccessOf ++
        [(m, t, (sk_wgpu_shared_texture_memory_begin_access cfg drv m t w).1)] ∧
    (sk_wgpu_shared_texture_memory_end_access cfg drv m t w).2.trace.filterMap
        Event.endAccessOf =
      w.trace.filterMap Event.endAccessOf ++
        [(m, t, (sk_wgpu_shared_texture_memory_end_access cfg drv m t w).1,
          (drv.endAccess (atNativeCall m t w) m t).2)] ∧
    (drv.beginAccess (atNativeCall m t w) m t = true →
      (drv.endAccess (atNativeCall m t
        (sk_wgpu_shared_texture_memory_begin_access cfg drv m t w).2) m t).1 = true →
      (sk_wgpu_shared_texture_memory_begin_access cfg drv m t w).1 = true ∧
      (sk_wgpu_shared_texture_memory_end_access cfg drv m t
        (sk_wgpu_shared_texture_memory_begin_access cfg drv m t w).2).1 = true) := by
  refine ⟨?_, ?_, begin_access_calls cfg drv m t w hDawn, ?_, ?_⟩
  · rw [begin_access_result cfg drv m t w hDawn]
  · rw [end_access_result cfg drv m t w hDawn]
  · rw [end_access_result cfg drv m t w hDawn]
    exact end_access_calls cfg drv m t w hDawn
  · intro hb he
    rw [begin_access_result cfg drv m t w hDawn, end_access_result cfg drv m t _ hDawn]
    exact ⟨hb, he⟩

/-- Witness for `access_returns_native_report`: with a driver that follows the
access protocol, a begin on a pair outside an access and the end after it both
return true. -/
theorem access_returns_native_report_witness :
    (sk_wgpu_shared_texture_memory_begin_access dawnBuild (strictDriver [(900, 5)]) 5 6
      World.empty).1 = true ∧
    (sk_wgpu_shared_texture_memory_end_access dawnBuild (strictDriver [(900, 5)]) 5 6
      (sk_wgpu_shared_texture_memory_begin_access dawnBuild (strictDriver [(900, 5)]) 5 6
        World.empty).2).1 = true :=
  (access_returns_native_report dawnBuild (strictDriver [(900, 5)]) 5 6 World.empty rfl).2.2.2.2
    (by decide) (by decide)

theorem cppAcquire_refs (e : Event) (h : Handle) (w : World) (k : Handle) :
    (cppAcquire e h w).refs k = if k = h ∧ h ≠ 0 then w.refs k + 1 else w.refs k := by
  unfold cppAcquire nativeAddRef
  by_cases hh : h = 0 <;> by_cases hk : k = h <;> simp [hh, hk, setRef]

theorem cppDestroy_refs (e : Event) (h : Handle) (w : World) (k : Handle) :
    (cppDestroy e h w).refs k = if k = h ∧ h ≠ 0 then w.refs k - 1 else w.refs k := by
  unfold cppDestroy nativeRelease
  by_cases hh : h = 0 <;> by_cases hk : k = h <;> simp [hh, hk, setRef]

theorem nativeCreate_refs (e : Event) (h : Handle) (w : World) (k : Handle) :
    (nativeCreate e h w).refs k = if k = h ∧ h ≠ 0 then w.refs k + 1 else w.refs k := by
  unfold nativeCreate
  by_cases hh : h = 0 <;> by_cases hk : k = h <;> simp [hh, hk, setRef]

theorem nativeRelease_refs_all (e : Event) (h : Handle) (w : World) (k : Handle) :
    (nativeRelease e h w).refs k = if k = h ∧ h ≠ 0 then w.refs k - 1 else w.refs k := by
  unfold nativeRelease
  by_cases hh : h = 0 <;> by_cases hk : k = h <;> simp [hh, hk, setRef]

theorem nativeCreate_trace (e : Event) (h : Handle) (w : World) :
    (nativeCreate e h w).trace = w.trace ++ [e] := by
  unfold nativeCreate
  by_cases hh : h = 0 <;> simp [hh]

theorem cppAcquire_destroyed (e : Event) (h : Handle) (w : World) :
    (cppAcquire e h w).destroyed = w.destroyed := by
  unfold cppAcquire
  by_cases hh : h = 0 <;> simp [hh, nativeAddRef_destroyed]

theorem cppDestroy_destroyed (e : Event) (h : Handle) (w : World) :
    (cppDestroy e h w).destroyed =
      w.destroyed ++ (if h ≠ 0 ∧ w.refs h = 1 then [h] else []) := by
  unfold cppDestroy
  by_cases hh : h = 0
  · simp [hh]
  · simp [hh, nativeRelease_destroyed]

theorem cppAcquire_stderr (e : Event) (h : Handle) (w : World) :
    (cppAcquire e h w).stderr = w.stderr := by
  unfold cppAcquire nativeAddRef
  by_cases hh : h = 0 <;> simp [hh]

theorem cppDestroy_stderr (e : Event) (h : Handle) (w : World) :
    (cppDestroy e h w).stderr = w.stderr := by
  unfold cppDestroy nativeRelease
  by_cases hh : h = 0 <;> simp [hh]

/-- The counts after a begin of access are the counts before it. -/
theorem begin_access_refs (cfg : BuildConfig) (drv : Driver) (m t : Handle) (w : World)
    (k : Handle) :
    (sk_wgpu_shared_texture_memory_begin_access cfg drv m t w).2.refs k = w.refs k := by
  unfold sk_wgpu_shared_texture_memory_begin_access
  by_cases hD : cfg.SK_DAWN = true
  · simp only [hD, if_true, cppDestroy_refs, log_refs, cppAcquire_refs]
    have hz : ∀ x : Nat, (0 = x ∧ ¬x = 0) ↔ False :=
      fun x => ⟨fun h => h.2 h.1.symm, False.elim⟩
    rcases eq_or_ne k m with rfl | hkm <;> rcases eq_or_ne k t with rfl | hkt <;>
      by_cases h0 : k = 0 <;> simp [*]
  · simp [hD]

/-- The counts after an end of access are the counts before it. -/
theorem end_access_refs (cfg : BuildConfig) (drv : Driver) (m t : Handle) (w : World)
    (k : Handle) :
    (sk_wgpu_shared_texture_memory_end_access cfg drv m t w).2.refs k = w.refs k := by
  unfold sk_wgpu_shared_texture_memory_end_access
  by_cases hD : cfg.SK_DAWN = true
  · simp only [hD, if_true, cppDestroy_refs, log_refs, cppAcquire_refs]
    have hz : ∀ x : Nat, (0 = x ∧ ¬x = 0) ↔ False :=
      fun x => ⟨fun h => h.2 h.1.symm, False.elim⟩
    rcases eq_or_ne k m with rfl | hkm <;> rcases eq_or_ne k t with rfl | hkt <;>
      by_cases h0 : k = 0 <;> simp [*]
  · simp [hD]

/-- C8 as stated fails.  With a driver that follows the access protocol and no
begin on the pair before, `end_access` returns false, yet the native `EndAccess`
has been called; after a begin and an end a second end is forwarded as well; and
with a driver that grants everything the end without a begin returns true. -/
theorem end_access_without_begin_is_forwarded :
    ((sk_wgpu_shared_texture_memory_end_access dawnBuild (strictDriver [(900, 5)]) 5 6
        World.empty).1 = false ∧
      (sk_wgpu_shared_texture_memory_end_access dawnBuild (strictDriver [(900, 5)]) 5 6
        World.empty).2.trace =
        [.wgpuSharedTextureMemoryAddRef 5, .wgpuTextureAddRef 6,
         .wgpuSharedTextureMemoryEndAccess 5 6 false [],
         .wgpuTextureRelease 6, .wgpuSharedTextureMemoryRelease 5]) ∧
    ((sk_wgpu_shared_texture_memory_end_access dawnBuild (strictDriver [(900, 5)]) 5 6
        (sk_wgpu_shared_texture_memory_end_access dawnBuild (strictDriver [(900, 5)]) 5 6
          (sk_wgpu_shared_texture_memory_begin_access dawnBuild (strictDriver [(900, 5)]) 5 6
            World.empty).2).2).2.trace.filterMap Event.endAccessOf =
        [(5, 6, true, [(900, 5)]), (5, 6, false, [])]) ∧
    ((sk_wgpu_shared_texture_memory_end_access dawnBuild
        (sampleDriver 0 ⟨1, 55, ""⟩ ⟨1, 66, ""⟩) 5 6 World.empty).1 = true) := by
  decide

/-- C8, as amended.  The wrapper keeps no record of accesses.  In a Dawn build
`end_access` forwards every call to the native `EndAccess`, exactly once and
whatever happened before, and returns what the native call reports; in a build
without Dawn it makes no native call and returns false. -/
theorem end_access_always_forwards (cfg : BuildConfig) (drv : Driver) (m t : Handle)
    (w : World) :
    (sk_wgpu_shared_texture_memory_end_access cfg drv m t w).2.trace.filterMap
        Event.endAccessOf =
      w.trace.filterMap Event.endAccessOf ++
        (if cfg.SK_DAWN = true then
          [(m, t, (drv.endAccess (atNativeCall m t w) m t).1,
            (drv.endAccess (atNativeCall m t w) m t).2)]
        else []) ∧
    (sk_wgpu_shared_texture_memory_end_access cfg drv m t w).1 =
      (if cfg.SK_DAWN = true then (drv.endAccess (atNativeCall m t w) m t).1 else false) ∧
    (cfg.SK_DAWN = false →
      (sk_wgpu_shared_texture_memory_end_access cfg drv m t w).2.trace = w.trace) := by
  by_cases hD : cfg.SK_DAWN = true
  · refine ⟨?_, ?_, ?_⟩
    · simpa [hD] using end_access_calls cfg drv m t w hD
    · simpa [hD] using end_access_result cfg drv m t w hD
    · intro h
      rw [h] at hD
      exact absurd hD (by decide)
  · simp [sk_wgpu_shared_texture_memory_end_access, hD]

/-- Witness for `end_access_always_forwards`: in a build without Dawn the call
leaves the trace alone. -/
theorem end_access_always_forwards_witness :
    (sk_wgpu_shared_texture_memory_end_access plainBuild (strictDriver []) 5 6
      World.empty).2.trace = [] :=
  (end_access_always_forwards plainBuild (strictDriver []) 5 6 World.empty).2.2 rfl

/-- C9 as stated fails.  No function recovers the fences and their signaled
values from what `end_access` returns and leaves behind: two native sides that
end the same access with different fences give the caller the same view. -/
theorem end_access_token_not_recoverable :
    ¬ ∃ recover : Bool × (Handle → Nat) × List Handle × List String → List (Handle × Nat),
      ∀ (drv : Driver) (m t : Handle) (w : World),
        recover (callerView (sk_wgpu_shared_texture_memory_end_access dawnBuild drv m t w)) =
          (drv.endAccess (atNativeCall m t w) m t).2 := by
  rintro ⟨recover, h⟩
  have h1 := h (strictDriver [(900, 5)]) 5 6
    (World.empty.log (.wgpuSharedTextureMemoryBeginAccess 5 6 true))
  have h2 := h (strictDriver [(901, 7)]) 5 6
    (World.empty.log (.wgpuSharedTextureMemoryBeginAccess 5 6 true))
  have hv : callerView (sk_wgpu_shared_texture_memory_end_access dawnBuild
        (strictDriver [(900, 5)]) 5 6
        (World.empty.log (.wgpuSharedTextureMemoryBeginAccess 5 6 true))) =
      callerView (sk_wgpu_shared_texture_memory_end_access dawnBuild
        (strictDriver [(901, 7)]) 5 6
        (World.empty.log (.wgpuSharedTextureMemoryBeginAccess 5 6 true))) := rfl
  rw [hv, h2] at h1
  exact absurd h1 (by decide)

/-- C9, as amended.  `end_access` hands its caller a boolean and nothing else:
whenever two native sides report the same success for the call, whatever fences
and signaled values they store in the descriptor, the value returned and the
counts, the destruction log and the error stream after the call are the same;
and in a Dawn build the value returned is the success the native side reports. -/
theorem end_access_returns_only_success (cfg : BuildConfig) (drv1 drv2 : Driver)
    (m t : Handle) (w : World)
    (hsame : (drv1.endAccess (atNativeCall m t w) m t).1 =
      (drv2.endAccess (atNativeCall m t w) m t).1) :
    callerView (sk_wgpu_shared_texture_memory_end_access cfg drv1 m t w) =
      callerView (sk_wgpu_shared_texture_memory_end_access cfg drv2 m t w) ∧
    (cfg.SK_DAWN = true →
      (sk_wgpu_shared_texture_memory_end_access cfg drv1 m t w).1 =
        (drv1.endAccess (atNativeCall m t w) m t).1) := by
  refine ⟨?_, fun hD => end_access_result cfg drv1 m t w hD⟩
  by_cases hD : cfg.SK_DAWN = true
  · have hr : (sk_wgpu_shared_texture_memory_end_access cfg drv1 m t w).2.refs =
        (sk_wgpu_shared_texture_memory_end_access cfg drv2 m t w).2.refs := by
      funext k
      rw [end_access_refs, end_access_refs]
    simp only [callerView, end_access_result cfg _ m t w hD, hsame, hr]
    simp [sk_wgpu_shared_texture_memory_end_access, hD, cppDestroy_destroyed, cppDestroy_stderr,
      cppAcquire_destroyed, cppAcquire_stderr, cppDestroy_refs, cppAcquire_refs]
  · simp [sk_wgpu_shared_texture_memory_end_access, hD, callerView]

/-- Witness for `end_access_returns_only_success`: the same access ended with
fence 900 at value 5 and with fence 901 at value 7. -/
theorem end_access_returns_only_success_witness :
    callerView (sk_wgpu_shared_texture_memory_end_access dawnBuild (strictDriver [(900, 5)])
        5 6 (World.empty.log (.wgpuSharedTextureMemoryBeginAccess 5 6 true))) =
      callerView (sk_wgpu_shared_texture_memory_end_access dawnBuild (strictDriver [(901, 7)])
        5 6 (World.empty.log (.wgpuSharedTextureMemoryBeginAccess 5 6 true))) ∧
    (strictDriver [(900, 5)]).endAccess
        (atNativeCall 5 6 (World.empty.log (.wgpuSharedTextureMemoryBeginAccess 5 6 true)))
        5 6 = (true, [(900, 5)]) :=
  ⟨(end_access_returns_only_success dawnBuild (strictDriver [(900, 5)])
      (strictDriver [(901, 7)]) 5 6
      (World.empty.log (.wgpuSharedTextureMemoryBeginAccess 5 6 true)) (by decide)).1,
    by decide⟩

/-! ## Textures minted from shared texture memory -/

theorem create_texture_fst (cfg : BuildConfig) (drv : Driver) (m : Handle) (w : World)
    (hDawn : cfg.SK_DAWN = true) :
    (sk_wgpu_shared_texture_memory_create_texture cfg drv m w).1 =
      drv.createTexture
        (cppAcquire (.wgpuSharedTextureMemoryAddRef m) m w).trace m := by
  simp [sk_wgpu_shared_texture_memory_create_texture, hDawn]

theorem create_texture_refs (cfg : BuildConfig) (drv : Driver) (m : Handle) (w : World)
    (k : Handle) :
    (sk_wgpu_shared_texture_memory_create_texture cfg drv m w).2.refs k =
      if k = (sk_wgpu_shared_texture_memory_create_texture cfg drv m w).1 ∧ k ≠ 0 ∧
          cfg.SK_DAWN = true then w.refs k + 1
      else w.refs k := by
  unfold sk_wgpu_shared_texture_memory_create_texture
  by_cases hD : cfg.SK_DAWN = true
  · simp only [hD, if_true, cppDestroy_refs, nativeCreate_refs, cppAcquire_refs]
    generalize drv.createTexture _ m = texture
    have hz : ∀ x : Nat, (0 = x ∧ ¬x = 0) ↔ False :=
      fun x => ⟨fun h => h.2 h.1.symm, False.elim⟩
    rcases eq_or_ne k m with rfl | hkm <;> rcases eq_or_ne k texture with rfl | hkt <;>
      by_cases h0 : k = 0 <;> simp [*]
  · simp [hD]

theorem texture_release_refs (cfg : BuildConfig) (t : Handle) (w : World) (k : Handle)
    (hk : k ≠ t) : (sk_wgpu_texture_release cfg t w).refs k = w.refs k := by
  unfold sk_wgpu_texture_release
  by_cases hD : cfg.SK_DAWN = true
  · simp [hD, nativeRelease_refs_all, hk]
  · simp [hD]

/-- C10.  In a Dawn build, for a non-null shared texture memory `m`:
`create_texture(m)` is the native calls AddRef on `m`, CreateTexture, Release
on `m`; it leaves the count of `m` where it was (the texture minted being an
object other than `m`) and the texture it returns, when not null, has gained
the one reference that goes to the caller.  Minting two textures from `m` and
releasing the second, then the first, leaves the count of `m` where it was.
A begin and an end of access leave every count, those of both arguments
included, where it was. -/
theorem create_texture_keeps_memory_count (cfg : BuildConfig) (drv : Driver) (m t : Handle)
    (w : World) (hDawn : cfg.SK_DAWN = true) (hm : m ≠ 0) :
    (sk_wgpu_shared_texture_memory_create_texture cfg drv m w).2.trace =
      w.trace ++ [.wgpuSharedTextureMemoryAddRef m,
        .wgpuSharedTextureMemoryCreateTexture m
          (sk_wgpu_shared_texture_memory_create_texture cfg drv m w).1,
        .wgpuSharedTextureMemoryRelease m] ∧
    ((sk_wgpu_shared_texture_memory_create_texture cfg drv m w).1 ≠ m →
      (sk_wgpu_shared_texture_memory_create_texture cfg drv m w).2.refs m = w.refs m) ∧
    ((sk_wgpu_shared_texture_memory_create_texture cfg drv m w).1 ≠ 0 →
      (sk_wgpu_shared_texture_memory_create_texture cfg drv m w).2.refs
          (sk_wgpu_shared_texture_memory_create_texture cfg drv m w).1 =
        w.refs (sk_wgpu_shared_texture_memory_create_texture cfg drv m w).1 + 1) ∧
    ((sk_wgpu_shared_texture_memory_create_texture cfg drv m w).1 ≠ m →
      (sk_wgpu_shared_texture_memory_create_texture cfg drv m
        (sk_wgpu_shared_texture_memory_create_texture cfg drv m w).2).1 ≠ m →
      (sk_wgpu_texture_release cfg
        (sk_wgpu_shared_texture_memory_create_texture cfg drv m w).1
        (sk_wgpu_texture_release cfg
          (sk_wgpu_shared_texture_memory_create_texture cfg drv m
            (sk_wgpu_shared_texture_memory_create_texture cfg drv m w).2).1
          (sk_wgpu_shared_texture_memory_create_texture cfg drv m
            (sk_wgpu_shared_texture_memory_create_texture cfg drv m w).2).2)).refs m =
        w.refs m) ∧
    (∀ k, (sk_wgpu_shared_texture_memory_begin_access cfg drv m t w).2.refs k = w.refs k) ∧
    (∀ k, (sk_wgpu_shared_texture_memory_end_access cfg drv m t w).2.refs k = w.refs k) := by
  refine ⟨?_, ?_, ?_, ?_, begin_access_refs cfg drv m t w, end_access_refs cfg drv m t w⟩
  · simp [sk_wgpu_shared_texture_memory_create_texture, hDawn, cppDestroy_trace,
      nativeCreate_trace, cppAcquire_trace, hm]
  · intro h1
    rw [create_texture_refs, if_neg (fun h => h1 h.1.symm)]
  · intro h1
    rw [create_texture_refs, if_pos ⟨rfl, h1, hDawn⟩]
  · intro h1 h2
    rw [texture_release_refs cfg _ _ m (Ne.symm h1), texture_release_refs cfg _ _ m (Ne.symm h2),
      create_texture_refs, if_neg (fun h => h2 h.1.symm),
      create_texture_refs, if_neg (fun h => h1 h.1.symm)]

/-- Witness for `create_texture_keeps_memory_count`: a memory at address 5 with
one reference; two textures are minted (at 106 and 109) and released in reverse
order; the count of the memory is 1 again. -/
theorem create_texture_keeps_memory_count_witness :
    (sk_wgpu_shared_texture_memory_create_texture dawnBuild
      (sampleDriver 0 ⟨1, 55, ""⟩ ⟨1, 66, ""⟩) 5 (World.fresh 5)).1 = 106 ∧
    (sk_wgpu_texture_release dawnBuild
      (sk_wgpu_shared_texture_memory_create_texture dawnBuild
        (sampleDriver 0 ⟨1, 55, ""⟩ ⟨1, 66, ""⟩) 5 (World.fresh 5)).1
      (sk_wgpu_texture_release dawnBuild
        (sk_wgpu_shared_texture_memory_create_texture dawnBuild
          (sampleDriver 0 ⟨1, 55, ""⟩ ⟨1, 66, ""⟩) 5
          (sk_wgpu_shared_texture_memory_create_texture dawnBuild
            (sampleDriver 0 ⟨1, 55, ""⟩ ⟨1, 66, ""⟩) 5 (World.fresh 5)).2).1
        (sk_wgpu_shared_texture_memory_create_texture dawnBuild
          (sampleDriver 0 ⟨1, 55, ""⟩ ⟨1, 66, ""⟩) 5
          (sk_wgpu_shared_texture_memory_create_texture dawnBuild
            (sampleDriver 0 ⟨1, 55, ""⟩ ⟨1, 66, ""⟩) 5 (World.fresh 5)).2).2)).refs 5 = 1 :=
  ⟨by decide,
    (create_texture_keeps_memory_count dawnBuild (sampleDriver 0 ⟨1, 55, ""⟩ ⟨1, 66, ""⟩)
      5 6 (World.fresh 5) rfl (by decide)).2.2.2.1 (by decide) (by decide)⟩

/-! ## Reference counting through the wrapper -/

/-- C2, as amended.  In a Dawn build, for a non-null handle whose native count
starts at 1 and every sequence of add-ref/release wrapper calls on it in which
the count is positive before each call: each wrapper call is exactly one native
AddRef or Release of the same kind, the count after the sequence is
1 + #add_ref - #release, the object is destroyed at most once (once when the
final count is 0, not at all otherwise), and a destruction is logged at a step
exactly when that step is a release that finds the count at 1. -/
theorem refcount_sequence (cfg : BuildConfig) (kind : RefKind) (h : Handle)
    (ops : List RefOp) (w : World)
    (hDawn : cfg.SK_DAWN = true) (hh : h ≠ 0) (h1 : w.refs h = 1)
    (hpos : positiveBeforeEach cfg kind h ops w = true) :
    (runRefOps cfg kind h ops w).trace = w.trace ++ ops.map (fun op => nativeEvent kind op h) ∧
    (runRefOps cfg kind h ops w).refs h + ops.count .release = 1 + ops.count .add_ref ∧
    (runRefOps cfg kind h ops w).destroyed =
      w.destroyed ++ (if (runRefOps cfg kind h ops w).refs h = 0 then [h] else []) ∧
    (∀ (pre post : List RefOp) (op : RefOp), ops = pre ++ op :: post →
      (runRefOps cfg kind h (pre ++ [op]) w).destroyed =
        (runRefOps cfg kind h pre w).destroyed ++
          (if op = .release ∧ (runRefOps cfg kind h pre w).refs h = 1 then [h] else [])) := by
  refine ⟨runRefOps_trace cfg hDawn kind h ops w, ?_, ?_, ?_⟩
  · have := runRefOps_refs cfg hDawn kind h hh ops w
      (positiveBeforeEach_weaken cfg kind h ops w hpos)
    omega
  · have := runRefOps_destroyed cfg hDawn kind h hh ops w hpos
    simpa [h1] using this
  · intro pre post op _
    rw [runRefOps_append]
    simp only [runRefOps]
    exact refCall_destroyed cfg hDawn kind op h hh _

/-- Witness for `refcount_sequence`: a device created with one reference, then
add-ref, release, release. -/
theorem refcount_sequence_witness :
    (runRefOps dawnBuild .device 7 [.add_ref, .release, .release] (World.fresh 7)).refs 7 = 0 ∧
    (runRefOps dawnBuild .device 7 [.add_ref, .release, .release] (World.fresh 7)).destroyed
      = [7] := by
  have h := refcount_sequence dawnBuild .device 7 [.add_ref, .release, .release]
    (World.fresh 7) rfl (by decide) (by decide) (by decide)
  have h0 : (runRefOps dawnBuild .device 7 [.add_ref, .release, .release]
      (World.fresh 7)).refs 7 = 0 := by
    have := h.2.1
    simp at this
    omega
  refine ⟨h0, ?_⟩
  have h3 := h.2.2.1
  rw [h0] at h3
  simpa [World.fresh, World.empty] using h3

/-- C2 as stated fails.  The sequence release, add-ref, release on a texture
created with one reference keeps the count positive before each release, each
call is one native call, the count ends at 1 + 1 - 2 = 0, and the destruction
path runs twice; the sequence add-ref keeps the count positive as well and the
destruction path does not run at all. -/
theorem refcount_destroyed_once_fails :
    (positiveBeforeRelease dawnBuild .texture 7 [.release, .add_ref, .release]
        (World.fresh 7) = true ∧
      (runRefOps dawnBuild .texture 7 [.release, .add_ref, .release] (World.fresh 7)).trace
        = [.wgpuTextureRelease 7, .wgpuTextureAddRef 7, .wgpuTextureRelease 7] ∧
      (runRefOps dawnBuild .texture 7 [.release, .add_ref, .release] (World.fresh 7)).refs 7
        = 0 ∧
      (runRefOps dawnBuild .texture 7 [.release, .add_ref, .release] (World.fresh 7)).destroyed
        = [7, 7]) ∧
    (positiveBeforeRelease dawnBuild .texture 7 [.add_ref] (World.fresh 7) = true ∧
      (runRefOps dawnBuild .texture 7 [.add_ref] (World.fresh 7)).refs 7 = 2 ∧
      (runRefOps dawnBuild .texture 7 [.add_ref] (World.fresh 7)).destroyed = []) := by
  decide

/-- C3, the code at the failing input.  In a Dawn build each of the nine
add-ref and release entry points, called with the null handle, issues its
native call on the null handle; nothing in the wrapper stops it. -/
theorem null_handle_reaches_native (w : World) :
    (sk_wgpu_instance_release dawnBuild 0 w).trace = w.trace ++ [.wgpuInstanceRelease 0] ∧
    (sk_wgpu_adapter_release dawnBuild 0 w).trace = w.trace ++ [.wgpuAdapterRelease 0] ∧
    (sk_wgpu_device_add_ref dawnBuild 0 w).trace = w.trace ++ [.wgpuDeviceAddRef 0] ∧
    (sk_wgpu_device_release dawnBuild 0 w).trace = w.trace ++ [.wgpuDeviceRelease 0] ∧
    (sk_wgpu_queue_release dawnBuild 0 w).trace = w.trace ++ [.wgpuQueueRelease 0] ∧
    (sk_wgpu_texture_add_ref dawnBuild 0 w).trace = w.trace ++ [.wgpuTextureAddRef 0] ∧
    (sk_wgpu_texture_release dawnBuild 0 w).trace = w.trace ++ [.wgpuTextureRelease 0] ∧
    (sk_wgpu_shared_texture_memory_add_ref dawnBuild 0 w).trace
      = w.trace ++ [.wgpuSharedTextureMemoryAddRef 0] ∧
    (sk_wgpu_shared_texture_memory_release dawnBuild 0 w).trace
      = w.trace ++ [.wgpuSharedTextureMemoryRelease 0] := by
  simp [sk_wgpu_instance_release, sk_wgpu_adapter_release, sk_wgpu_device_add_ref,
    sk_wgpu_device_release, sk_wgpu_queue_release, sk_wgpu_texture_add_ref,
    sk_wgpu_texture_release, sk_wgpu_shared_texture_memory_add_ref,
    sk_wgpu_shared_texture_memory_release, dawnBuild, nativeAddRef_trace, nativeRelease_trace]

/-- C4, the code at the failing input.  In a Dawn build on Windows the import
from a D3D12 resource with a null device issues the native import on the null
device and returns whatever the native side answers. -/
theorem import_null_device_reaches_native (drv : Driver) (dx12_resource : Handle)
    (label : String) (w : World) :
    (sk_wgpu_import_shared_texture_memory_from_d3d12_resource dawnWindowsBuild drv 0
        dx12_resource label w).2.trace
      = w.trace ++ [.wgpuDeviceImportSharedTextureMemory 0 dx12_resource label
          (drv.importSharedTextureMemory w.trace 0 dx12_resource label)] ∧
    (sk_wgpu_import_shared_texture_memory_from_d3d12_resource dawnWindowsBuild drv 0
        dx12_resource label w).1
      = drv.importSharedTextureMemory w.trace 0 dx12_resource label := by
  unfold sk_wgpu_import_shared_texture_memory_from_d3d12_resource
  simp only [dawnWindowsBuild, Bool.and_self, if_true, cppAcquire, cppDestroy, nativeCreate]
  constructor
  · split <;> simp
  · trivial

/-! ## Builds without Dawn or without Windows -/

/-- C14.  When `SK_DAWN` is not defined, for all arguments `begin_access` and
`end_access` return false and `create_texture` returns null, and the world
after each call is the world before it: no native call, no change of state. -/
theorem shared_texture_memory_without_dawn (cfg : BuildConfig) (drv : Driver) (m t : Handle)
    (w : World) (hNo : cfg.SK_DAWN = false) :
    sk_wgpu_shared_texture_memory_begin_access cfg drv m t w = (false, w) ∧
    sk_wgpu_shared_texture_memory_end_access cfg drv m t w = (false, w) ∧
    sk_wgpu_shared_texture_memory_create_texture cfg drv m w = (0, w) := by
  simp [sk_wgpu_shared_texture_memory_begin_access, sk_wgpu_shared_texture_memory_end_access,
    sk_wgpu_shared_texture_memory_create_texture, hNo]

/-- Witness for `shared_texture_memory_without_dawn`: a build without Dawn, a
memory at 5 with one reference and a texture at 6. -/
theorem shared_texture_memory_without_dawn_witness :
    sk_wgpu_shared_texture_memory_begin_access plainBuild (strictDriver []) 5 6
        (World.fresh 5) = (false, World.fresh 5) ∧
    sk_wgpu_shared_texture_memory_end_access plainBuild (strictDriver []) 5 6
        (World.fresh 5) = (false, World.fresh 5) ∧
    sk_wgpu_shared_texture_memory_create_texture plainBuild (strictDriver []) 5
        (World.fresh 5) = (0, World.fresh 5) :=
  shared_texture_memory_without_dawn plainBuild (strictDriver []) 5 6 (World.fresh 5) rfl

/-- C15.  When `_WIN32` is not defined, with or without Dawn, both D3D import
functions return null for every device, resource pointer and label.  When
`SK_DAWN` is not defined, `sk_wgpu_init` returns false and `create_instance`,
`request_adapter`, `request_device` and `get_queue` return null for all
arguments, leaving the world as it was.  These are the values of a failed
request: in a Dawn build a request completed with a status other than Success
returns the same null. -/
theorem unsupported_build_returns_null (cfg : BuildConfig) (drv : Driver) (fuel : Nat)
    (inst adapter device resource : Handle) (backend_type : Nat) (label : String) (w : World) :
    (cfg.WIN32 = false →
      sk_wgpu_import_shared_texture_memory_from_d3d12_resource cfg drv device resource label w
        = (0, w) ∧
      sk_wgpu_import_shared_texture_memory_from_d3d11_texture cfg drv device resource label w
        = (0, w)) ∧
    (cfg.SK_DAWN = false →
      sk_wgpu_init cfg w = (false, w) ∧
      sk_wgpu_create_instance cfg drv w = (0, w) ∧
      sk_wgpu_instance_request_adapter cfg drv fuel inst backend_type w = (some 0, w) ∧
      sk_wgpu_adapter_request_device cfg drv fuel inst adapter w = (some 0, w) ∧
      sk_wgpu_device_get_queue cfg drv device w = (0, w)) ∧
    (cfg.SK_DAWN = true →
      (∀ n c, n ≤ fuel → FirstFires (drv.requestAdapter w.trace inst backend_type) n c →
        c.status ≠ WGPURequestAdapterStatus_Success →
        (sk_wgpu_instance_request_adapter cfg drv fuel inst backend_type w).1 = some 0) ∧
      (∀ n c, n ≤ fuel → FirstFires (drv.requestDevice w.trace adapter deviceDesc) n c →
        c.status ≠ WGPURequestDeviceStatus_Success →
        (sk_wgpu_adapter_request_device cfg drv fuel inst adapter w).1 = some 0)) := by
  refine ⟨?_, ?_, ?_⟩
  · intro hW
    simp [sk_wgpu_import_shared_texture_memory_from_d3d12_resource,
      sk_wgpu_import_shared_texture_memory_from_d3d11_texture, hW]
  · intro hD
    simp [sk_wgpu_init, sk_wgpu_create_instance, sk_wgpu_instance_request_adapter,
      sk_wgpu_adapter_request_device, sk_wgpu_device_get_queue, hD]
  · intro hD
    refine ⟨fun n c hn hf hs => ?_, fun n c hn hf hs => ?_⟩
    · rw [request_adapter_fires cfg drv fuel inst backend_type w n c hD hf hn]
      simp [hs]
    · rw [request_device_fires cfg drv fuel inst adapter w n c hD hf hn]
      simp [hs]

/-- Witness for `unsupported_build_returns_null`: a build without Dawn and
without Windows. -/
theorem unsupported_build_returns_null_witness :
    sk_wgpu_import_shared_texture_memory_from_d3d11_texture plainBuild
        (sampleDriver 0 ⟨1, 55, ""⟩ ⟨1, 66, ""⟩) 20 30 "frame" World.empty
      = (0, World.empty) ∧
    sk_wgpu_init plainBuild World.empty = (false, World.empty) ∧
    sk_wgpu_instance_request_adapter plainBuild (sampleDriver 0 ⟨1, 55, ""⟩ ⟨1, 66, ""⟩)
        0 10 4 World.empty = (some 0, World.empty) :=
  ⟨((unsupported_build_returns_null plainBuild (sampleDriver 0 ⟨1, 55, ""⟩ ⟨1, 66, ""⟩)
      0 10 20 20 30 4 "frame" World.empty).1 rfl).2,
    ((unsupported_build_returns_null plainBuild (sampleDriver 0 ⟨1, 55, ""⟩ ⟨1, 66, ""⟩)
      0 10 20 20 30 4 "frame" World.empty).2.1 rfl).1,
    ((unsupported_build_returns_null plainBuild (sampleDriver 0 ⟨1, 55, ""⟩ ⟨1, 66, ""⟩)
      0 10 20 20 30 4 "frame" World.empty).2.1 rfl).2.2.1⟩

/-! ## The COM reference bridge -/

theorem sk_wgpu_com_add_ref_on (cfg : BuildConfig) (hDawn : cfg.SK_DAWN = true)
    (hWin : cfg.WIN32 = true) (p : Handle) (hp : p ≠ 0) (w : World) :
    sk_wgpu_com_add_ref cfg p w = comAddRef p w := by
  simp [sk_wgpu_com_add_ref, hDawn, hWin, hp]

theorem sk_wgpu_com_release_on (cfg : BuildConfig) (hDawn : cfg.SK_DAWN = true)
    (hWin : cfg.WIN32 = true) (p : Handle) (hp : p ≠ 0) (w : World) :
    sk_wgpu_com_release cfg p w = comRelease p w := by
  simp [sk_wgpu_com_release, hDawn, hWin, hp]

theorem runComOps_trace (cfg : BuildConfig) (hDawn : cfg.SK_DAWN = true)
    (hWin : cfg.WIN32 = true) (p : Handle) (hp : p ≠ 0) (ops : List RefOp) (w : World) :
    (runComOps cfg p ops w).trace = w.trace ++ ops.map (fun op => comEvent op p) := by
  induction ops generalizing w with
  | nil => simp [runComOps]
  | cons op ops ih =>
    cases op <;>
      simp [runComOps, ih, comCall, comEvent, sk_wgpu_com_add_ref_on cfg hDawn hWin p hp,
        sk_wgpu_com_release_on cfg hDawn hWin p hp, comAddRef, comRelease]

theorem runComOps_comRefs (cfg : BuildConfig) (hDawn : cfg.SK_DAWN = true)
    (hWin : cfg.WIN32 = true) (p : Handle) (hp : p ≠ 0) (ops : List RefOp) (w : World) :
    (runComOps cfg p ops w).comRefs p =
      w.comRefs p + (ops.count .add_ref : Int) - (ops.count .release : Int) := by
  induction ops generalizing w with
  | nil => simp [runComOps]
  | cons op ops ih =>
    cases op
    · simp only [runComOps, comCall, sk_wgpu_com_add_ref_on cfg hDawn hWin p hp, ih,
        List.count_cons_self]
      simp [comAddRef, setCom]
      omega
    · simp only [runComOps, comCall, sk_wgpu_com_release_on cfg hDawn hWin p hp, ih,
        List.count_cons_self]
      simp [comRelease, setCom]
      omega

/-- C16.  On a Windows Dawn build and for a non-null `p`, `sk_wgpu_com_add_ref(p)`
is exactly one `AddRef` on `p` and `sk_wgpu_com_release(p)` exactly one `Release`
on `p`, so a sequence of the two calls is the sequence of these native calls
and changes the COM count of the object by #add_ref - #release.  For null `p`,
and on every other build for every `p`, both calls leave the world as it was. -/
theorem com_bridge_is_one_to_one (cfg : BuildConfig) (p : Handle) (ops : List RefOp)
    (w : World) :
    (cfg.SK_DAWN = true → cfg.WIN32 = true → p ≠ 0 →
      (sk_wgpu_com_add_ref cfg p w).trace = w.trace ++ [.comAddRef p] ∧
      (sk_wgpu_com_add_ref cfg p w).comRefs p = w.comRefs p + 1 ∧
      (sk_wgpu_com_release cfg p w).trace = w.trace ++ [.comRelease p] ∧
      (sk_wgpu_com_release cfg p w).comRefs p = w.comRefs p - 1 ∧
      (runComOps cfg p ops w).trace = w.trace ++ ops.map (fun op => comEvent op p) ∧
      (runComOps cfg p ops w).comRefs p =
        w.comRefs p + (ops.count .add_ref : Int) - (ops.count .release : Int)) ∧
    (p = 0 ∨ cfg.SK_DAWN = false ∨ cfg.WIN32 = false →
      sk_wgpu_com_add_ref cfg p w = w ∧ sk_wgpu_com_release cfg p w = w) := by
  constructor
  · intro hDawn hWin hp
    refine ⟨?_, ?_, ?_, ?_, runComOps_trace cfg hDawn hWin p hp ops w,
      runComOps_comRefs cfg hDawn hWin p hp ops w⟩
    · simp [sk_wgpu_com_add_ref_on cfg hDawn hWin p hp, comAddRef]
    · simp [sk_wgpu_com_add_ref_on cfg hDawn hWin p hp, comAddRef, setCom]
    · simp [sk_wgpu_com_release_on cfg hDawn hWin p hp, comRelease]
    · simp [sk_wgpu_com_release_on cfg hDawn hWin p hp, comRelease, setCom]
  · intro h
    rcases h with h | h | h <;> simp [sk_wgpu_com_add_ref, sk_wgpu_com_release, h]

/-- Witness for `com_bridge_is_one_to_one`: on a Windows Dawn build the calls
add-ref, add-ref, release on the object at 40 raise its COM count by one; on a
Dawn build that is not Windows an add-ref does nothing. -/
theorem com_bridge_is_one_to_one_witness :
    (runComOps dawnWindowsBuild 40 [.add_ref, .add_ref, .release] World.empty).comRefs 40 =
      World.empty.comRefs 40 + ((2 : Nat) : Int) - ((1 : Nat) : Int) ∧
    sk_wgpu_com_add_ref dawnBuild 40 World.empty = World.empty :=
  ⟨((com_bridge_is_one_to_one dawnWindowsBuild 40 [.add_ref, .add_ref, .release]
      World.empty).1 rfl rfl (by decide)).2.2.2.2.2,
    ((com_bridge_is_one_to_one dawnBuild 40 [] World.empty).2 (Or.inr (Or.inr rfl))).1⟩

/-! ## What the requests pass to the native side -/

theorem filterMap_replicate_none {β : Type} (f : Event → Option β) (e : Event) (n : Nat)
    (h : f e = none) : (List.replicate n e).filterMap f = [] := by
  induction n with
  | zero => rfl
  | succ n ih => simp [List.replicate_succ, List.filterMap_cons, h, ih]

/-- The trace of an adapter request, whatever the fuel: the native request,
then waits, then at most the delivery of a completion. -/
theorem request_adapter_trace (cfg : BuildConfig) (drv : Driver) (fuel : Nat) (inst : Handle)
    (backend_type : Nat) (w : World) (hDawn : cfg.SK_DAWN = true) :
    ∃ (n : Nat) (rest : List Event),
      (rest = [] ∨ ∃ c, rest = [.adapterCallback c]) ∧
      (sk_wgpu_instance_request_adapter cfg drv fuel inst backend_type w).2.trace =
        w.trace ++
          [.wgpuInstanceRequestAdapter inst backend_type WGPUCallbackMode_AllowProcessEvents
            (drv.requestAdapter w.trace inst backend_type).future] ++
          List.replicate n (.wgpuInstanceWaitAny inst 1
            (drv.requestAdapter w.trace inst backend_type).future UINT64_MAX) ++ rest := by
  rcases firstFires_or_quiet (drv.requestAdapter w.trace inst backend_type) fuel with
    ⟨n, c, hn, hf⟩ | hq
  · refine ⟨n, [.adapterCallback c], Or.inr ⟨c, rfl⟩, ?_⟩
    rw [request_adapter_fires cfg drv fuel inst backend_type w n c hDawn hf hn]
  · refine ⟨fuel, [], Or.inl rfl, ?_⟩
    rw [request_adapter_quiet cfg drv fuel inst backend_type w hDawn hq]
    simp

/-- The trace of a device request, whatever the fuel. -/
theorem request_device_trace (cfg : BuildConfig) (drv : Driver) (fuel : Nat) (inst : Handle)
    (adapter : Handle) (w : World) (hDawn : cfg.SK_DAWN = true) :
    ∃ (n : Nat) (rest : List Event),
      (rest = [] ∨ ∃ c, rest = [.deviceCallback c]) ∧
      (sk_wgpu_adapter_request_device cfg drv fuel inst adapter w).2.trace =
        w.trace ++
          [.wgpuAdapterRequestDevice adapter deviceDesc WGPUCallbackMode_AllowProcessEvents
            (drv.requestDevice w.trace adapter deviceDesc).future] ++
          List.replicate n (.wgpuInstanceWaitAny inst 1
            (drv.requestDevice w.trace adapter deviceDesc).future UINT64_MAX) ++ rest := by
  rcases firstFires_or_quiet (drv.requestDevice w.trace adapter deviceDesc) fuel with
    ⟨n, c, hn, hf⟩ | hq
  · refine ⟨n, [.deviceCallback c], Or.inr ⟨c, rfl⟩, ?_⟩
    rw [request_device_fires cfg drv fuel inst adapter w n c hDawn hf hn]
  · refine ⟨fuel, [], Or.inl rfl, ?_⟩
    rw [request_device_quiet cfg drv fuel inst adapter w hDawn hq]
    simp

/-- C17.  The backend type enumeration has the nine members undefined, null,
webgpu, d3d11, d3d12, metal, vulkan, opengl, opengles and no other, with the
pairwise distinct values 0 to 8 in that order; and in a Dawn build the adapter
request issues its one native request with the numeric value of its
`backend_type` argument, unchanged, as `backendType`. -/
theorem backend_type_passed_unchanged (cfg : BuildConfig) (drv : Driver) (fuel : Nat)
    (inst : Handle) (b : sk_wgpu_backend_type_t) (backend_type : Nat) (w : World)
    (hDawn : cfg.SK_DAWN = true) :
    sk_wgpu_backend_type_t.all.map sk_wgpu_backend_type_t.value = [0, 1, 2, 3, 4, 5, 6, 7, 8] ∧
    b ∈ sk_wgpu_backend_type_t.all ∧
    sk_wgpu_backend_type_t.all.Nodup ∧
    (∀ b1 b2 : sk_wgpu_backend_type_t, b1.value = b2.value → b1 = b2) ∧
    (sk_wgpu_instance_request_adapter cfg drv fuel inst backend_type w).2.trace.filterMap
        Event.requestedBackendType =
      w.trace.filterMap Event.requestedBackendType ++ [backend_type] ∧
    (sk_wgpu_instance_request_adapter cfg drv fuel inst b.value w).2.trace.filterMap
        Event.requestedBackendType =
      w.trace.filterMap Event.requestedBackendType ++ [b.value] := by
  have key : ∀ bt : Nat,
      (sk_wgpu_instance_request_adapter cfg drv fuel inst bt w).2.trace.filterMap
          Event.requestedBackendType =
        w.trace.filterMap Event.requestedBackendType ++ [bt] := by
    intro bt
    obtain ⟨n, rest, hrest, ht⟩ := request_adapter_trace cfg drv fuel inst bt w hDawn
    rw [ht]
    rcases hrest with rfl | ⟨c, rfl⟩ <;>
      simp [List.filterMap_append, filterMap_replicate_none, Event.requestedBackendType]
  refine ⟨by decide, by cases b <;> decide, by decide, ?_, key backend_type, key b.value⟩
  intro b1 b2 h
  cases b1 <;> cases b2 <;> first | rfl | (exact absurd h (by decide))

/-- Witness for `backend_type_passed_unchanged`: a request for the Vulkan
backend reaches the native side with backend type 6. -/
theorem backend_type_passed_unchanged_witness :
    (sk_wgpu_instance_request_adapter dawnBuild (sampleDriver 1 ⟨1, 55, ""⟩ ⟨1, 66, ""⟩) 3 10
        sk_wgpu_backend_type_t.SK_WGPU_BACKEND_TYPE_VULKAN.value World.empty).2.trace.filterMap
        Event.requestedBackendType = [6] := by
  have h := (backend_type_passed_unchanged dawnBuild (sampleDriver 1 ⟨1, 55, ""⟩ ⟨1, 66, ""⟩)
    3 10 .SK_WGPU_BACKEND_TYPE_VULKAN 6 World.empty rfl).2.2.2.2.2
  simpa [World.empty, sk_wgpu_backend_type_t.value] using h

/-- C18.  In a Dawn build, when the completion callback first fires at step `n`
(`n = 0`: inside the request call; `n ≥ 1`: during the `n`-th `WaitAny`), the
adapter request (resp. the device request) returns after exactly `n` calls of
`wgpuInstanceWaitAny`: its trace is the native request, `n` waits, the delivery.
Every wait is on the instance with one future, the one the request returned,
and the timeout `UINT64_MAX`, which is 2^64 - 1. -/
theorem waits_until_callback (cfg : BuildConfig) (drv : Driver) (fuel : Nat)
    (inst : Handle) (backend_type : Nat) (adapter : Handle) (w : World) (n : Nat)
    (c : Completion) (hDawn : cfg.SK_DAWN = true) (hn : n ≤ fuel) :
    (FirstFires (drv.requestAdapter w.trace inst backend_type) n c →
      (sk_wgpu_instance_request_adapter cfg drv fuel inst backend_type w).1.isSome = true ∧
      (sk_wgpu_instance_request_adapter cfg drv fuel inst backend_type w).2.trace =
        w.trace ++
          [.wgpuInstanceRequestAdapter inst backend_type WGPUCallbackMode_AllowProcessEvents
            (drv.requestAdapter w.trace inst backend_type).future] ++
          List.replicate n (.wgpuInstanceWaitAny inst 1
            (drv.requestAdapter w.trace inst backend_type).future UINT64_MAX) ++
          [.adapterCallback c]) ∧
    (FirstFires (drv.requestDevice w.trace adapter deviceDesc) n c →
      (sk_wgpu_adapter_request_device cfg drv fuel inst adapter w).1.isSome = true ∧
      (sk_wgpu_adapter_request_device cfg drv fuel inst adapter w).2.trace =
        w.trace ++
          [.wgpuAdapterRequestDevice adapter deviceDesc WGPUCallbackMode_AllowProcessEvents
            (drv.requestDevice w.trace adapter deviceDesc).future] ++
          List.replicate n (.wgpuInstanceWaitAny inst 1
            (drv.requestDevice w.trace adapter deviceDesc).future UINT64_MAX) ++
          [.deviceCallback c]) ∧
    UINT64_MAX = 2 ^ 64 - 1 := by
  refine ⟨fun hf => ?_, fun hf => ?_, rfl⟩
  · rw [request_adapter_fires cfg drv fuel inst backend_type w n c hDawn hf hn]
    simp
  · rw [request_device_fires cfg drv fuel inst adapter w n c hDawn hf hn]
    simp

/-- Witness for `waits_until_callback`: the adapter request is completed during
the second wait, on future 1; the call issues two waits on that future. -/
theorem waits_until_callback_witness :
    (sk_wgpu_instance_request_adapter dawnBuild (sampleDriver 2 ⟨1, 55, ""⟩ ⟨1, 66, ""⟩) 4 10
        5 World.empty).2.trace =
      [.wgpuInstanceRequestAdapter 10 5 WGPUCallbackMode_AllowProcessEvents 1,
       .wgpuInstanceWaitAny 10 1 1 UINT64_MAX, .wgpuInstanceWaitAny 10 1 1 UINT64_MAX,
       .adapterCallback ⟨1, 55, ""⟩] := by
  have h := ((waits_until_callback dawnBuild (sampleDriver 2 ⟨1, 55, ""⟩ ⟨1, 66, ""⟩)
    4 10 5 20 World.empty 2 ⟨1, 55, ""⟩ rfl (by decide)).1
    ⟨by simp [sampleDriver, scriptAt], fun k hk => by
      simp [sampleDriver, scriptAt]; omega⟩).2
  simpa [World.empty, sampleDriver, scriptAt, List.replicate] using h

/-- C19.  In a Dawn build, when the native side never delivers the completion
(not inside the request call and not during any wait), the adapter request
(resp. the device request) does not return: for every `n` it is still waiting
after `n` calls of `wgpuInstanceWaitAny`.  This holds for every instance,
backend type, adapter and state the call is started with. -/
theorem hung_request_never_returns (cfg : BuildConfig) (drv : Driver) (inst : Handle)
    (backend_type : Nat) (adapter : Handle) (w : World) (hDawn : cfg.SK_DAWN = true) :
    ((∀ k, (drv.requestAdapter w.trace inst backend_type).fires k = none) →
      ∀ n, (sk_wgpu_instance_request_adapter cfg drv n inst backend_type w).1 = none ∧
        List.countP Event.isWaitAny
            (sk_wgpu_instance_request_adapter cfg drv n inst backend_type w).2.trace =
          List.countP Event.isWaitAny w.trace + n) ∧
    ((∀ k, (drv.requestDevice w.trace adapter deviceDesc).fires k = none) →
      ∀ n, (sk_wgpu_adapter_request_device cfg drv n inst adapter w).1 = none ∧
        List.countP Event.isWaitAny
            (sk_wgpu_adapter_request_device cfg drv n inst adapter w).2.trace =
          List.countP Event.isWaitAny w.trace + n) := by
  constructor
  · intro hq n
    rw [request_adapter_quiet cfg drv n inst backend_type w hDawn (fun k _ => hq k)]
    simp [List.countP_append, countP_replicate_waitAny, Event.isWaitAny]
  · intro hq n
    rw [request_device_quiet cfg drv n inst adapter w hDawn (fun k _ => hq k)]
    simp [List.countP_append, countP_replicate_waitAny, Event.isWaitAny]

/-- Witness for `hung_request_never_returns`: with a driver that never completes
a request the device request is still waiting after 1000 waits. -/
theorem hung_request_never_returns_witness :
    (sk_wgpu_adapter_request_device dawnBuild hungDriver 1000 10 20 World.empty).1 = none :=
  (((hung_request_never_returns dawnBuild hungDriver 10 4 20 World.empty rfl).2
    (fun _ => rfl)) 1000).1

/-- C20.  In a Dawn build, for every instance and adapter, the one native
device request of `sk_wgpu_adapter_request_device` carries a descriptor with
required-feature count 0 and no required feature at all (so no shared texture
memory and no shared fence feature), with the device-lost callback set to
`device_lost_callback` and with an uncaptured-error callback that is not null. -/
theorem device_request_descriptor (cfg : BuildConfig) (drv : Driver) (fuel : Nat)
    (inst adapter : Handle) (w : World) (hDawn : cfg.SK_DAWN = true) :
    ∃ desc : DeviceDescriptor,
      (sk_wgpu_adapter_request_device cfg drv fuel inst adapter w).2.trace.filterMap
          Event.requestedDeviceDesc =
        w.trace.filterMap Event.requestedDeviceDesc ++ [desc] ∧
      desc.requiredFeatureCount = 0 ∧
      (∀ feature : Nat, feature ∉ desc.requiredFeatures) ∧
      desc.deviceLostCallback = .device_lost_callback ∧
      desc.uncapturedErrorCallback ≠ .null := by
  refine ⟨deviceDesc, ?_, rfl, by simp [deviceDesc], rfl, by decide⟩
  obtain ⟨n, rest, hrest, ht⟩ := request_device_trace cfg drv fuel inst adapter w hDawn
  rw [ht]
  rcases hrest with rfl | ⟨c, rfl⟩ <;>
    simp [List.filterMap_append, filterMap_replicate_none, Event.requestedDeviceDesc]

/-- Witness for `device_request_descriptor`: the descriptor of a device request
on adapter 20. -/
theorem device_request_descriptor_witness :
    ∃ desc : DeviceDescriptor,
      (sk_wgpu_adapter_request_device dawnBuild (sampleDriver 1 ⟨1, 55, ""⟩ ⟨1, 66, ""⟩)
          3 10 20 World.empty).2.trace.filterMap Event.requestedDeviceDesc = [desc] ∧
      desc.requiredFeatureCount = 0 := by
  obtain ⟨desc, h1, h2, _⟩ := device_request_descriptor dawnBuild
    (sampleDriver 1 ⟨1, 55, ""⟩ ⟨1, 66, ""⟩) 3 10 20 World.empty rfl
  exact ⟨desc, by simpa [World.empty] using h1, h2⟩

/-! ## Diagnostics and device loss -/

/-- C12, the code at the failing input.  In a Dawn build the adapter request
never writes to the error stream, whatever the native side delivers; with a
request rejected with status 2 and the message "no adapter" the call returns
null and the error stream stays empty, while the device request rejected with
the message "no device" returns null and has written the message. -/
theorem adapter_failure_is_not_logged (drv : Driver) (fuel : Nat) (inst : Handle)
    (backend_type : Nat) (w : World) :
    (sk_wgpu_instance_request_adapter dawnBuild drv fuel inst backend_type w).2.stderr
      = w.stderr ∧
    sk_wgpu_instance_request_adapter dawnBuild
        (sampleDriver 1 ⟨2, 0, "no adapter"⟩ ⟨2, 0, "no device"⟩) 3 10 4 World.empty =
      (some 0,
       { World.empty with
         trace := [.wgpuInstanceRequestAdapter 10 4 WGPUCallbackMode_AllowProcessEvents 1,
           .wgpuInstanceWaitAny 10 1 1 UINT64_MAX, .adapterCallback ⟨2, 0, "no adapter"⟩]
         stderr := [] }) ∧
    (sk_wgpu_adapter_request_device dawnBuild
        (sampleDriver 1 ⟨2, 0, "no adapter"⟩ ⟨2, 0, "no device"⟩) 3 10 20 World.empty).1 =
      some 0 ∧
    (sk_wgpu_adapter_request_device dawnBuild
        (sampleDriver 1 ⟨2, 0, "no adapter"⟩ ⟨2, 0, "no device"⟩) 3 10 20 World.empty).2.stderr =
      ["Failed to request WGPU device: no device\n"] := by
  refine ⟨?_, ?_, ?_, ?_⟩
  · rcases firstFires_or_quiet (drv.requestAdapter w.trace inst backend_type) fuel with
      ⟨n, c, hn, hf⟩ | hq
    · rw [request_adapter_fires dawnBuild drv fuel inst backend_type w n c rfl hf hn]
    · rw [request_adapter_quiet dawnBuild drv fuel inst backend_type w rfl hq]
  · rw [request_adapter_fires dawnBuild _ 3 10 4 World.empty 1 ⟨2, 0, "no adapter"⟩ rfl
      ⟨by simp [sampleDriver, scriptAt], fun k hk => by
        simp [sampleDriver, scriptAt]; omega⟩ (by decide)]
    simp [World.empty, sampleDriver, scriptAt, WGPURequestAdapterStatus_Success]
  · rw [request_device_fires dawnBuild _ 3 10 20 World.empty 1 ⟨2, 0, "no device"⟩ rfl
      ⟨by simp [sampleDriver, scriptAt], fun k hk => by
        simp [sampleDriver, scriptAt]; omega⟩ (by decide)]
    simp [WGPURequestDeviceStatus_Success]
  · rw [request_device_fires dawnBuild _ 3 10 20 World.empty 1 ⟨2, 0, "no device"⟩ rfl
      ⟨by simp [sampleDriver, scriptAt], fun k hk => by
        simp [sampleDriver, scriptAt]; omega⟩ (by decide)]
    simp [World.empty, WGPURequestDeviceStatus_Success]

/-- An entry added to the trace before a begin of access changes nothing of
what the call leaves for the caller besides the value returned. -/
theorem begin_access_side_log (cfg : BuildConfig) (drv : Driver) (m t : Handle) (w : World)
    (e : Event) :
    (callerView (sk_wgpu_shared_texture_memory_begin_access cfg drv m t (w.log e))).2 =
      (callerView (sk_wgpu_shared_texture_memory_begin_access cfg drv m t w)).2 := by
  have hr : (sk_wgpu_shared_texture_memory_begin_access cfg drv m t (w.log e)).2.refs =
      (sk_wgpu_shared_texture_memory_begin_access cfg drv m t w).2.refs := by
    funext k
    rw [begin_access_refs, begin_access_refs, log_refs]
  simp only [callerView, hr]
  by_cases hD : cfg.SK_DAWN = true
  · simp [sk_wgpu_shared_texture_memory_begin_access, hD,
      cppDestroy_destroyed, cppDestroy_stderr, cppAcquire_destroyed, cppAcquire_stderr,
      cppDestroy_refs, cppAcquire_refs]
  · simp [sk_wgpu_shared_texture_memory_begin_access, hD]

/-- An entry added to the trace before an end of access changes nothing of what
the call leaves for the caller besides the value returned. -/
theorem end_access_side_log (cfg : BuildConfig) (drv : Driver) (m t : Handle) (w : World)
    (e : Event) :
    (callerView (sk_wgpu_shared_texture_memory_end_access cfg drv m t (w.log e))).2 =
      (callerView (sk_wgpu_shared_texture_memory_end_access cfg drv m t w)).2 := by
  have hr : (sk_wgpu_shared_texture_memory_end_access cfg drv m t (w.log e)).2.refs =
      (sk_wgpu_shared_texture_memory_end_access cfg drv m t w).2.refs := by
    funext k
    rw [end_access_refs, end_access_refs, log_refs]
  simp only [callerView, hr]
  by_cases hD : cfg.SK_DAWN = true
  · simp [sk_wgpu_shared_texture_memory_end_access, hD,
      cppDestroy_destroyed, cppDestroy_stderr, cppAcquire_destroyed, cppAcquire_stderr,
      cppDestroy_refs, cppAcquire_refs]
  · simp [sk_wgpu_shared_texture_memory_end_access, hD]

/-- The device request of the examples returns device 20 and writes nothing to
the error stream. -/
theorem worldWithDevice_request :
    (sk_wgpu_adapter_request_device dawnBuild (sampleDriver 0 ⟨1, 55, ""⟩ ⟨1, 20, ""⟩) 3 10 55
      World.empty).1 = some 20 ∧
    worldWithDevice.stderr = [] := by
  unfold worldWithDevice
  rw [request_device_fires dawnBuild _ 3 10 55 World.empty 0 ⟨1, 20, ""⟩ rfl
    ⟨by simp [sampleDriver, scriptAt], fun k hk => by omega⟩ (by decide)]
  simp [World.empty, WGPURequestDeviceStatus_Success]

/-- C13 as stated fails.  In a Dawn build the device request returns device 20;
the native side then reports the loss of device 20 through the installed
callback.  Nothing has been written to the error stream, the counts and the
destruction log are as before, and `get_queue` on device 20, `begin_access` and
`end_access` on the pair (5, 6) return the queue 21, true and true and leave the
caller the same view as the same calls without the report: no call surfaces a
device-lost state. -/
theorem device_lost_changes_no_call :
    (sk_wgpu_adapter_request_device dawnBuild (sampleDriver 0 ⟨1, 55, ""⟩ ⟨1, 20, ""⟩) 3 10 55
      World.empty).1 = some 20 ∧
    (deliverDeviceLost 20 1 "lost" worldWithDevice).stderr = [] ∧
    (deliverDeviceLost 20 1 "lost" worldWithDevice).refs = worldWithDevice.refs ∧
    (deliverDeviceLost 20 1 "lost" worldWithDevice).destroyed = worldWithDevice.destroyed ∧
    (sk_wgpu_device_get_queue dawnBuild (sampleDriver 0 ⟨1, 55, ""⟩ ⟨1, 20, ""⟩) 20
      (deliverDeviceLost 20 1 "lost" worldWithDevice)).1 = 21 ∧
    (sk_wgpu_device_get_queue dawnBuild (sampleDriver 0 ⟨1, 55, ""⟩ ⟨1, 20, ""⟩) 20
      worldWithDevice).1 = 21 ∧
    (sk_wgpu_shared_texture_memory_begin_access dawnBuild
      (sampleDriver 0 ⟨1, 55, ""⟩ ⟨1, 20, ""⟩) 5 6
      (deliverDeviceLost 20 1 "lost" worldWithDevice)).1 = true ∧
    callerView (sk_wgpu_shared_texture_memory_begin_access dawnBuild
        (sampleDriver 0 ⟨1, 55, ""⟩ ⟨1, 20, ""⟩) 5 6
        (deliverDeviceLost 20 1 "lost" worldWithDevice)) =
      callerView (sk_wgpu_shared_texture_memory_begin_access dawnBuild
        (sampleDriver 0 ⟨1, 55, ""⟩ ⟨1, 20, ""⟩) 5 6 worldWithDevice) ∧
    (sk_wgpu_shared_texture_memory_end_access dawnBuild
      (sampleDriver 0 ⟨1, 55, ""⟩ ⟨1, 20, ""⟩) 5 6
      (deliverDeviceLost 20 1 "lost" worldWithDevice)).1 = true ∧
    callerView (sk_wgpu_shared_texture_memory_end_access dawnBuild
        (sampleDriver 0 ⟨1, 55, ""⟩ ⟨1, 20, ""⟩) 5 6
        (deliverDeviceLost 20 1 "lost" worldWithDevice)) =
      callerView (sk_wgpu_shared_texture_memory_end_access dawnBuild
        (sampleDriver 0 ⟨1, 55, ""⟩ ⟨1, 20, ""⟩) 5 6 worldWithDevice) := by
  have hw : deliverDeviceLost 20 1 "lost" worldWithDevice =
      worldWithDevice.log (.deviceLostCallback 20 1 "lost") := rfl
  refine ⟨worldWithDevice_request.1, ?_, rfl, rfl, ?_, ?_, ?_, ?_, ?_, ?_⟩
  · rw [hw, log_stderr]
    exact worldWithDevice_request.2
  · simp [sk_wgpu_device_get_queue, dawnBuild, sampleDriver]
  · simp [sk_wgpu_device_get_queue, dawnBuild, sampleDriver]
  · rw [begin_access_result _ _ _ _ _ rfl]
    rfl
  · rw [hw]
    refine Prod.ext ?_ (begin_access_side_log _ _ _ _ _ _)
    simp only [callerView]
    rw [begin_access_result _ _ _ _ _ rfl, begin_access_result _ _ _ _ _ rfl]
    rfl
  · rw [end_access_result _ _ _ _ _ rfl]
    rfl
  · rw [hw]
    refine Prod.ext ?_ (end_access_side_log _ _ _ _ _ _)
    simp only [callerView]
    rw [end_access_result _ _ _ _ _ rfl, end_access_result _ _ _ _ _ rfl]
    rfl

/-- C13, amended.  In a Dawn build, for every native side: the device-lost
callback returns the world it is given, so the report of a loss leaves nothing
but its entry in the trace of the boundary (counts, destruction log, error
stream and the wrapper's own variables are as before).  A call made after the
report is forwarded as before and returns the native answer: `get_queue`
returns the queue the native side hands out and takes the caller's reference on
it, `begin_access` and `end_access` return what the native call reports and
leave counts, destruction log and error stream as the same call without the
report leaves them.  Hence whenever the native side answers a call as it would
have without the report, the caller's view of that call is the same as without
the report. -/
theorem device_lost_is_fire_and_forget (cfg : BuildConfig) (drv : Driver)
    (device m t : Handle) (reason : Nat) (message : String) (w : World)
    (hDawn : cfg.SK_DAWN = true) :
    device_lost_callback device reason message w = w ∧
    deliverDeviceLost device reason message w =
      { w with trace := w.trace ++ [.deviceLostCallback device reason message] } ∧
    sk_wgpu_device_get_queue cfg drv device (deliverDeviceLost device reason message w) =
      (drv.getQueue (w.trace ++ [.deviceLostCallback device reason message]) device,
       nativeCreate
         (.wgpuDeviceGetQueue device
           (drv.getQueue (w.trace ++ [.deviceLostCallback device reason message]) device))
         (drv.getQueue (w.trace ++ [.deviceLostCallback device reason message]) device)
         (deliverDeviceLost device reason message w)) ∧
    callerView (sk_wgpu_shared_texture_memory_begin_access cfg drv m t
        (deliverDeviceLost device reason message w)) =
      (drv.beginAccess (atNativeCall m t (deliverDeviceLost device reason message w)) m t,
       (callerView (sk_wgpu_shared_texture_memory_begin_access cfg drv m t w)).2) ∧
    callerView (sk_wgpu_shared_texture_memory_end_access cfg drv m t
        (deliverDeviceLost device reason message w)) =
      ((drv.endAccess (atNativeCall m t (deliverDeviceLost device reason message w)) m t).1,
       (callerView (sk_wgpu_shared_texture_memory_end_access cfg drv m t w)).2) ∧
    (drv.getQueue (w.trace ++ [.deviceLostCallback device reason message]) device =
        drv.getQueue w.trace device →
      (sk_wgpu_device_get_queue cfg drv device (deliverDeviceLost device reason message w)).1 =
        (sk_wgpu_device_get_queue cfg drv device w).1) ∧
    (drv.beginAccess (atNativeCall m t (deliverDeviceLost device reason message w)) m t =
        drv.beginAccess (atNativeCall m t w) m t →
      callerView (sk_wgpu_shared_texture_memory_begin_access cfg drv m t
          (deliverDeviceLost device reason message w)) =
        callerView (sk_wgpu_shared_texture_memory_begin_access cfg drv m t w)) ∧
    ((drv.endAccess (atNativeCall m t (deliverDeviceLost device reason message w)) m t).1 =
        (drv.endAccess (atNativeCall m t w) m t).1 →
      callerView (sk_wgpu_shared_texture_memory_end_access cfg drv m t
          (deliverDeviceLost device reason message w)) =
        callerView (sk_wgpu_shared_texture_memory_end_access cfg drv m t w)) := by
  have hw : deliverDeviceLost device reason message w =
      w.log (.deviceLostCallback device reason message) := rfl
  have hb : callerView (sk_wgpu_shared_texture_memory_begin_access cfg drv m t
        (deliverDeviceLost device reason message w)) =
      (drv.beginAccess (atNativeCall m t (deliverDeviceLost device reason message w)) m t,
       (callerView (sk_wgpu_shared_texture_memory_begin_access cfg drv m t w)).2) := by
    refine Prod.ext ?_ ?_
    · simp only [callerView]
      exact begin_access_result cfg drv m t _ hDawn
    · rw [hw]
      exact begin_access_side_log cfg drv m t w _
  have he : callerView (sk_wgpu_shared_texture_memory_end_access cfg drv m t
        (deliverDeviceLost device reason message w)) =
      ((drv.endAccess (atNativeCall m t (deliverDeviceLost device reason message w)) m t).1,
       (callerView (sk_wgpu_shared_texture_memory_end_access cfg drv m t w)).2) := by
    refine Prod.ext ?_ ?_
    · simp only [callerView]
      exact end_access_result cfg drv m t _ hDawn
    · rw [hw]
      exact end_access_side_log cfg drv m t w _
  refine ⟨rfl, rfl, ?_, hb, he, ?_, ?_, ?_⟩
  · simp [sk_wgpu_device_get_queue, hDawn, deliverDeviceLost, device_lost_callback]
  · intro h
    simp [sk_wgpu_device_get_queue, hDawn, deliverDeviceLost, device_lost_callback, h]
  · intro h
    rw [hb, h]
    refine Prod.ext ?_ rfl
    simp only [callerView]
    exact (begin_access_result cfg drv m t w hDawn).symm
  · intro h
    rw [he, h]
    refine Prod.ext ?_ rfl
    simp only [callerView]
    exact (end_access_result cfg drv m t w hDawn).symm

/-- C13, amended, at concrete inputs.  With a native side that answers as
before the report, `get_queue` on device 20 and a begin and an end of access on
the pair (5, 6) after the report of the loss of device 20 leave the caller the
view they leave without it; with a native side that refuses access after a
loss, the begin after the report returns false, which is the native answer,
while the begin without the report returns true, and counts, destruction log
and error stream are the same in both. -/
theorem device_lost_is_fire_and_forget_witness :
    dawnBuild.SK_DAWN = true ∧
    (sk_wgpu_device_get_queue dawnBuild (sampleDriver 0 ⟨1, 55, ""⟩ ⟨1, 20, ""⟩) 20
        (deliverDeviceLost 20 1 "lost" worldWithDevice)).1 =
      (sk_wgpu_device_get_queue dawnBuild (sampleDriver 0 ⟨1, 55, ""⟩ ⟨1, 20, ""⟩) 20
        worldWithDevice).1 ∧
    callerView (sk_wgpu_shared_texture_memory_begin_access dawnBuild
        (sampleDriver 0 ⟨1, 55, ""⟩ ⟨1, 20, ""⟩) 5 6
        (deliverDeviceLost 20 1 "lost" worldWithDevice)) =
      callerView (sk_wgpu_shared_texture_memory_begin_access dawnBuild
        (sampleDriver 0 ⟨1, 55, ""⟩ ⟨1, 20, ""⟩) 5 6 worldWithDevice) ∧
    callerView (sk_wgpu_shared_texture_memory_end_access dawnBuild
        (sampleDriver 0 ⟨1, 55, ""⟩ ⟨1, 20, ""⟩) 5 6
        (deliverDeviceLost 20 1 "lost" worldWithDevice)) =
      callerView (sk_wgpu_shared_texture_memory_end_access dawnBuild
        (sampleDriver 0 ⟨1, 55, ""⟩ ⟨1, 20, ""⟩) 5 6 worldWithDevice) ∧
    callerView (sk_wgpu_shared_texture_memory_begin_access dawnBuild lossAwareDriver 5 6
        (deliverDeviceLost 20 1 "lost" worldWithDevice)) =
      (false, (callerView (sk_wgpu_shared_texture_memory_begin_access dawnBuild
        lossAwareDriver 5 6 worldWithDevice)).2) ∧
    (sk_wgpu_shared_texture_memory_begin_access dawnBuild lossAwareDriver 5 6
      worldWithDevice).1 = true := by
  have hs := device_lost_is_fire_and_forget dawnBuild (sampleDriver 0 ⟨1, 55, ""⟩ ⟨1, 20, ""⟩)
    20 5 6 1 "lost" worldWithDevice rfl
  have hl := device_lost_is_fire_and_forget dawnBuild lossAwareDriver
    20 5 6 1 "lost" worldWithDevice rfl
  refine ⟨rfl, hs.2.2.2.2.2.1 rfl, hs.2.2.2.2.2.2.1 rfl, hs.2.2.2.2.2.2.2 rfl, ?_, ?_⟩
  · rw [hl.2.2.2.1]
    refine Prod.ext ?_ rfl
    simp [lossAwareDriver, deviceLossReported, atNativeCall, cppAcquire_trace,
      deliverDeviceLost, device_lost_callback]
  · rw [begin_access_result _ _ _ _ _ rfl]
    have h : deviceLossReported (atNativeCall 5 6 worldWithDevice) = false := by
      unfold worldWithDevice
      rw [request_device_fires dawnBuild _ 3 10 55 World.empty 0 ⟨1, 20, ""⟩ rfl
        ⟨by simp [sampleDriver, scriptAt], fun k hk => by omega⟩ (by decide)]
      simp [deviceLossReported, atNativeCall, cppAcquire_trace, World.empty]
    simp [lossAwareDriver, h]

/-! ## The Direct3D accessors -/

theorem comObtain_comRefs (e : Event) (p : Handle) (w : World) (hp : p ≠ 0) :
    (comObtain e p w).comRefs p = w.comRefs p + 1 := by
  simp [comObtain, hp, World.log, setCom]

theorem comObtain_device (e : Event) (p : Handle) (w : World) :
    (comObtain e p w).___device = w.___device := by
  unfold comObtain
  by_cases hp : p = 0 <;> simp [hp, World.log]

theorem assignDevice_comRefs (p : Handle) (w : World) (hp : p ≠ 0) :
    (assignDevice p w).comRefs p = w.comRefs p + (if w.___device = p then 0 else 1) := by
  unfold assignDevice
  by_cases hg : w.___device = p
  · simp [hg]
  · have hne : p ≠ w.___device := fun h => hg h.symm
    by_cases h0 : w.___device = 0
    · have hp0 : ¬(0 = p) := fun h => hp h.symm
      simp only [hg, if_false, hp, h0, if_true]
      simp [comAddRef, setCom, hp0]
    · simp only [hg, if_false, hp, h0]
      simp [comAddRef, comRelease, setCom, World.log, hne]

/-- C11 as stated fails.  On a Windows build with Dawn, for the non-null device
20 and a backend that yields the objects 420, 520 and 620, the three D3D12
accessors return null and do not ask the backend; the D3D11 accessor returns
the object 320 of the backend. -/
theorem d3d12_accessors_return_null :
    (sampleDriver 0 ⟨1, 55, ""⟩ ⟨1, 20, ""⟩).getD3D12Device [] 20 = 420 ∧
    (sk_wgpu_device_copy_d3d12_device dawnWindowsBuild
      (sampleDriver 0 ⟨1, 55, ""⟩ ⟨1, 20, ""⟩) 20 World.empty).1 = 0 ∧
    (sk_wgpu_device_copy_d3d12_device dawnWindowsBuild
      (sampleDriver 0 ⟨1, 55, ""⟩ ⟨1, 20, ""⟩) 20 World.empty).2.trace = [] ∧
    (sk_wgpu_device_copy_d3d11on12_device dawnWindowsBuild
      (sampleDriver 0 ⟨1, 55, ""⟩ ⟨1, 20, ""⟩) 20 World.empty).1 = 0 ∧
    (sk_wgpu_device_copy_d3d11on12_device dawnWindowsBuild
      (sampleDriver 0 ⟨1, 55, ""⟩ ⟨1, 20, ""⟩) 20 World.empty).2.trace = [] ∧
    (sk_wgpu_device_copy_d3d12_command_queue dawnWindowsBuild
      (sampleDriver 0 ⟨1, 55, ""⟩ ⟨1, 20, ""⟩) 20 World.empty).1 = 0 ∧
    (sk_wgpu_device_copy_d3d12_command_queue dawnWindowsBuild
      (sampleDriver 0 ⟨1, 55, ""⟩ ⟨1, 20, ""⟩) 20 World.empty).2.trace = [] ∧
    (sk_wgpu_device_copy_d3d11_device dawnWindowsBuild
      (sampleDriver 0 ⟨1, 55, ""⟩ ⟨1, 20, ""⟩) 20 World.empty).1 = 320 := by
  decide

/-- C11, as amended.  On a Windows build with Dawn and for every non-null
device, `sk_wgpu_device_copy_d3d11_device` returns the object the backend
yields for the device and, when it is not null, the reference the backend
handed out stays with it for the caller (the file-level `___device` takes one
more unless it already holds the object).  The three D3D12 accessors are
guarded by `SK_DAWN_`: with it they return the object of the backend with the
reference handed out, without it they return null and leave the world as it
was. -/
theorem copy_native_objects (cfg : BuildConfig) (drv : Driver) (device : Handle) (w : World)
    (hDawn : cfg.SK_DAWN = true) (hWin : cfg.WIN32 = true) (hdev : device ≠ 0) :
    (sk_wgpu_device_copy_d3d11_device cfg drv device w).1 = drv.getD3D11Device w.trace device ∧
    ((sk_wgpu_device_copy_d3d11_device cfg drv device w).1 ≠ 0 →
      (sk_wgpu_device_copy_d3d11_device cfg drv device w).2.comRefs
          (sk_wgpu_device_copy_d3d11_device cfg drv device w).1 =
        w.comRefs (sk_wgpu_device_copy_d3d11_device cfg drv device w).1 + 1 +
          (if w.___device = (sk_wgpu_device_copy_d3d11_device cfg drv device w).1 then 0
            else 1)) ∧
    (cfg.SK_DAWN_ = true →
      (sk_wgpu_device_copy_d3d12_device cfg drv device w).1 =
        drv.getD3D12Device w.trace device ∧
      (sk_wgpu_device_copy_d3d11on12_device cfg drv device w).1 =
        drv.getOrCreateD3D11On12Device w.trace device ∧
      (sk_wgpu_device_copy_d3d12_command_queue cfg drv device w).1 =
        drv.getD3D12CommandQueue w.trace device ∧
      ((sk_wgpu_device_copy_d3d12_device cfg drv device w).1 ≠ 0 →
        (sk_wgpu_device_copy_d3d12_device cfg drv device w).2.comRefs
            (sk_wgpu_device_copy_d3d12_device cfg drv device w).1 =
          w.comRefs (sk_wgpu_device_copy_d3d12_device cfg drv device w).1 + 1) ∧
      ((sk_wgpu_device_copy_d3d11on12_device cfg drv device w).1 ≠ 0 →
        (sk_wgpu_device_copy_d3d11on12_device cfg drv device w).2.comRefs
            (sk_wgpu_device_copy_d3d11on12_device cfg drv device w).1 =
          w.comRefs (sk_wgpu_device_copy_d3d11on12_device cfg drv device w).1 + 1) ∧
      ((sk_wgpu_device_copy_d3d12_command_queue cfg drv device w).1 ≠ 0 →
        (sk_wgpu_device_copy_d3d12_command_queue cfg drv device w).2.comRefs
            (sk_wgpu_device_copy_d3d12_command_queue cfg drv device w).1 =
          w.comRefs (sk_wgpu_device_copy_d3d12_command_queue cfg drv device w).1 + 1)) ∧
    (cfg.SK_DAWN_ = false →
      sk_wgpu_device_copy_d3d12_device cfg drv device w = (0, w) ∧
      sk_wgpu_device_copy_d3d11on12_device cfg drv device w = (0, w) ∧
      sk_wgpu_device_copy_d3d12_command_queue cfg drv device w = (0, w)) := by
  refine ⟨?_, ?_, ?_, ?_⟩
  · simp [sk_wgpu_device_copy_d3d11_device, hDawn, hWin, hdev]
  · simp only [sk_wgpu_device_copy_d3d11_device, hDawn, hWin, hdev, Bool.and_self, if_true,
      if_false]
    intro hp
    rw [assignDevice_comRefs _ _ hp, comObtain_comRefs _ _ _ hp, comObtain_device]
  · intro hU
    refine ⟨?_, ?_, ?_, ?_, ?_, ?_⟩
    · simp [sk_wgpu_device_copy_d3d12_device, hU, hWin, hdev]
    · simp [sk_wgpu_device_copy_d3d11on12_device, hU, hWin, hdev]
    · simp [sk_wgpu_device_copy_d3d12_command_queue, hU, hWin, hdev]
    · simp only [sk_wgpu_device_copy_d3d12_device, hU, hWin, hdev, Bool.and_self, if_true,
        if_false]
      exact fun hp => comObtain_comRefs _ _ _ hp
    · simp only [sk_wgpu_device_copy_d3d11on12_device, hU, hWin, hdev, Bool.and_self, if_true,
        if_false]
      exact fun hp => comObtain_comRefs _ _ _ hp
    · simp only [sk_wgpu_device_copy_d3d12_command_queue, hU, hWin, hdev, Bool.and_self,
        if_true, if_false]
      exact fun hp => comObtain_comRefs _ _ _ hp
  · intro hU
    simp [sk_wgpu_device_copy_d3d12_device, sk_wgpu_device_copy_d3d11on12_device,
      sk_wgpu_device_copy_d3d12_command_queue, hU]

/-- Witness for `copy_native_objects`: on a Windows build with Dawn the D3D11
accessor returns the object 320 for device 20, with two references on it (the
caller's and the one of `___device`), and the D3D12 accessor returns null. -/
theorem copy_native_objects_witness :
    (sk_wgpu_device_copy_d3d11_device dawnWindowsBuild
      (sampleDriver 0 ⟨1, 55, ""⟩ ⟨1, 20, ""⟩) 20 World.empty).1 = 320 ∧
    (sk_wgpu_device_copy_d3d11_device dawnWindowsBuild
      (sampleDriver 0 ⟨1, 55, ""⟩ ⟨1, 20, ""⟩) 20 World.empty).2.comRefs 320 = 2 ∧
    sk_wgpu_device_copy_d3d12_device dawnWindowsBuild
      (sampleDriver 0 ⟨1, 55, ""⟩ ⟨1, 20, ""⟩) 20 World.empty = (0, World.empty) := by
  have h := copy_native_objects dawnWindowsBuild (sampleDriver 0 ⟨1, 55, ""⟩ ⟨1, 20, ""⟩) 20
    World.empty rfl rfl (by decide)
  refine ⟨h.1, ?_, (h.2.2.2 rfl).1⟩
  have h2 := h.2.1 (by decide)
  simpa [World.empty, sampleDriver] using h2

/-! ## Instance creation and initialisation -/

/-- C21.  In a Dawn build every call of `sk_wgpu_create_instance`, whatever the
native side and whatever happened before, issues one native instance creation
with the same descriptor: one required feature, `TimedWaitAny`, and a toggles
descriptor that enables one toggle, the string "allow_unsafe_apis". -/
theorem create_instance_descriptor (cfg : BuildConfig) (drv : Driver) (w : World)
    (hDawn : cfg.SK_DAWN = true) :
    (sk_wgpu_create_instance cfg drv w).2.trace.filterMap Event.createdInstanceDesc =
      w.trace.filterMap Event.createdInstanceDesc ++ [instanceDesc] ∧
    instanceDesc.requiredFeatureCount = 1 ∧
    instanceDesc.requiredFeatures = [WGPUInstanceFeatureName_TimedWaitAny] ∧
    instanceDesc.enabledToggleCount = 1 ∧
    instanceDesc.enabledToggles = ["allow_unsafe_apis"] := by
  refine ⟨?_, rfl, rfl, rfl, rfl⟩
  simp [sk_wgpu_create_instance, hDawn, nativeCreate_trace, List.filterMap_append,
    Event.createdInstanceDesc]

/-- Witness for `create_instance_descriptor`: the second instance created in a
process gets the descriptor of the first. -/
theorem create_instance_descriptor_witness :
    (sk_wgpu_create_instance dawnBuild (sampleDriver 0 ⟨1, 55, ""⟩ ⟨1, 66, ""⟩)
      (sk_wgpu_create_instance dawnBuild (sampleDriver 0 ⟨1, 55, ""⟩ ⟨1, 66, ""⟩)
        World.empty).2).2.trace.filterMap Event.createdInstanceDesc =
      [instanceDesc, instanceDesc] := by
  have h1 := (create_instance_descriptor dawnBuild (sampleDriver 0 ⟨1, 55, ""⟩ ⟨1, 66, ""⟩)
    World.empty rfl).1
  have h2 := (create_instance_descriptor dawnBuild (sampleDriver 0 ⟨1, 55, ""⟩ ⟨1, 66, ""⟩)
    (sk_wgpu_create_instance dawnBuild (sampleDriver 0 ⟨1, 55, ""⟩ ⟨1, 66, ""⟩)
      World.empty).2 rfl).1
  rw [h2, h1]
  simp [World.empty]

theorem sk_wgpu_init_idem (cfg : BuildConfig) (w : World) :
    (sk_wgpu_init cfg (sk_wgpu_init cfg w).2).2 = (sk_wgpu_init cfg w).2 := by
  unfold sk_wgpu_init
  by_cases hD : cfg.SK_DAWN = true
  · by_cases hf : w.initFlag = true <;> simp [hD, hf]
  · simp [hD]

theorem runInit_after_first (cfg : BuildConfig) (hDawn : cfg.SK_DAWN = true) (n : Nat)
    (w : World) :
    (runInit cfg n (sk_wgpu_init cfg w).2).2 = (sk_wgpu_init cfg w).2 ∧
    (runInit cfg n w).1 = List.replicate n true := by
  induction n generalizing w with
  | zero => simp [runInit]
  | succ n ih =>
    refine ⟨?_, ?_⟩
    · simp only [runInit]
      rw [sk_wgpu_init_idem]
      exact (ih w).1
    · simp only [runInit, List.replicate_succ]
      rw [(ih (sk_wgpu_init cfg w).2).2]
      simp [sk_wgpu_init, hDawn]

/-- C22.  In a Dawn build, for every `n ≥ 1` calls of `sk_wgpu_init` one after
the other: every call returns true, the state after the `n` calls is the state
after the first one, and when the once-flag is not yet set before the first
call (as at process start) the proc table is installed by the first call and
exactly once in all. -/
theorem init_installs_once (cfg : BuildConfig) (n : Nat) (w : World)
    (hDawn : cfg.SK_DAWN = true) (hn : 1 ≤ n) :
    (runInit cfg n w).1 = List.replicate n true ∧
    (runInit cfg n w).2 = (runInit cfg 1 w).2 ∧
    (w.initFlag = false →
      (sk_wgpu_init cfg w).2.trace = w.trace ++ [.dawnProcSetProcs] ∧
      List.countP Event.isSetProcs (runInit cfg n w).2.trace =
        List.countP Event.isSetProcs w.trace + 1) := by
  obtain ⟨m, rfl⟩ : ∃ m, n = m + 1 := ⟨n - 1, by omega⟩
  have h1 : (runInit cfg (m + 1) w).2 = (sk_wgpu_init cfg w).2 := by
    simp only [runInit]
    exact (runInit_after_first cfg hDawn m w).1
  refine ⟨(runInit_after_first cfg hDawn (m + 1) w).2, ?_, ?_⟩
  · rw [h1]
    simp [runInit]
  · intro hf
    rw [h1]
    simp [sk_wgpu_init, hDawn, hf, List.countP_append, Event.isSetProcs]

/-- Witness for `init_installs_once`: three calls at process start. -/
theorem init_installs_once_witness :
    (runInit dawnBuild 3 World.empty).1 = [true, true, true] ∧
    (runInit dawnBuild 3 World.empty).2.trace = [.dawnProcSetProcs] := by
  have h := init_installs_once dawnBuild 3 World.empty rfl (by decide)
  refine ⟨by simpa [List.replicate] using h.1, ?_⟩
  rw [h.2.1]
  decide

/-! ## Asynchronous pixel reads -/

theorem memcpy_inside (dst : Nat → Nat) (dstOff : Nat) (src : Nat → Nat) (srcOff n i : Nat)
    (hi : i < n) : memcpy dst dstOff src srcOff n (dstOff + i) = src (srcOff + i) := by
  simp [memcpy, hi]

theorem memcpy_below (dst : Nat → Nat) (dstOff : Nat) (src : Nat → Nat) (srcOff n k : Nat)
    (hk : k < dstOff) : memcpy dst dstOff src srcOff n k = dst k := by
  have : ¬(dstOff ≤ k ∧ k < dstOff + n) := by omega
  simp [memcpy, this]

/-- With rows of `R` bytes at stride `R`, the loop leaves what lies below row
`y` alone and fills each of the rows `y .. y + n - 1` from the source. -/
theorem copyRows_spec (src : Nat → Nat) (S R : Nat) :
    ∀ (n y : Nat) (px : Nat → Nat),
      (∀ k, k < y * R → copyRows src S R R n y px k = px k) ∧
      (∀ y0 i, y ≤ y0 → y0 < y + n → i < R →
        copyRows src S R R n y px (y0 * R + i) = src (y0 * S + i)) := by
  intro n
  induction n with
  | zero =>
    intro y px
    exact ⟨fun k _ => rfl, fun y0 i h1 h2 _ => absurd h2 (by omega)⟩
  | succ n ih =>
    intro y px
    have hs : (y + 1) * R = y * R + R := Nat.succ_mul y R
    obtain ⟨ih1, ih2⟩ := ih (y + 1) (memcpy px (y * R) src (y * S) R)
    refine ⟨fun k hk => ?_, fun y0 i h1 h2 hi => ?_⟩
    · simp only [copyRows]
      rw [ih1 k (by omega), memcpy_below _ _ _ _ _ _ hk]
    · simp only [copyRows]
      rcases Nat.eq_or_lt_of_le h1 with rfl | hlt
      · rw [ih1 (y * R + i) (by omega), memcpy_inside _ _ _ _ _ _ hi]
      · exact ih2 y0 i hlt (by omega) hi

/-- C23.  `read_pixels_callback` invokes the user callback exactly once, with
the callback context it was registered with: with success false and a null
result when the read result is null, has no plane or has a null plane 0;
otherwise with success true and a bitmap that has the info of `dstInfo` and in
which, for every row `y` below the height and every `i` below
`width * bytesPerPixel`, byte `i` of row `y` is byte `y * srcRowBytes + i` of
plane 0. -/
theorem read_pixels_callback_result (ctx : RescaleContext) (result : Option AsyncReadResult)
    (fresh : Nat → Nat) :
    (read_pixels_callback ctx result fresh).length = 1 ∧
    (∀ c ∈ read_pixels_callback ctx result fresh,
      c.callback = ctx.callback ∧ c.context = ctx.callback_context) ∧
    ((result = none ∨ ∃ res, result = some res ∧ (res.count = 0 ∨ res.data0 = 0)) →
      ∀ c ∈ read_pixels_callback ctx result fresh, c.success = false ∧ c.result.isNone = true) ∧
    (∀ res, result = some res → res.count ≠ 0 → res.data0 ≠ 0 →
      ∀ c ∈ read_pixels_callback ctx result fresh, c.success = true ∧
        ∃ bitmap, c.result = some bitmap ∧ bitmap.info = ctx.dstInfo ∧
          ∀ y i, y < ctx.dstInfo.height → i < ctx.dstInfo.width * ctx.dstInfo.bytesPerPixel →
            bitmap.pixels (y * bitmap.rowBytes + i) = res.bytes0 (y * res.rowBytes0 + i)) := by
  refine ⟨?_, ?_, ?_, ?_⟩
  · unfold read_pixels_callback
    cases result with
    | none => rfl
    | some res => by_cases h : res.count = 0 ∨ res.data0 = 0 <;> simp [h]
  · unfold read_pixels_callback
    cases result with
    | none => simp
    | some res => by_cases h : res.count = 0 ∨ res.data0 = 0 <;> simp [h]
  · rintro (rfl | ⟨res, rfl, h⟩) <;> simp [read_pixels_callback, *]
  · rintro res rfl h1 h2 c hc
    have h : ¬(res.count = 0 ∨ res.data0 = 0) := by
      rintro (h | h)
      · exact h1 h
      · exact h2 h
    simp only [read_pixels_callback, h, if_false, List.mem_singleton] at hc
    subst hc
    refine ⟨rfl, _, rfl, rfl, ?_⟩
    intro y i hy hi
    exact (copyRows_spec res.bytes0 res.rowBytes0
      (ctx.dstInfo.width * ctx.dstInfo.bytesPerPixel) ctx.dstInfo.height 0 fresh).2 y i
      (Nat.zero_le y) (by omega) hi

/-- Witness for `read_pixels_callback_result`: a read of a 2 x 2 image with one
byte per pixel from a plane with a stride of 4 bytes whose byte at offset `k` is
`k + 10`; the second row of the bitmap starts with the byte at source offset 4. -/
theorem read_pixels_callback_result_witness :
    ∀ c ∈ read_pixels_callback ⟨7, 8, ⟨2, 2, 1⟩⟩ (some ⟨1, 99, fun k => k + 10, 4⟩)
        (fun _ => 0),
      c.success = true ∧ ∃ bitmap, c.result = some bitmap ∧
        bitmap.pixels (1 * bitmap.rowBytes + 0) = 14 := by
  intro c hc
  obtain ⟨hs, bitmap, hb, _, hpx⟩ :=
    (read_pixels_callback_result ⟨7, 8, ⟨2, 2, 1⟩⟩ (some ⟨1, 99, fun k => k + 10, 4⟩)
      (fun _ => 0)).2.2.2 ⟨1, 99, fun k => k + 10, 4⟩ rfl (by decide) (by decide) c hc
  exact ⟨hs, bitmap, hb, by simpa using hpx 1 0 (by decide) (by decide)⟩

/-! ## The hash of a paint -/

/-- C24.  `sk_paint_get_hash` equals the reference fold over the 17 values in
the order path effect, shader, mask filter, colour filter, blender, image
filter (pointers), colour R, G, B, A, stroke width, stroke miter (32-bit
patterns), anti-alias, dither, cap, join, style (bytes); the result fits in 32
bits, and two paints with the same 17 values have the same hash. -/
theorem paint_hash_is_reference (p : SkPaint) :
    sk_paint_get_hash p = referenceHash (hashedValues p) ∧
    (hashedValues p).length = 17 ∧
    sk_paint_get_hash p < 2 ^ 32 ∧
    (∀ q : SkPaint, hashedValues q = hashedValues p →
      sk_paint_get_hash q = sk_paint_get_hash p) := by
  have href : ∀ r : SkPaint, sk_paint_get_hash r = referenceHash (hashedValues r) := by
    intro r
    simp only [sk_paint_get_hash, referenceHash, hashedValues, List.foldl, mix, mix_f32,
      Nat.shiftRight_eq_div_pow]
  refine ⟨href p, rfl, ?_, ?_⟩
  · unfold sk_paint_get_hash
    exact Nat.mod_lt _ (by decide)
  · intro q hq
    rw [href q, href p, hq]

/-- Witness for `paint_hash_is_reference`: a paint whose style field holds 256
has the 17 values of a new paint (the style is hashed as a byte) and so its
hash. -/
theorem paint_hash_is_reference_witness :
    sk_paint_get_hash { sk_paint_new with fStyle := 256 } = sk_paint_get_hash sk_paint_new :=
  (paint_hash_is_reference sk_paint_new).2.2.2 { sk_paint_new with fStyle := 256 } (by decide)

/-- C25, the code at the failing input.  A new paint and a new paint whose
stroke width has been set to `-0.0f` are equal for `sk_paint_equals` (the two
zeros compare equal as floats) and have different hashes (their bit patterns
differ). -/
theorem equal_paints_hash_differently :
    (sk_paint_set_stroke_width sk_paint_new negativeZero).fWidth = negativeZero ∧
    sk_paint_equals sk_paint_new (sk_paint_set_stroke_width sk_paint_new negativeZero) = true ∧
    sk_paint_get_hash sk_paint_new = 1587586632 ∧
    sk_paint_get_hash (sk_paint_set_stroke_width sk_paint_new negativeZero) = 155885562 := by
  decide

/-! ## Path builder, path and matrix -/

/-- C26.  For a builder with `n` points and every index,
`sk_path_builder_get_point` returns true exactly when `0 ≤ index < n`; when it
returns true `*point` holds the point of that index and that point is the only
one read; when it returns false `*point` is what it was and no point is read. -/
theorem get_point_in_range (builder : List sk_point_t) (index : Int) (point : sk_point_t) :
    ((sk_path_builder_get_point builder index point).ret = true ↔
      0 ≤ index ∧ index < builder.length) ∧
    ((sk_path_builder_get_point builder index point).ret = true →
      builder[index.toNat]? = some (sk_path_builder_get_point builder index point).point ∧
      (sk_path_builder_get_point builder index point).reads = [index.toNat]) ∧
    ((sk_path_builder_get_point builder index point).ret = false →
      (sk_path_builder_get_point builder index point).point = point ∧
      (sk_path_builder_get_point builder index point).reads = []) := by
  simp only [sk_path_builder_get_point]
  by_cases h : index < 0 ∨ index ≥ (builder.length : Int)
  · have hn : ¬(0 ≤ index ∧ index < (builder.length : Int)) := by omega
    rw [if_pos h]
    simp [hn]
  · have hlt : index.toNat < builder.length := by omega
    have hy : 0 ≤ index ∧ index < (builder.length : Int) := by omega
    rw [if_neg h]
    simp [hy, List.getD_eq_getElem?_getD, List.getElem?_eq_getElem hlt]

/-- Witness for `get_point_in_range`: index 1 of a builder with two points, and
index 2 of the same builder. -/
theorem get_point_in_range_witness :
    (sk_path_builder_get_point [⟨1, 2⟩, ⟨3, 4⟩] 1 ⟨0, 0⟩).point = ⟨3, 4⟩ ∧
    (sk_path_builder_get_point [⟨1, 2⟩, ⟨3, 4⟩] 2 ⟨9, 9⟩).point = ⟨9, 9⟩ := by
  have h1 := ((get_point_in_range [⟨1, 2⟩, ⟨3, 4⟩] 1 ⟨0, 0⟩).2.1 (by decide)).1
  have h2 := ((get_point_in_range [⟨1, 2⟩, ⟨3, 4⟩] 2 ⟨9, 9⟩).2.2 (by decide)).1
  refine ⟨?_, h2⟩
  simpa using h1.symm

/-- C27.  `sk_path_write_to_memory` calls the native `writeToMemory` once, with
the buffer it was given; it returns true exactly when the buffer is not null;
when `size` is not null `*size` receives the byte count the native call
reported for that buffer, also for a null buffer, where the call returns
false; a null `size` stays null. -/
theorem write_to_memory_contract (writeToMemory : Handle → Nat) (buffer : Handle)
    (size : Option Nat) :
    ((sk_path_write_to_memory writeToMemory buffer size).ret = true ↔ buffer ≠ 0) ∧
    (sk_path_write_to_memory writeToMemory buffer size).nativeCalls = [buffer] ∧
    (size.isSome = true →
      (sk_path_write_to_memory writeToMemory buffer size).size = some (writeToMemory buffer)) ∧
    (size = none → (sk_path_write_to_memory writeToMemory buffer size).size = none) ∧
    (buffer = 0 → (sk_path_write_to_memory writeToMemory buffer size).ret = false ∧
      (size.isSome = true →
        (sk_path_write_to_memory writeToMemory buffer size).size = some (writeToMemory 0))) := by
  refine ⟨?_, rfl, ?_, ?_, ?_⟩
  · simp [sk_path_write_to_memory]
  · intro hs
    cases size with
    | none => exact absurd hs (by decide)
    | some v => rfl
  · rintro rfl
    rfl
  · rintro rfl
    refine ⟨by simp [sk_path_write_to_memory], fun hs => ?_⟩
    cases size with
    | none => exact absurd hs (by decide)
    | some v => rfl

/-- Witness for `write_to_memory_contract`: the size query with a null buffer
for a path whose serialised form has 48 bytes. -/
theorem write_to_memory_contract_witness :
    (sk_path_write_to_memory (fun _ => 48) 0 (some 0)).ret = false ∧
    (sk_path_write_to_memory (fun _ => 48) 0 (some 0)).size = some 48 :=
  ⟨((write_to_memory_contract (fun _ => 48) 0 (some 0)).2.2.2.2 rfl).1,
    ((write_to_memory_contract (fun _ => 48) 0 (some 0)).2.2.2.2 rfl).2 rfl⟩

/-- C28 as stated fails.  With `result` pointing to the matrix itself, the call
on an invertible matrix returns true and the matrix has been replaced by its
inverse. -/
theorem try_invert_in_place_modifies_matrix :
    (sk_matrix_try_invert sampleInvert 1 (fun _ => 5) 3 3).1 = true ∧
    (fun (_ : Handle) => 5) 3 = 5 ∧
    (sk_matrix_try_invert sampleInvert 1 (fun _ => 5) 3 3).2 3 = 105 := by
  decide

/-- C28, as amended.  `sk_matrix_try_invert(m, result)` returns whether `*m` is
invertible, the same with a null and with a non-null `result`.  It changes no
matrix other than `*result`, so `*m` is unchanged unless `result` points to it.
With a non-null `result`, `*result` is overwritten on every call: with the
inverse when there is one, with the identity when the call returns false. -/
theorem try_invert_frame {M : Type} (invert : M → Option M) (identity : M)
    (heap : Handle → M) (matrix result : Handle) :
    (sk_matrix_try_invert invert identity heap matrix result).1 =
      (invert (heap matrix)).isSome ∧
    (sk_matrix_try_invert invert identity heap matrix result).1 =
      (sk_matrix_try_invert invert identity heap matrix 0).1 ∧
    (∀ k, k ≠ result → (sk_matrix_try_invert invert identity heap matrix result).2 k = heap k) ∧
    (matrix ≠ result →
      (sk_matrix_try_invert invert identity heap matrix result).2 matrix = heap matrix) ∧
    (result ≠ 0 →
      (sk_matrix_try_invert invert identity heap matrix result).2 result =
        (invert (heap matrix)).getD identity) ∧
    (result ≠ 0 → invert (heap matrix) = none →
      (sk_matrix_try_invert invert identity heap matrix result).1 = false ∧
      (sk_matrix_try_invert invert identity heap matrix result).2 result = identity) := by
  by_cases hr : result = 0
  · subst hr
    simp [sk_matrix_try_invert]
  · refine ⟨?_, ?_, ?_, ?_, ?_, ?_⟩
    · simp [sk_matrix_try_invert, hr]
    · simp [sk_matrix_try_invert, hr]
    · intro k hk
      simp [sk_matrix_try_invert, hr, storeMatrix, hk]
    · intro hm
      simp [sk_matrix_try_invert, hr, storeMatrix, hm]
    · intro _
      simp [sk_matrix_try_invert, hr, storeMatrix]
    · intro _ hn
      simp [sk_matrix_try_invert, hr, storeMatrix, hn]

/-- Witness for `try_invert_frame`: a matrix at address 3 without inverse and a
result at address 4; the call returns false, the result is the identity and the
matrix is what it was. -/
theorem try_invert_frame_witness :
    (sk_matrix_try_invert sampleInvert 1 (fun _ => 0) 3 4).1 = false ∧
    (sk_matrix_try_invert sampleInvert 1 (fun _ => 0) 3 4).2 4 = 1 ∧
    (sk_matrix_try_invert sampleInvert 1 (fun _ => 0) 3 4).2 3 = 0 :=
  ⟨((try_invert_frame sampleInvert 1 (fun _ => 0) 3 4).2.2.2.2.2 (by decide) rfl).1,
    ((try_invert_frame sampleInvert 1 (fun _ => 0) 3 4).2.2.2.2.2 (by decide) rfl).2,
    (try_invert_frame sampleInvert 1 (fun _ => 0) 3 4).2.2.2.1 (by decide)⟩

/-! ## Graphite compiled out -/

/-- C29.  When `SK_GRAPHITE` is not defined, whatever the other switches, the
native side and the arguments: `is_supported` returns false, `is_device_lost`
true, `max_texture_size` and the two budgeted-byte getters 0,
`insert_recording`, `submit` and `has_unfinished_gpu_work` false,
`make_recorder`, `make_metal` and `make_dawn` null; and none of them
dereferences a pointer. -/
theorem graphite_compiled_out (cfg : BuildConfig) (native : GraphiteNative)
    (context info inst device queue : Handle) (hNo : cfg.SK_GRAPHITE = false) :
    skgpu_graphite_is_supported cfg = false ∧
    skgpu_graphite_context_is_device_lost cfg native context = (true, []) ∧
    skgpu_graphite_context_max_texture_size cfg native context = (0, []) ∧
    skgpu_graphite_context_current_budgeted_bytes cfg native context = (0, []) ∧
    skgpu_graphite_context_max_budgeted_bytes cfg native context = (0, []) ∧
    skgpu_graphite_context_insert_recording cfg native context info = (false, []) ∧
    skgpu_graphite_context_submit cfg native context info = (false, []) ∧
    skgpu_graphite_context_has_unfinished_gpu_work cfg native context = (false, []) ∧
    skgpu_graphite_context_make_recorder cfg native context = (0, []) ∧
    skgpu_graphite_context_make_metal cfg native device queue = (0, []) ∧
    skgpu_graphite_context_make_dawn cfg native inst device queue = (0, []) := by
  simp [skgpu_graphite_is_supported, skgpu_graphite_context_is_device_lost,
    skgpu_graphite_context_max_texture_size, skgpu_graphite_context_current_budgeted_bytes,
    skgpu_graphite_context_max_budgeted_bytes, skgpu_graphite_context_insert_recording,
    skgpu_graphite_context_submit, skgpu_graphite_context_has_unfinished_gpu_work,
    skgpu_graphite_context_make_recorder, skgpu_graphite_context_make_metal,
    skgpu_graphite_context_make_dawn, SK_ONLY_GRAPHITE, hNo]

/-- Witness for `graphite_compiled_out`: a build with Dawn and Metal but without
Graphite, the null context, and a native side that would answer otherwise. -/
theorem graphite_compiled_out_witness :
    skgpu_graphite_context_is_device_lost noGraphiteBuild sampleGraphite 0 = (true, []) ∧
    skgpu_graphite_context_make_dawn noGraphiteBuild sampleGraphite 10 20 30 = (0, []) :=
  ⟨(graphite_compiled_out noGraphiteBuild sampleGraphite 0 0 10 20 30 rfl).2.1,
    (graphite_compiled_out noGraphiteBuild sampleGraphite 0 0 10 20 30 rfl).2.2.2.2.2.2.2.2.2.2⟩

/-! ## The error text of a runtime effect -/

theorem makeEffect_spec (compile : String → Handle × String) (sksl : String)
    (error : Option String) :
    (makeEffect compile sksl error).effect = (compile sksl).1 ∧
    ((makeEffect compile sksl error).written = true ↔
      error.isSome = true ∧ 0 < (compile sksl).2.length) ∧
    ((makeEffect compile sksl error).written = true →
      (makeEffect compile sksl error).error = some (compile sksl).2) ∧
    ((makeEffect compile sksl error).written = false →
      (makeEffect compile sksl error).error = error) := by
  unfold makeEffect
  cases error with
  | none => simp
  | some previous =>
    by_cases h : (compile sksl).2.length > 0
    · simp [h]
    · have h0 : ¬(0 < (compile sksl).2.length) := h
      simp [h, h0]

/-- C30.  For each of the three `make_for` functions: the effect returned is
the native result, whatever `error` is; the string behind `error` is written
exactly when `error` is not null and the native compile returned a non-empty
message; when it is written it holds exactly that message, and otherwise the
contents of `error` are what they were. -/
theorem runtimeeffect_error_out (native : RuntimeEffectNative) (sksl : String)
    (error : Option String) :
    ((sk_runtimeeffect_make_for_color_filter native sksl error).effect =
        (native.MakeForColorFilter sksl).1 ∧
      ((sk_runtimeeffect_make_for_color_filter native sksl error).written = true ↔
        error.isSome = true ∧ 0 < (native.MakeForColorFilter sksl).2.length) ∧
      ((sk_runtimeeffect_make_for_color_filter native sksl error).written = true →
        (sk_runtimeeffect_make_for_color_filter native sksl error).error =
          some (native.MakeForColorFilter sksl).2) ∧
      ((sk_runtimeeffect_make_for_color_filter native sksl error).written = false →
        (sk_runtimeeffect_make_for_color_filter native sksl error).error = error)) ∧
    ((sk_runtimeeffect_make_for_shader native sksl error).effect =
        (native.MakeForShader sksl).1 ∧
      ((sk_runtimeeffect_make_for_shader native sksl error).written = true ↔
        error.isSome = true ∧ 0 < (native.MakeForShader sksl).2.length) ∧
      ((sk_runtimeeffect_make_for_shader native sksl error).written = true →
        (sk_runtimeeffect_make_for_shader native sksl error).error =
          some (native.MakeForShader sksl).2) ∧
      ((sk_runtimeeffect_make_for_shader native sksl error).written = false →
        (sk_runtimeeffect_make_for_shader native sksl error).error = error)) ∧
    ((sk_runtimeeffect_make_for_blender native sksl error).effect =
        (native.MakeForBlender sksl).1 ∧
      ((sk_runtimeeffect_make_for_blender native sksl error).written = true ↔
        error.isSome = true ∧ 0 < (native.MakeForBlender sksl).2.length) ∧
      ((sk_runtimeeffect_make_for_blender native sksl error).written = true →
        (sk_runtimeeffect_make_for_blender native sksl error).error =
          some (native.MakeForBlender sksl).2) ∧
      ((sk_runtimeeffect_make_for_blender native sksl error).written = false →
        (sk_runtimeeffect_make_for_blender native sksl error).error = error)) :=
  ⟨makeEffect_spec native.MakeForColorFilter sksl error,
    makeEffect_spec native.MakeForShader sksl error,
    makeEffect_spec native.MakeForBlender sksl error⟩

/-- Witness for `runtimeeffect_error_out`: the empty program with an error
string that held "old" receives the message of the compiler; a program that
compiles leaves "old" in place. -/
theorem runtimeeffect_error_out_witness :
    (sk_runtimeeffect_make_for_shader sampleCompiler "" (some "old")).error =
      some "error: empty" ∧
    (sk_runtimeeffect_make_for_shader sampleCompiler "half4 main()" (some "old")).error =
      some "old" :=
  ⟨(runtimeeffect_error_out sampleCompiler "" (some "old")).2.1.2.2.1 (by decide),
    (runtimeeffect_error_out sampleCompiler "half4 main()" (some "old")).2.1.2.2.2
      (by decide)⟩

end SkDawn
